import Mathlib

/-!
# ETCS_ATP: the TRA ATP mode-transition and speed-supervision engine

A shallow embedding of `src/DMI/tra_atp_integration.cpp` (class `TRAATPIntegration`)
and of the feed source it drives, `src/DMI/simrail/shp_interface.cpp`
(class `SHPInterface`).

Conventions of the embedding:
* C++ `float` values are exact rationals (`ℚ`); `int` and `int64_t` are `Int`.
* `platform->get_timer()` is the argument `now` of every operation that reads it.
* The `extern` bridge variables (`Vtarget`, `Vperm`, `Vsbi`, `Vebi`, `Vrelease`,
  `Vest`, `Dtarg`, `SB`, `EB`) are the record `Bridge`.
* Function-local `static` variables are fields of the state.
* Display widgets (`traSpeedometer`, `traStatusPanel`, ...) and `debug_print`
  are not part of the state; calls that only drive them are identity steps.
-/

namespace ETCS_ATP

/-! ## Data model (`shp_interface.h`) -/

inductive SHPSignalAspect where
  | RED_STOP
  | YELLOW_CAUTION
  | GREEN_CLEAR
  | YELLOW_YELLOW
  | GREEN_YELLOW
  | FLASHING_YELLOW
  | UNKNOWN
  deriving DecidableEq, Repr

structure SHPSpeedRestriction where
  distance : ℚ
  speed_limit : Int
  warning_speed : Int
  temporary : Bool
  reason : String
  active : Bool
  deriving DecidableEq

structure SHPSignalData where
  distance : ℚ
  aspect : SHPSignalAspect
  speed_limit : Int
  signal_id : String
  approach_control : Bool
  active : Bool
  deriving DecidableEq

structure SHPTrackData where
  distance : ℚ
  track_id : String
  station : String
  platform : Int
  level_crossing : Bool
  tunnel : Bool
  bridge : Bool
  deriving DecidableEq

structure SHPSystemStatus where
  connected : Bool
  shp_active : Bool
  atp_mode : Bool
  current_speed : ℚ
  target_speed : ℚ
  distance_to_target : ℚ
  train_number : String
  route : String
  deriving DecidableEq

/-- A command handed to the feed source: `sendBrakeCommand(emergency)` or
`sendTractionCutCommand()`. Their bodies only drive the display, so the model
records the calls in order. -/
inductive SHPCommand where
  | brake (emergency : Bool)
  | tractionCut
  deriving DecidableEq, Repr

/-- The members of class `SHPInterface`. The three callbacks are not fields:
the engine installs its own callbacks in `TRAATPIntegration::initialize()` as soon
as it takes ownership of the interface, and nothing replaces them afterwards.
`sent` records the commands received through `sendBrakeCommand` and
`sendTractionCutCommand`. -/
structure SHPInterface where
  initialized : Bool
  connected : Bool
  system_status : SHPSystemStatus
  speed_restrictions : List SHPSpeedRestriction
  signals : List SHPSignalData
  track_data : List SHPTrackData
  sent : List SHPCommand
  deriving DecidableEq

/-! ## Data model (`tra_atp_integration.h`) -/

inductive TRAATPIntegrationStatus where
  | DISCONNECTED
  | CONNECTING
  | CONNECTED
  | SYNCHRONIZING
  | SYNCHRONIZED
  | ERROR_STATE
  deriving DecidableEq, Repr

inductive TRAATPMode where
  | STANDBY
  | FULL_SUPERVISION
  | PARTIAL_SUPERVISION
  | ON_SIGHT
  | SHUNTING
  | EMERGENCY
  deriving DecidableEq, Repr

structure TRAATPSystemState where
  integration_status : TRAATPIntegrationStatus
  current_mode : TRAATPMode
  atp_active : Bool
  shp_active : Bool
  etcs_active : Bool
  current_speed : ℚ
  permitted_speed : ℚ
  target_speed : ℚ
  distance_to_target : ℚ
  brake_intervention : Bool
  traction_cut : Bool
  emergency_brake : Bool
  current_station : String
  next_station : String
  route_name : String
  train_number : String
  deriving DecidableEq

inductive TRAATPEventType where
  | SPEED_RESTRICTION_AHEAD
  | SIGNAL_CHANGE
  | BRAKE_INTERVENTION
  | TRACTION_CUT
  | EMERGENCY_BRAKE
  | MODE_CHANGE
  | SYSTEM_FAULT
  | COMMUNICATION_ERROR
  deriving DecidableEq, Repr

structure TRAATPEvent where
  type : TRAATPEventType
  message : String
  distance : ℚ
  severity : Int
  timestamp : Int
  additional_data : String
  deriving DecidableEq

/-- The `extern` supervision variables of the primary train-control layer that
the engine writes. -/
structure Bridge where
  Vtarget : ℚ
  Vperm : ℚ
  Vsbi : ℚ
  Vebi : ℚ
  Vrelease : ℚ
  Vest : ℚ
  Dtarg : ℚ
  SB : Bool
  EB : Bool
  deriving DecidableEq

/-- The members of class `TRAATPIntegration`, together with the process-wide
variables its methods read and write: the bridge, the `static float last_speed`
of `performSafetyChecks` (`none` until its declaration has been executed once)
and the statics `sim_speed` / `speed_direction` of
`SHPInterface::processSimRailData`. Event listeners are not modelled: they are
opaque functions of the caller that receive a copy of each event. -/
structure TRAATPIntegration where
  shp_interface : Option SHPInterface
  system_state : TRAATPSystemState
  event_history : List TRAATPEvent
  initialized : Bool
  running : Bool
  last_update_time : Int
  last_shp_update : Int
  bridge : Bridge
  last_speed : Option ℚ
  sim_speed : ℚ
  speed_direction : Int
  deriving DecidableEq

/-! ## Helper functions -/

def modeToString : TRAATPMode → String
  | .STANDBY => "待機模式"
  | .FULL_SUPERVISION => "完全監督模式"
  | .PARTIAL_SUPERVISION => "部分監督模式"
  | .ON_SIGHT => "目視運行模式"
  | .SHUNTING => "調車模式"
  | .EMERGENCY => "緊急模式"

def signalAspectToString : SHPSignalAspect → String
  | .RED_STOP => "紅燈停車"
  | .YELLOW_CAUTION => "黃燈注意"
  | .GREEN_CLEAR => "綠燈正常"
  | .YELLOW_YELLOW => "雙黃燈"
  | .GREEN_YELLOW => "綠黃燈"
  | .FLASHING_YELLOW => "閃黃燈"
  | .UNKNOWN => "未知"

namespace TRAATPIntegration

/-- Apply `f` to the feed source the engine holds, if it holds one
(`if (shp_interface) shp_interface->f()`). -/
def withSHP (f : SHPInterface → SHPInterface) (e : TRAATPIntegration) : TRAATPIntegration :=
  { e with shp_interface := e.shp_interface.map f }

end TRAATPIntegration

/-! ## The feed source: commands (`shp_interface.cpp`) -/

namespace SHPInterface

/-- `SHPInterface::sendBrakeCommand`: drives the display only. -/
def sendBrakeCommand (emergency : Bool) (s : SHPInterface) : SHPInterface :=
  { s with sent := s.sent ++ [SHPCommand.brake emergency] }

/-- `SHPInterface::sendTractionCutCommand`: drives the display only. -/
def sendTractionCutCommand (s : SHPInterface) : SHPInterface :=
  { s with sent := s.sent ++ [SHPCommand.tractionCut] }

end SHPInterface

/-! ## The engine: event log, brake and traction commands, mode transitions -/

namespace TRAATPIntegration

/-- The event record `TRAATPIntegration::addEvent` fills in before appending it. -/
def mkEvent (now : Int) (type : TRAATPEventType) (message : String) (distance : ℚ)
    (severity : Int) : TRAATPEvent :=
  { type := type, message := message, distance := distance, severity := severity,
    timestamp := now, additional_data := "" }

/-- `TRAATPIntegration::addEvent`: `push_back`, then erase the oldest 100 entries
once the size exceeds 1000. -/
def addEvent (now : Int) (type : TRAATPEventType) (message : String) (distance : ℚ)
    (severity : Int) (e : TRAATPIntegration) : TRAATPIntegration :=
  let event := mkEvent now type message distance severity
  let pushed := e.event_history ++ [event]
  { e with event_history := if pushed.length > 1000 then pushed.drop 100 else pushed }

/-- `TRAATPIntegration::sendETCSBrakeCommand`. -/
def sendETCSBrakeCommand (now : Int) (emergency : Bool) (e : TRAATPIntegration) :
    TRAATPIntegration :=
  if emergency then
    addEvent now .EMERGENCY_BRAKE "緊急煞車作用" 0 2
      { e with bridge := { e.bridge with EB := true },
               system_state := { e.system_state with emergency_brake := true } }
  else
    addEvent now .BRAKE_INTERVENTION "常用煞車作用" 0 1
      { e with bridge := { e.bridge with SB := true },
               system_state := { e.system_state with brake_intervention := true } }

/-- `TRAATPIntegration::sendETCSTractionCut`. -/
def sendETCSTractionCut (now : Int) (e : TRAATPIntegration) : TRAATPIntegration :=
  addEvent now .TRACTION_CUT "牽引切斷" 0 1
    { e with system_state := { e.system_state with traction_cut := true } }

/-- `TRAATPIntegration::applyServiceBrake`. -/
def applyServiceBrake (now : Int) (e : TRAATPIntegration) : TRAATPIntegration :=
  if e.system_state.brake_intervention then e
  else withSHP (SHPInterface.sendBrakeCommand false) (sendETCSBrakeCommand now false e)

/-- `TRAATPIntegration::cutTraction`. -/
def cutTraction (now : Int) (e : TRAATPIntegration) : TRAATPIntegration :=
  if e.system_state.traction_cut then e
  else withSHP SHPInterface.sendTractionCutCommand (sendETCSTractionCut now e)

/-- `TRAATPIntegration::applyEmergencyBrake`. -/
def applyEmergencyBrake (now : Int) (e : TRAATPIntegration) : TRAATPIntegration :=
  if e.system_state.emergency_brake then e
  else
    withSHP (fun s => SHPInterface.sendTractionCutCommand (SHPInterface.sendBrakeCommand true s))
      (cutTraction now (sendETCSBrakeCommand now true e))

/-- `TRAATPIntegration::releaseBrake`. -/
def releaseBrake (now : Int) (e : TRAATPIntegration) : TRAATPIntegration :=
  addEvent now .BRAKE_INTERVENTION "煞車釋放" 0 0
    { e with bridge := { e.bridge with SB := false, EB := false },
             system_state := { e.system_state with brake_intervention := false,
                                                   emergency_brake := false } }

/-- `TRAATPIntegration::restoreTraction`. -/
def restoreTraction (now : Int) (e : TRAATPIntegration) : TRAATPIntegration :=
  addEvent now .TRACTION_CUT "牽引恢復" 0 0
    { e with system_state := { e.system_state with traction_cut := false } }

/-- `TRAATPIntegration::validateModeTransition`. -/
def validateModeTransition (frm dst : TRAATPMode) : Bool :=
  if frm = dst then true
  else if dst = .EMERGENCY then true
  else if frm = .EMERGENCY ∧ dst ≠ .STANDBY then false
  else true

/-- `TRAATPIntegration::handleModeTransition`. -/
def handleModeTransition (now : Int) (new_mode : TRAATPMode) (e : TRAATPIntegration) :
    TRAATPIntegration :=
  if ¬ validateModeTransition e.system_state.current_mode new_mode then
    addEvent now .SYSTEM_FAULT
      ("無效的模式轉換: " ++ modeToString e.system_state.current_mode ++ " -> "
        ++ modeToString new_mode) 0 2 e
  else
    let old_mode := e.system_state.current_mode
    let e1 := { e with system_state := { e.system_state with current_mode := new_mode } }
    let e2 := addEvent now .MODE_CHANGE
      ("模式變更: " ++ modeToString old_mode ++ " -> " ++ modeToString new_mode) 0 0 e1
    match new_mode with
    | .STANDBY => { e2 with system_state := { e2.system_state with atp_active := false } }
    | .FULL_SUPERVISION =>
        { e2 with system_state := { e2.system_state with atp_active := true } }
    | .PARTIAL_SUPERVISION =>
        { e2 with system_state := { e2.system_state with atp_active := true } }
    | .ON_SIGHT => { e2 with system_state := { e2.system_state with permitted_speed := 40 } }
    | .SHUNTING => { e2 with system_state := { e2.system_state with permitted_speed := 25 } }
    | .EMERGENCY => applyEmergencyBrake now e2

/-- `TRAATPIntegration::setMode`: the returned flag and the state afterwards. -/
def setMode (now : Int) (mode : TRAATPMode) (e : TRAATPIntegration) :
    Bool × TRAATPIntegration :=
  let e1 := handleModeTransition now mode e
  (decide (e1.system_state.current_mode = mode), e1)

end TRAATPIntegration

/-! ## The feed source: connection and nearest-entry queries -/

/-- `std::min_element(first, last, comp)`: the first position is the candidate,
and a later element replaces the candidate when `comp element candidate` holds.
`none` is the `end()` iterator of an empty range. -/
def min_element {α : Type} (comp : α → α → Bool) : List α → Option α
  | [] => none
  | x :: xs => some (xs.foldl (fun smallest y => if comp y smallest then y else smallest) x)

namespace SHPInterface

/-- `SHPInterface::SHPInterface()`. -/
def construct : SHPInterface :=
  { initialized := false, connected := false,
    system_status :=
      { connected := false, shp_active := false, atp_mode := false, current_speed := 0,
        target_speed := 0, distance_to_target := 0, train_number := "", route := "" },
    speed_restrictions := [], signals := [], track_data := [], sent := [] }

/-- `SHPInterface::connect`: always succeeds and loads the simulated track data. -/
def connect (s : SHPInterface) : Bool × SHPInterface :=
  (true,
   { s with
     connected := true,
     system_status :=
       { s.system_status with connected := true, shp_active := true, atp_mode := true,
                              train_number := "TRA-1001", route := "西部幹線" },
     speed_restrictions :=
       [ { distance := 500, speed_limit := 80, warning_speed := 85, temporary := false,
           reason := "彎道限速", active := true },
         { distance := 1200, speed_limit := 60, warning_speed := 65, temporary := true,
           reason := "施工限速", active := true },
         { distance := 2000, speed_limit := 110, warning_speed := 115, temporary := false,
           reason := "正常限速", active := true } ],
     signals :=
       [ { distance := 300, aspect := .GREEN_CLEAR, speed_limit := 110, signal_id := "S001",
           approach_control := false, active := true },
         { distance := 800, aspect := .YELLOW_CAUTION, speed_limit := 80, signal_id := "S002",
           approach_control := true, active := true },
         { distance := 1500, aspect := .RED_STOP, speed_limit := 0, signal_id := "S003",
           approach_control := false, active := true } ],
     track_data :=
       [ { distance := 100, track_id := "1A", station := "台北", platform := 1,
           level_crossing := false, tunnel := false, bridge := false },
         { distance := 600, track_id := "1B", station := "", platform := 0,
           level_crossing := true, tunnel := false, bridge := false },
         { distance := 1100, track_id := "2A", station := "板橋", platform := 2,
           level_crossing := false, tunnel := false, bridge := true } ] })

/-- `SHPInterface::disconnect`. -/
def disconnect (s : SHPInterface) : SHPInterface :=
  if ¬ s.connected then s
  else
    { s with connected := false,
             system_status := { s.system_status with connected := false, shp_active := false },
             speed_restrictions := [], signals := [], track_data := [] }

/-- `SHPInterface::initialize` (named `doInitialize`: `initialize` is a reserved
word). The default callbacks it installs are replaced by the engine. -/
def doInitialize (s : SHPInterface) : Bool × SHPInterface :=
  if s.initialized then (true, s)
  else
    let r := connect s
    if ¬ r.1 then (false, r.2)
    else (true, { r.2 with initialized := true })

/-- `SHPInterface::getNextSpeedRestriction`. -/
def getNextSpeedRestriction (s : SHPInterface) : Option SHPSpeedRestriction :=
  match min_element (fun a b => a.active && decide (a.distance < b.distance))
      s.speed_restrictions with
  | some it => if it.active then some it else none
  | none => none

/-- `SHPInterface::getNextSignal`. -/
def getNextSignal (s : SHPInterface) : Option SHPSignalData :=
  match min_element (fun a b => a.active && decide (a.distance < b.distance)) s.signals with
  | some it => if it.active then some it else none
  | none => none

/-- `SHPInterface::getCurrentSignalAspect`. -/
def getCurrentSignalAspect (s : SHPInterface) : SHPSignalAspect :=
  match getNextSignal s with
  | some signal => signal.aspect
  | none => .UNKNOWN

/-- `SHPInterface::enableTRAATPMode`. -/
def enableTRAATPMode (enable : Bool) (s : SHPInterface) : SHPInterface :=
  { s with system_status := { s.system_status with atp_mode := enable } }

/-- `SHPInterface::setTRASpeedProfile`: the restriction list is replaced by `profile`,
in the order given. -/
def setTRASpeedProfile (profile : List SHPSpeedRestriction) (s : SHPInterface) :
    SHPInterface :=
  { s with speed_restrictions := profile }

/-- `SHPInterface::runSelfTest`; the three callbacks are installed, so only the
connection test can fail. -/
def runSelfTest (s : SHPInterface) : Bool :=
  if ¬ s.connected then false else true

end SHPInterface

/-- `initializeSHPInterface()` on an empty global pointer: a new interface,
initialised. -/
def initializeSHPInterface : Bool × SHPInterface :=
  SHPInterface.doInitialize SHPInterface.construct

/-! ## The engine: folding feed data into the state -/

namespace TRAATPIntegration

/-- `TRAATPIntegration::processSHPSpeedRestrictions`: the loop stops at the first
entry that is active with a positive distance. -/
def processSHPSpeedRestrictions (now : Int) (e : TRAATPIntegration) : TRAATPIntegration :=
  match e.shp_interface with
  | none => e
  | some shp =>
    match shp.speed_restrictions.find? (fun r => r.active && decide (r.distance > 0)) with
    | none => e
    | some restriction =>
      let e1 :=
        if (restriction.speed_limit : ℚ) < e.system_state.permitted_speed then
          let e0 := { e with system_state :=
            { e.system_state with permitted_speed := (restriction.speed_limit : ℚ) } }
          if e0.system_state.current_speed > e0.system_state.permitted_speed + 5 then
            applyServiceBrake now e0
          else e0
        else e
      { e1 with system_state :=
          { e1.system_state with target_speed := (restriction.speed_limit : ℚ),
                                 distance_to_target := restriction.distance } }

/-- `TRAATPIntegration::processSHPSignalData`: the loop stops at the first entry
that is active with a positive distance. -/
def processSHPSignalData (now : Int) (e : TRAATPIntegration) : TRAATPIntegration :=
  match e.shp_interface with
  | none => e
  | some shp =>
    match shp.signals.find? (fun s => s.active && decide (s.distance > 0)) with
    | none => e
    | some signal =>
      let e1 :=
        match signal.aspect with
        | .RED_STOP =>
          let e0 :=
            if signal.distance < 100 then applyEmergencyBrake now e
            else if signal.distance < 300 then applyServiceBrake now e
            else e
          { e0 with system_state := { e0.system_state with target_speed := 0 } }
        | .YELLOW_CAUTION =>
          { e with system_state :=
              { e.system_state with target_speed := min 80 e.system_state.permitted_speed } }
        | .GREEN_CLEAR =>
          { e with system_state :=
              { e.system_state with target_speed := e.system_state.permitted_speed } }
        | _ => e
      { e1 with system_state := { e1.system_state with distance_to_target := signal.distance } }

/-- The signal callback installed by `TRAATPIntegration::initialize()`. -/
def signal_callback (now : Int) (signal : SHPSignalData) (e : TRAATPIntegration) :
    TRAATPIntegration :=
  processSHPSignalData now
    (addEvent now .SIGNAL_CHANGE ("信號變化: " ++ signalAspectToString signal.aspect)
      signal.distance 1 e)

/-- The speed callback installed by `TRAATPIntegration::initialize()`. -/
def speed_callback (now : Int) (restriction : SHPSpeedRestriction) (e : TRAATPIntegration) :
    TRAATPIntegration :=
  processSHPSpeedRestrictions now
    (addEvent now .SPEED_RESTRICTION_AHEAD
      ("速度限制: " ++ toString restriction.speed_limit ++ " km/h") restriction.distance 1 e)

/-- The status callback installed by `TRAATPIntegration::initialize()`. -/
def status_callback (status : SHPSystemStatus) (e : TRAATPIntegration) : TRAATPIntegration :=
  { e with system_state :=
      { e.system_state with current_speed := status.current_speed,
                            target_speed := status.target_speed,
                            distance_to_target := status.distance_to_target,
                            train_number := status.train_number,
                            route_name := status.route,
                            shp_active := status.shp_active } }

end TRAATPIntegration

/-! ## The feed source: periodic update

These methods of `SHPInterface` run the engine's callbacks while they iterate,
so they act on the whole state; they are only entered when the engine holds a
feed source. -/

namespace SHPInterface

open TRAATPIntegration

/-- The feed's `system_status.current_speed`, read through the engine's pointer. -/
def currentSpeed (e : TRAATPIntegration) : ℚ :=
  match e.shp_interface with
  | some s => s.system_status.current_speed
  | none => 0

/-- `SHPInterface::processSimRailData`. -/
def processSimRailData (e : TRAATPIntegration) : TRAATPIntegration :=
  let sim_speed := e.sim_speed + (e.speed_direction : ℚ) * 2
  let d1 := if sim_speed ≥ 120 then -1 else e.speed_direction
  let d2 := if sim_speed ≤ 0 then 1 else d1
  withSHP
    (fun s =>
      let s1 := { s with system_status := { s.system_status with current_speed := sim_speed } }
      match getNextSpeedRestriction s1 with
      | some next_restriction =>
        { s1 with system_status :=
            { s1.system_status with target_speed := (next_restriction.speed_limit : ℚ),
                                    distance_to_target := next_restriction.distance } }
      | none => s1)
    { e with sim_speed := sim_speed, speed_direction := d2 }

/-- The `for` loop of `SHPInterface::updateSpeedRestrictions`: `done` are the
entries already visited, the second list those still to visit. The vector the
callback can observe is `done ++ current :: rest`. -/
def updateSpeedRestrictionsLoop (now : Int) :
    List SHPSpeedRestriction → List SHPSpeedRestriction → TRAATPIntegration → TRAATPIntegration
  | done, [], e => withSHP (fun s => { s with speed_restrictions := done }) e
  | done, restriction :: rest, e =>
    if restriction.active then
      let r1 := { restriction with distance := restriction.distance - currentSpeed e * (1 / 100) }
      if r1.distance ≤ 0 then
        let r2 := { r1 with active := false }
        let e1 := withSHP (fun s => { s with speed_restrictions := done ++ r2 :: rest }) e
        updateSpeedRestrictionsLoop now (done ++ [r2]) rest (speed_callback now r2 e1)
      else updateSpeedRestrictionsLoop now (done ++ [r1]) rest e
    else updateSpeedRestrictionsLoop now (done ++ [restriction]) rest e

/-- `SHPInterface::updateSpeedRestrictions`. -/
def updateSpeedRestrictions (now : Int) (e : TRAATPIntegration) : TRAATPIntegration :=
  match e.shp_interface with
  | none => e
  | some s =>
    withSHP
      (fun s1 =>
        { s1 with
          speed_restrictions :=
            s1.speed_restrictions.filter (fun r => !(!r.active && decide (r.distance < -100))) })
      (updateSpeedRestrictionsLoop now [] s.speed_restrictions e)

/-- The `for` loop of `SHPInterface::updateSignalData`. -/
def updateSignalDataLoop (now : Int) :
    List SHPSignalData → List SHPSignalData → TRAATPIntegration → TRAATPIntegration
  | done, [], e => withSHP (fun s => { s with signals := done }) e
  | done, signal :: rest, e =>
    if signal.active then
      let s1 := { signal with distance := signal.distance - currentSpeed e * (1 / 100) }
      if s1.distance ≤ 0 then
        let s2 := { s1 with active := false }
        let e1 := withSHP (fun s => { s with signals := done ++ s2 :: rest }) e
        updateSignalDataLoop now (done ++ [s2]) rest (signal_callback now s2 e1)
      else updateSignalDataLoop now (done ++ [s1]) rest e
    else updateSignalDataLoop now (done ++ [signal]) rest e

/-- `SHPInterface::updateSignalData`. -/
def updateSignalData (now : Int) (e : TRAATPIntegration) : TRAATPIntegration :=
  match e.shp_interface with
  | none => e
  | some s =>
    withSHP
      (fun s1 =>
        { s1 with
          signals := s1.signals.filter (fun x => !(!x.active && decide (x.distance < -50))) })
      (updateSignalDataLoop now [] s.signals e)

/-- `SHPInterface::updateTrackData`. -/
def updateTrackData (s : SHPInterface) : SHPInterface :=
  let moved := s.track_data.map
    (fun track =>
      { track with distance := track.distance - s.system_status.current_speed * (1 / 100) })
  { s with track_data := moved.filter (fun t => !(decide (t.distance < -100))) }

/-- `SHPInterface::update`. -/
def update (now : Int) (e : TRAATPIntegration) : TRAATPIntegration :=
  match e.shp_interface with
  | none => e
  | some s =>
    if ¬ s.connected then e
    else
      let e4 := withSHP updateTrackData
        (updateSignalData now (updateSpeedRestrictions now (processSimRailData e)))
      match e4.shp_interface with
      | some s4 => status_callback s4.system_status e4
      | none => e4

/-- `SHPInterface::forceUpdate`. -/
def forceUpdate (now : Int) (e : TRAATPIntegration) : TRAATPIntegration :=
  match e.shp_interface with
  | none => e
  | some s => if ¬ s.connected then e else update now e

end SHPInterface

/-! ## The engine: supervision, safety checks, life cycle -/

namespace TRAATPIntegration

/-- `TRAATPIntegration::TRAATPIntegration()`, in a process whose bridge
variables hold `bridge` and whose function statics are still untouched. -/
def construct (bridge : Bridge) : TRAATPIntegration :=
  { shp_interface := none,
    system_state :=
      { integration_status := .DISCONNECTED, current_mode := .STANDBY, atp_active := false,
        shp_active := false, etcs_active := false, current_speed := 0, permitted_speed := 130,
        target_speed := 0, distance_to_target := 0, brake_intervention := false,
        traction_cut := false, emergency_brake := false, current_station := "",
        next_station := "", route_name := "西部幹線", train_number := "TRA-1001" },
    event_history := [], initialized := false, running := false, last_update_time := 0,
    last_shp_update := 0, bridge := bridge, last_speed := none, sim_speed := 0,
    speed_direction := 1 }

/-- `TRAATPIntegration::isSimRailConnected`. -/
def isSimRailConnected (e : TRAATPIntegration) : Bool :=
  match e.shp_interface with
  | some s => s.connected
  | none => false

/-- `TRAATPIntegration::connectToSimRail`. -/
def connectToSimRail (now : Int) (e : TRAATPIntegration) : Bool × TRAATPIntegration :=
  match e.shp_interface with
  | none => (false, e)
  | some s =>
    let r := SHPInterface.connect s
    let e1 := { e with shp_interface := some r.2 }
    if r.1 then
      (r.1, addEvent now .COMMUNICATION_ERROR "SimRail連接成功" 0 0
        { e1 with system_state := { e1.system_state with integration_status := .CONNECTED } })
    else
      (r.1, addEvent now .COMMUNICATION_ERROR "SimRail連接失敗" 0 2
        { e1 with system_state := { e1.system_state with integration_status := .ERROR_STATE } })

/-- `TRAATPIntegration::disconnectFromSimRail`. -/
def disconnectFromSimRail (now : Int) (e : TRAATPIntegration) : TRAATPIntegration :=
  let e1 := withSHP SHPInterface.disconnect e
  addEvent now .COMMUNICATION_ERROR "SimRail連接中斷" 0 1
    { e1 with system_state := { e1.system_state with integration_status := .DISCONNECTED } }

/-- `TRAATPIntegration::initialize` (named `doInitialize`: `initialize` is a
reserved word). The global `::shp_interface` is empty whenever the engine is not
initialised (the engine moves it out), so a new interface is created. -/
def doInitialize (now : Int) (e : TRAATPIntegration) : Bool × TRAATPIntegration :=
  if e.initialized then (true, e)
  else
    let r := initializeSHPInterface
    if ¬ r.1 then (false, e)
    else
      let e1 := addEvent now .SYSTEM_FAULT "台鐵ATP系統初始化" 0 0
        { e with shp_interface := some r.2 }
      (true, { e1 with system_state := { e1.system_state with integration_status := .CONNECTED },
                       initialized := true })

/-- `TRAATPIntegration::start`. -/
def start (now : Int) (e : TRAATPIntegration) : Bool × TRAATPIntegration :=
  if ¬ e.initialized then (false, e)
  else if e.running then (true, e)
  else
    let r := connectToSimRail now e
    if ¬ r.1 then (false, r.2)
    else
      let e1 := { r.2 with
        system_state := { r.2.system_state with atp_active := true,
                                                current_mode := .FULL_SUPERVISION,
                                                integration_status := .SYNCHRONIZED },
        running := true, last_update_time := now }
      (true, addEvent now .MODE_CHANGE "ATP系統啟動 - 完全監督模式" 0 0 e1)

/-- `TRAATPIntegration::connectToSimRail` with the outcome of
`shp_interface->connect()` left open: `connect` stands for any behaviour of the feed
source's `connect()` (the one in `shp_interface.cpp` always succeeds). -/
def connectToSimRailWith (connect : SHPInterface → Bool × SHPInterface) (now : Int)
    (e : TRAATPIntegration) : Bool × TRAATPIntegration :=
  match e.shp_interface with
  | none => (false, e)
  | some s =>
    let r := connect s
    let e1 := { e with shp_interface := some r.2 }
    if r.1 then
      (r.1, addEvent now .COMMUNICATION_ERROR "SimRail連接成功" 0 0
        { e1 with system_state := { e1.system_state with integration_status := .CONNECTED } })
    else
      (r.1, addEvent now .COMMUNICATION_ERROR "SimRail連接失敗" 0 2
        { e1 with system_state := { e1.system_state with integration_status := .ERROR_STATE } })

/-- `TRAATPIntegration::start` with the outcome of the feed source's `connect()` left
open, as in `connectToSimRailWith`. -/
def startWith (connect : SHPInterface → Bool × SHPInterface) (now : Int)
    (e : TRAATPIntegration) : Bool × TRAATPIntegration :=
  if ¬ e.initialized then (false, e)
  else if e.running then (true, e)
  else
    let r := connectToSimRailWith connect now e
    if ¬ r.1 then (false, r.2)
    else
      let e1 := { r.2 with
        system_state := { r.2.system_state with atp_active := true,
                                                current_mode := .FULL_SUPERVISION,
                                                integration_status := .SYNCHRONIZED },
        running := true, last_update_time := now }
      (true, addEvent now .MODE_CHANGE "ATP系統啟動 - 完全監督模式" 0 0 e1)

/-- `TRAATPIntegration::stop`. -/
def stop (now : Int) (e : TRAATPIntegration) : TRAATPIntegration :=
  if ¬ e.running then e
  else
    let e1 := { e with system_state :=
      { e.system_state with atp_active := false, current_mode := .STANDBY,
                            brake_intervention := false, traction_cut := false,
                            emergency_brake := false } }
    let e2 := disconnectFromSimRail now e1
    addEvent now .MODE_CHANGE "ATP系統停止" 0 0 { e2 with running := false }

/-- `TRAATPIntegration::shutdown`. -/
def shutdown (now : Int) (e : TRAATPIntegration) : TRAATPIntegration :=
  if ¬ e.initialized then e
  else
    let e1 := stop now e
    let e2 := { e1 with shp_interface := none }
    addEvent now .SYSTEM_FAULT "台鐵ATP系統關閉" 0 0
      { e2 with system_state := { e2.system_state with integration_status := .DISCONNECTED },
                initialized := false }

/-- `TRAATPIntegration::updateETCSSupervision`, first part: the seven numeric
bridge variables are written from the state. -/
def writeSupervisionData (e : TRAATPIntegration) : TRAATPIntegration :=
  { e with bridge :=
      { e.bridge with Vtarget := e.system_state.target_speed,
                      Vperm := e.system_state.permitted_speed,
                      Vest := e.system_state.current_speed,
                      Dtarg := e.system_state.distance_to_target,
                      Vsbi := e.system_state.permitted_speed + 5,
                      Vebi := e.system_state.permitted_speed + 10,
                      Vrelease := e.system_state.permitted_speed - 2 } }

/-- `TRAATPIntegration::updateETCSSupervision`, the service-brake check
`if (current_speed > Vsbi && !brake_intervention) applyServiceBrake();`. -/
def checkServiceBrake (now : Int) (e : TRAATPIntegration) : TRAATPIntegration :=
  if e.system_state.current_speed > e.bridge.Vsbi ∧ ¬ e.system_state.brake_intervention
  then applyServiceBrake now e else e

/-- `TRAATPIntegration::updateETCSSupervision`, the emergency-brake check
`if (current_speed > Vebi && !emergency_brake) applyEmergencyBrake();`. -/
def checkEmergencyBrake (now : Int) (e : TRAATPIntegration) : TRAATPIntegration :=
  if e.system_state.current_speed > e.bridge.Vebi ∧ ¬ e.system_state.emergency_brake
  then applyEmergencyBrake now e else e

/-- `TRAATPIntegration::updateETCSSupervision`, the release check
`if (brake_intervention && current_speed <= Vrelease) releaseBrake();`. -/
def checkBrakeRelease (now : Int) (e : TRAATPIntegration) : TRAATPIntegration :=
  if e.system_state.brake_intervention ∧ e.system_state.current_speed ≤ e.bridge.Vrelease
  then releaseBrake now e else e

/-- `TRAATPIntegration::updateETCSSupervision`: nothing unless `etcs_active`;
otherwise the bridge data is written and the three checks run in order. -/
def updateETCSSupervision (now : Int) (e : TRAATPIntegration) : TRAATPIntegration :=
  if ¬ e.system_state.etcs_active then e
  else
    checkBrakeRelease now
      (checkEmergencyBrake now (checkServiceBrake now (writeSupervisionData e)))

/-- `TRAATPIntegration::performSafetyChecks`: the verdict and the state (the
static `last_speed` may change). -/
def performSafetyChecks (e : TRAATPIntegration) : Bool × TRAATPIntegration :=
  let ok1 : Bool :=
    if e.system_state.current_speed > e.system_state.permitted_speed + 15 then false else true
  let ok2 : Bool := if e.system_state.atp_active ∧ ¬ isSimRailConnected e then false else ok1
  if e.system_state.emergency_brake ∧ e.system_state.current_speed > 5 then
    let last_speed := e.last_speed.getD e.system_state.current_speed
    let ok3 : Bool := if e.system_state.current_speed ≥ last_speed then false else ok2
    (ok3, { e with last_speed := some e.system_state.current_speed })
  else (ok2, e)

/-- `TRAATPIntegration::handleSafetyViolation`. -/
def handleSafetyViolation (now : Int) (violation : String) (e : TRAATPIntegration) :
    TRAATPIntegration :=
  handleModeTransition now .EMERGENCY
    (cutTraction now
      (applyEmergencyBrake now
        (addEvent now .SYSTEM_FAULT ("安全違規: " ++ violation) 0 2 e)))

/-- `TRAATPIntegration::update`, the feed refresh
`if (shp_interface && current_time - last_shp_update > 500) ...`. -/
def refreshFeed (now : Int) (e : TRAATPIntegration) : TRAATPIntegration :=
  if e.shp_interface.isSome ∧ now - e.last_shp_update > 500 then
    { SHPInterface.update now e with last_shp_update := now }
  else e

/-- `TRAATPIntegration::update`, the safety check
`if (!performSafetyChecks()) handleSafetyViolation("安全檢查失敗");`. -/
def runSafetyChecks (now : Int) (e : TRAATPIntegration) : TRAATPIntegration :=
  if ¬ (performSafetyChecks e).1 then
    handleSafetyViolation now "安全檢查失敗" (performSafetyChecks e).2
  else (performSafetyChecks e).2

/-- `TRAATPIntegration::update`: nothing unless running and at least 100 ms after
the last effective tick; otherwise the feed refresh, the safety check and the
threshold supervision, in this order (`processEvents` and the display update change
nothing). -/
def update (now : Int) (e : TRAATPIntegration) : TRAATPIntegration :=
  if ¬ e.running then e
  else if now - e.last_update_time < 100 then e
  else
    updateETCSSupervision now
      (runSafetyChecks now (refreshFeed now { e with last_update_time := now }))

/-- `TRAATPIntegration::enableATP`; it always returns `true`. -/
def enableATP (now : Int) (enable : Bool) (e : TRAATPIntegration) : TRAATPIntegration :=
  let e1 := { e with system_state := { e.system_state with atp_active := enable } }
  if enable then
    let e2 := addEvent now .MODE_CHANGE "ATP啟用" 0 0 e1
    if e2.system_state.current_mode = .STANDBY then handleModeTransition now .FULL_SUPERVISION e2
    else e2
  else
    handleModeTransition now .STANDBY (addEvent now .MODE_CHANGE "ATP停用" 0 1 e1)

/-- `TRAATPIntegration::enableSHP`; it always returns `true`. -/
def enableSHP (now : Int) (enable : Bool) (e : TRAATPIntegration) : TRAATPIntegration :=
  let e1 := { e with system_state := { e.system_state with shp_active := enable } }
  addEvent now .MODE_CHANGE (if enable then "SHP啟用" else "SHP停用") 0 0
    (withSHP (SHPInterface.enableTRAATPMode enable) e1)

/-- `TRAATPIntegration::enableETCS`; it always returns `true`. -/
def enableETCS (now : Int) (enable : Bool) (e : TRAATPIntegration) : TRAATPIntegration :=
  addEvent now .MODE_CHANGE (if enable then "ETCS啟用" else "ETCS停用") 0 0
    { e with system_state := { e.system_state with etcs_active := enable } }

/-- `TRAATPIntegration::setPermittedSpeed`. -/
def setPermittedSpeed (speed : ℚ) (e : TRAATPIntegration) : TRAATPIntegration :=
  { e with system_state := { e.system_state with permitted_speed := speed } }

/-- `TRAATPIntegration::setTargetSpeed`. -/
def setTargetSpeed (speed : ℚ) (e : TRAATPIntegration) : TRAATPIntegration :=
  { e with system_state := { e.system_state with target_speed := speed } }

/-- `TRAATPIntegration::setCurrentSpeed`. -/
def setCurrentSpeed (speed : ℚ) (e : TRAATPIntegration) : TRAATPIntegration :=
  { e with system_state := { e.system_state with current_speed := speed } }

/-- `TRAATPIntegration::setDistanceToTarget`. -/
def setDistanceToTarget (distance : ℚ) (e : TRAATPIntegration) : TRAATPIntegration :=
  { e with system_state := { e.system_state with distance_to_target := distance } }

/-- `TRAATPIntegration::getEventHistory`. -/
def getEventHistory (max_events : Int) (e : TRAATPIntegration) : List TRAATPEvent :=
  if max_events ≤ 0 ∨ max_events ≥ (e.event_history.length : Int) then e.event_history
  else e.event_history.drop (e.event_history.length - max_events.toNat)

/-- `TRAATPIntegration::clearEventHistory`. -/
def clearEventHistory (e : TRAATPIntegration) : TRAATPIntegration :=
  { e with event_history := [] }

/-- `TRAATPIntegration::runSystemTest`: the verdict and the state afterwards. -/
def runSystemTest (now : Int) (e : TRAATPIntegration) : Bool × TRAATPIntegration :=
  let e1 := addEvent now .SYSTEM_FAULT "系統自檢開始" 0 0 e
  let failed : Bool :=
    match e1.shp_interface with
    | some s => !SHPInterface.runSelfTest s
    | none => false
  let e2 := if failed then addEvent now .SYSTEM_FAULT "SHP介面測試失敗" 0 2 e1 else e1
  (!failed,
   addEvent now .SYSTEM_FAULT (if failed then "系統自檢失敗" else "系統自檢通過") 0
     (if failed then 2 else 0) e2)

/-- `TRAATPIntegration::performCalibration`; it always returns `true`. -/
def performCalibration (now : Int) (e : TRAATPIntegration) : TRAATPIntegration :=
  addEvent now .SYSTEM_FAULT "系統校準完成" 0 0
    (addEvent now .SYSTEM_FAULT "系統校準開始" 0 0 e)

/-- `TRAATPIntegration::forceSimRailUpdate`. -/
def forceSimRailUpdate (now : Int) (e : TRAATPIntegration) : TRAATPIntegration :=
  SHPInterface.forceUpdate now e

/-- `TRAATPIntegration::resetToDefaults`. -/
def resetToDefaults (now : Int) (e : TRAATPIntegration) : TRAATPIntegration :=
  addEvent now .SYSTEM_FAULT "系統重置為預設值" 0 0
    { e with system_state := { e.system_state with permitted_speed := 130, target_speed := 0,
                                                   current_mode := .STANDBY } }

end TRAATPIntegration

/-! ## Runs of the public operations -/

/-- One call of a state-changing public method of `TRAATPIntegration`; `now` is
the timer value read during the call. -/
inductive Op where
  | doInitialize (now : Int)
  | shutdown (now : Int)
  | start (now : Int)
  | stop (now : Int)
  | update (now : Int)
  | setMode (now : Int) (mode : TRAATPMode)
  | enableATP (now : Int) (enable : Bool)
  | enableSHP (now : Int) (enable : Bool)
  | enableETCS (now : Int) (enable : Bool)
  | setPermittedSpeed (speed : ℚ)
  | setTargetSpeed (speed : ℚ)
  | setCurrentSpeed (speed : ℚ)
  | setDistanceToTarget (distance : ℚ)
  | applyServiceBrake (now : Int)
  | applyEmergencyBrake (now : Int)
  | releaseBrake (now : Int)
  | cutTraction (now : Int)
  | restoreTraction (now : Int)
  | clearEventHistory
  | runSystemTest (now : Int)
  | performCalibration (now : Int)
  | connectToSimRail (now : Int)
  | disconnectFromSimRail (now : Int)
  | forceSimRailUpdate (now : Int)
  | resetToDefaults (now : Int)

open TRAATPIntegration in
/-- The state after one public operation. -/
def step : Op → TRAATPIntegration → TRAATPIntegration
  | .doInitialize now, e => (doInitialize now e).2
  | .shutdown now, e => shutdown now e
  | .start now, e => (start now e).2
  | .stop now, e => stop now e
  | .update now, e => update now e
  | .setMode now mode, e => (setMode now mode e).2
  | .enableATP now enable, e => enableATP now enable e
  | .enableSHP now enable, e => enableSHP now enable e
  | .enableETCS now enable, e => enableETCS now enable e
  | .setPermittedSpeed speed, e => setPermittedSpeed speed e
  | .setTargetSpeed speed, e => setTargetSpeed speed e
  | .setCurrentSpeed speed, e => setCurrentSpeed speed e
  | .setDistanceToTarget distance, e => setDistanceToTarget distance e
  | .applyServiceBrake now, e => applyServiceBrake now e
  | .applyEmergencyBrake now, e => applyEmergencyBrake now e
  | .releaseBrake now, e => releaseBrake now e
  | .cutTraction now, e => cutTraction now e
  | .restoreTraction now, e => restoreTraction now e
  | .clearEventHistory, e => clearEventHistory e
  | .runSystemTest now, e => (runSystemTest now e).2
  | .performCalibration now, e => performCalibration now e
  | .connectToSimRail now, e => (connectToSimRail now e).2
  | .disconnectFromSimRail now, e => disconnectFromSimRail now e
  | .forceSimRailUpdate now, e => forceSimRailUpdate now e
  | .resetToDefaults now, e => resetToDefaults now e

/-- The state after a sequence of public operations, first operation first. -/
def run (ops : List Op) (e : TRAATPIntegration) : TRAATPIntegration :=
  ops.foldl (fun acc op => step op acc) e

/-- The states the engine can be in: constructed, then driven through its
public methods. -/
inductive Reachable : TRAATPIntegration → Prop where
  | construct (bridge : Bridge) : Reachable (TRAATPIntegration.construct bridge)
  | step (op : Op) {e : TRAATPIntegration} : Reachable e → Reachable (step op e)


/-! ## Sample states -/

/-- A bridge with every value zero and both brake demands clear. -/
def zeroBridge : Bridge :=
  { Vtarget := 0, Vperm := 0, Vsbi := 0, Vebi := 0, Vrelease := 0, Vest := 0, Dtarg := 0,
    SB := false, EB := false }

/-- A fresh engine. -/
def freshEngine : TRAATPIntegration := TRAATPIntegration.construct zeroBridge

/-- The engine after `initialize()` and `setMode(EMERGENCY)`. -/
def emergencyEngine : TRAATPIntegration :=
  run [.doInitialize 0, .setMode 0 .EMERGENCY] freshEngine

/-- The engine after `setMode(ON_SIGHT)` and `setPermittedSpeed(100)`. -/
def onSightEngine : TRAATPIntegration :=
  run [.setMode 0 .ON_SIGHT, .setPermittedSpeed 100] freshEngine

open TRAATPIntegration

/-! ## Reading the event log -/

/-- `LogAppended old new evs`: the log `new` is the log `old` followed by exactly the
events `evs`, in that order, except that some of the oldest entries of `old` may
have been evicted by the capacity rule of `addEvent`. -/
def LogAppended (old new evs : List TRAATPEvent) : Prop :=
  ∃ k, k ≤ old.length ∧ new = (old ++ evs).drop k

/-- The engine after `applyEmergencyBrake()` followed by `restoreTraction()`. -/
def tractionRestoredEngine : TRAATPIntegration :=
  run [.applyEmergencyBrake 0, .restoreTraction 0] freshEngine

/-- The emergency brake is never on locally without the bridge's demand `EB`. -/
def EmergencyDemandInv (e : TRAATPIntegration) : Prop :=
  e.system_state.emergency_brake = true → e.bridge.EB = true

/-- The engine with ETCS supervision enabled, permitted speed 130 (the default)
and current speed 136. -/
def overspeed136Engine : TRAATPIntegration :=
  run [.enableETCS 0 true, .setCurrentSpeed 136] freshEngine

/-- The engine with ETCS supervision enabled, the emergency brake applied (and the
service brake not), at standstill with permitted speed 130. -/
def emergencyOnlyEngine : TRAATPIntegration :=
  run [.enableETCS 0 true, .applyEmergencyBrake 0] freshEngine

/-- The engine with ETCS supervision enabled, the service brake applied, at
standstill with permitted speed 130. -/
def serviceBrakeEngine : TRAATPIntegration :=
  run [.enableETCS 0 true, .applyServiceBrake 0] freshEngine

/-- The speeds and distance of the state together with the seven numeric bridge
variables: the data the threshold supervision reads and writes, apart from the
brake flags. -/
def supervisionData (e : TRAATPIntegration) : (ℚ × ℚ × ℚ × ℚ) × (ℚ × ℚ × ℚ × ℚ × ℚ × ℚ × ℚ) :=
  ((e.system_state.permitted_speed, e.system_state.target_speed, e.system_state.current_speed,
    e.system_state.distance_to_target),
   (e.bridge.Vperm, e.bridge.Vsbi, e.bridge.Vebi, e.bridge.Vrelease, e.bridge.Vtarget,
    e.bridge.Vest, e.bridge.Dtarg))

/-- A sequence of appends: `addEvent` called once for each entry of `evs`
(timer value, type, message, distance, severity), first entry first. -/
def addEvents (evs : List (Int × TRAATPEventType × String × ℚ × Int))
    (e : TRAATPIntegration) : TRAATPIntegration :=
  evs.foldl (fun acc ev => addEvent ev.1 ev.2.1 ev.2.2.1 ev.2.2.2.1 ev.2.2.2.2 acc) e

/-- The engine after 1000 calls of `enableETCS(true)`: its log holds 1000 entries. -/
def fullLogEngine : TRAATPIntegration :=
  run (List.replicate 1000 (.enableETCS 0 true)) freshEngine

/-- The feed source once the train has passed the first restriction and the first
signal of the simulated track: both were retired in place (`active = false`, distance
just below zero) and stay at the head of their lists; the later entries are active. -/
def retiredHeadFeed : SHPInterface :=
  { (SHPInterface.connect SHPInterface.construct).2 with
    speed_restrictions :=
      [ { distance := -2 / 5, speed_limit := 80, warning_speed := 85, temporary := false,
          reason := "彎道限速", active := false },
        { distance := 3498 / 5, speed_limit := 60, warning_speed := 65, temporary := true,
          reason := "施工限速", active := true },
        { distance := 7498 / 5, speed_limit := 110, warning_speed := 115, temporary := false,
          reason := "正常限速", active := true } ],
    signals :=
      [ { distance := -1 / 5, aspect := .GREEN_CLEAR, speed_limit := 110, signal_id := "S001",
          approach_control := false, active := false },
        { distance := 2499 / 5, aspect := .YELLOW_CAUTION, speed_limit := 80,
          signal_id := "S002", approach_control := true, active := true },
        { distance := 5999 / 5, aspect := .RED_STOP, speed_limit := 0, signal_id := "S003",
          approach_control := false, active := true } ] }

/-- An initialised engine whose feed source was given, through
`setTRASpeedProfile`, a profile that lists the restriction at 1200 m before the one
at 500 m. -/
def unsortedFeedEngine : TRAATPIntegration :=
  withSHP
    (SHPInterface.setTRASpeedProfile
      [ { distance := 1200, speed_limit := 60, warning_speed := 65, temporary := true,
          reason := "施工限速", active := true },
        { distance := 500, speed_limit := 80, warning_speed := 85, temporary := false,
          reason := "彎道限速", active := true } ])
    (run [.doInitialize 0] freshEngine)

/-- A connected feed source whose only signal is a RedStop at distance `d`, active. -/
def redStopFeed (d : ℚ) : SHPInterface :=
  { (SHPInterface.connect SHPInterface.construct).2 with
    signals :=
      [ { distance := d, aspect := .RED_STOP, speed_limit := 0, signal_id := "S003",
          approach_control := false, active := true } ] }

/-- An initialised engine whose feed source holds a single RedStop signal at
distance `d`. -/
def redStopEngine (d : ℚ) : TRAATPIntegration :=
  { run [.doInitialize 0] freshEngine with shp_interface := some (redStopFeed d) }

/-- A feed-source `connect()` that fails and leaves the interface as it was. -/
def failingConnect (s : SHPInterface) : Bool × SHPInterface := (false, s)

/-- The engine after `initialize()`. -/
def initializedEngine : TRAATPIntegration := run [.doInitialize 0] freshEngine

/-- The engine after `applyEmergencyBrake()`, not running. -/
def brakedIdleEngine : TRAATPIntegration := run [.applyEmergencyBrake 0] freshEngine

/-- The life-cycle flags of the engine: `(initialized, running)`. -/
def lifecycle (e : TRAATPIntegration) : Bool × Bool := (e.initialized, e.running)

/-- The engine is never running without being initialised. -/
def RunningInv (e : TRAATPIntegration) : Prop :=
  e.running = true → e.initialized = true

/-- The event log holds at most 1000 entries. -/
def LogBound (e : TRAATPIntegration) : Prop := e.event_history.length ≤ 1000

/-- The engine after `initialize()` and `start()`, reporting 300 km/h against the
constructor's permitted speed of 130 km/h. -/
def startedOverspeedEngine : TRAATPIntegration :=
  run [.doInitialize 0, .start 0, .setCurrentSpeed 300] freshEngine

/-- The engine with the emergency brake applied at 50 km/h, before its safety check
has ever run. -/
def firstCheckEngine : TRAATPIntegration :=
  run [.applyEmergencyBrake 0, .setCurrentSpeed 50] freshEngine

/-- The initialised engine reporting 100 km/h. -/
def initialized100Engine : TRAATPIntegration :=
  run [.doInitialize 0, .setCurrentSpeed 100] freshEngine

/-- Three consecutive safety checks under the emergency brake, at 50, 4 and 10 km/h:
the state in which the third check runs. -/
def thirdCheckEngine : TRAATPIntegration :=
  setCurrentSpeed 10
    (performSafetyChecks (setCurrentSpeed 4 (performSafetyChecks firstCheckEngine).2)).2

/-- The engine after `initialize()` and `start()`: running, the simulated track
loaded, nothing else done. -/
def startedEngine : TRAATPIntegration := run [.doInitialize 0, .start 0] freshEngine

/-- A running engine with ETCS enabled and the service brake applied, at standstill,
whose feed source has just been disconnected while ATP is active. -/
def disconnectedBrakedEngine : TRAATPIntegration :=
  run [.doInitialize 0, .start 0, .enableETCS 0 true, .applyServiceBrake 0,
    .disconnectFromSimRail 0] freshEngine

/-- The engine started, both brakes applied, then stopped. -/
def stoppedAfterBrakingEngine : TRAATPIntegration :=
  run [.doInitialize 0, .start 0, .applyServiceBrake 0, .applyEmergencyBrake 0, .stop 0]
    freshEngine

/-- The body of the `for` loop of `SHPInterface::updateSpeedRestrictions` on one
entry at feed speed `v`, the callback aside: an active entry is moved by `v * 0.01`
and retired once its distance is not positive; an inactive entry is left alone. -/
def advanceRestriction (v : ℚ) (r : SHPSpeedRestriction) : SHPSpeedRestriction :=
  if r.active then
    let r1 := { r with distance := r.distance - v * (1 / 100) }
    if r1.distance ≤ 0 then { r1 with active := false } else r1
  else r

/-- The body of the `for` loop of `SHPInterface::updateSignalData` on one entry at
feed speed `v`, the callback aside. -/
def advanceSignal (v : ℚ) (s : SHPSignalData) : SHPSignalData :=
  if s.active then
    let s1 := { s with distance := s.distance - v * (1 / 100) }
    if s1.distance ≤ 0 then { s1 with active := false } else s1
  else s

/-- The feed source the engine holds, without the log of display commands sent to
it: connection flags, status and the three collections. -/
def feedData (e : TRAATPIntegration) : Option SHPInterface :=
  e.shp_interface.map (fun s => { s with sent := [] })

/-- A sequence of feed updates, one for each timer value of `nows`. -/
def feedUpdates (nows : List Int) (e : TRAATPIntegration) : TRAATPIntegration :=
  nows.foldl (fun acc now => SHPInterface.update now acc) e

/-- An initialised engine whose feed source has already retired its first
restriction and its first signal (`retiredHeadFeed`); the simulated speed is still 0,
so the next feed update runs at 2 km/h. -/
def retiredFeedEngine : TRAATPIntegration :=
  { run [.doInitialize 0] freshEngine with shp_interface := some retiredHeadFeed }

/-- The operations whose speed argument is positive: `setPermittedSpeed(speed)` with
`speed > 0`, and every other public operation. -/
def positiveSpeedOp : Op → Prop
  | .setPermittedSpeed speed => 0 < speed
  | _ => True

/-- The permitted speed is positive, and so is every speed limit in the feed's list
of restrictions (from which the restriction fold may lower the permitted speed). -/
def PermittedPositive (e : TRAATPIntegration) : Prop :=
  0 < e.system_state.permitted_speed ∧
  ∀ s : SHPInterface, e.shp_interface = some s → ∀ r ∈ s.speed_restrictions, 0 < r.speed_limit

/-- The engine after `setPermittedSpeed(0)`. -/
def zeroPermittedEngine : TRAATPIntegration := run [.setPermittedSpeed 0] freshEngine

/-- The bridge demand flags agree with the engine's local brake flags. -/
def FlagsAgree (e : TRAATPIntegration) : Prop :=
  e.bridge.SB = e.system_state.brake_intervention ∧
  e.bridge.EB = e.system_state.emergency_brake

/-- Every public operation except `stop()` and `shutdown()` (which calls `stop()`). -/
def notStopOp : Op → Prop
  | .stop _ => False
  | .shutdown _ => False
  | _ => True

/-! ## Mode transitions -/

theorem applyEmergencyBrake_current_mode (now : Int) (e : TRAATPIntegration) :
    (applyEmergencyBrake now e).system_state.current_mode = e.system_state.current_mode := by
  unfold applyEmergencyBrake cutTraction sendETCSTractionCut sendETCSBrakeCommand
  simp only [addEvent, withSHP]
  split_ifs <;> rfl

theorem handleModeTransition_current_mode (now : Int) (e : TRAATPIntegration)
    (m : TRAATPMode) :
    (handleModeTransition now m e).system_state.current_mode =
      if validateModeTransition e.system_state.current_mode m then m
      else e.system_state.current_mode := by
  unfold handleModeTransition
  by_cases h : validateModeTransition e.system_state.current_mode m = true
  · simp only [h, not_true_eq_false, if_false, if_true]
    cases m <;> simp [addEvent, applyEmergencyBrake_current_mode]
  · simp [h, addEvent]

/-- C1 (counterexample): from Emergency, `setMode(STANDBY)` returns true although the
modes differ, the target is not Emergency and the current mode is Emergency. -/
theorem C1_setMode_emergency_to_standby :
    emergencyEngine.system_state.current_mode = .EMERGENCY ∧
    (setMode 0 .STANDBY emergencyEngine).1 = true ∧
    ¬ (emergencyEngine.system_state.current_mode = TRAATPMode.STANDBY ∨
        TRAATPMode.STANDBY = TRAATPMode.EMERGENCY ∨
        emergencyEngine.system_state.current_mode ≠ .EMERGENCY) := by
  decide

/-- C1 (amended): for every pair of modes (from, to), with `current_mode = from`,
`setMode(to)` returns true if and only if `from = to`, or `to` is Emergency, or
`from` is not Emergency, or `to` is Standby. -/
theorem C1_setMode_true_iff (now : Int) (e : TRAATPIntegration) (dst : TRAATPMode) :
    (setMode now dst e).1 = true ↔
      (e.system_state.current_mode = dst ∨ dst = .EMERGENCY ∨
        e.system_state.current_mode ≠ .EMERGENCY ∨ dst = .STANDBY) := by
  simp only [setMode, decide_eq_true_eq, handleModeTransition_current_mode]
  generalize e.system_state.current_mode = frm
  cases frm <;> cases dst <;> simp [validateModeTransition]

/-- C2: with `current_mode = EMERGENCY` and a requested mode other than Standby and
Emergency, `setMode` returns false and changes nothing but the event log, to which
it appends exactly one event, a SystemFault of severity 2 (the log's capacity rule
then drops the 100 oldest entries if the size has passed 1000). -/
theorem C2_setMode_rejected_from_emergency (now : Int) (e : TRAATPIntegration)
    (X : TRAATPMode) (hE : e.system_state.current_mode = .EMERGENCY)
    (hS : X ≠ .STANDBY) (hX : X ≠ .EMERGENCY) :
    (setMode now X e).1 = false ∧
    (setMode now X e).2.system_state = e.system_state ∧
    ∃ ev : TRAATPEvent, ev.type = .SYSTEM_FAULT ∧ ev.severity = 2 ∧
      (setMode now X e).2 =
        { e with event_history :=
            if 1000 < e.event_history.length + 1 then (e.event_history ++ [ev]).drop 100
            else e.event_history ++ [ev] } := by
  have hv : validateModeTransition e.system_state.current_mode X = false := by
    rw [hE]; cases X <;> simp_all [validateModeTransition]
  have hne : e.system_state.current_mode ≠ X := by rw [hE]; exact fun h => hX h.symm
  refine ⟨?_, ?_, ?_⟩
  · simp [setMode, handleModeTransition_current_mode, hv, hne]
  · simp [setMode, handleModeTransition, hv, addEvent]
  · refine ⟨mkEvent now .SYSTEM_FAULT
        ("無效的模式轉換: " ++ modeToString e.system_state.current_mode ++ " -> "
          ++ modeToString X) 0 2, rfl, rfl, ?_⟩
    simp only [setMode, handleModeTransition, hv, addEvent]
    simp only [Bool.false_eq_true, not_false_eq_true, if_true, List.length_append,
      List.length_singleton, gt_iff_lt]

/-- C2 (witness): the rejected request Emergency -> FullSupervision. -/
theorem C2_setMode_rejected_from_emergency_witness :
    (setMode 0 .FULL_SUPERVISION emergencyEngine).1 = false ∧
    (setMode 0 .FULL_SUPERVISION emergencyEngine).2.system_state =
      emergencyEngine.system_state :=
  ⟨(C2_setMode_rejected_from_emergency 0 emergencyEngine .FULL_SUPERVISION
      (by decide) (by decide) (by decide)).1,
   (C2_setMode_rejected_from_emergency 0 emergencyEngine .FULL_SUPERVISION
      (by decide) (by decide) (by decide)).2.1⟩

/-- An accepted transition to a mode other than Emergency, in closed form. -/
theorem handleModeTransition_accepted (now : Int) (e : TRAATPIntegration) (m : TRAATPMode)
    (hv : validateModeTransition e.system_state.current_mode m = true)
    (hm : m ≠ .EMERGENCY) :
    handleModeTransition now m e =
      { e with
        system_state :=
          { e.system_state with
            current_mode := m,
            atp_active :=
              if m = .STANDBY then false
              else if m = .FULL_SUPERVISION ∨ m = .PARTIAL_SUPERVISION then true
              else e.system_state.atp_active,
            permitted_speed :=
              if m = .ON_SIGHT then 40
              else if m = .SHUNTING then 25
              else e.system_state.permitted_speed },
        event_history :=
          if 1000 < e.event_history.length + 1 then
            (e.event_history ++
              [mkEvent now .MODE_CHANGE
                ("模式變更: " ++ modeToString e.system_state.current_mode ++ " -> "
                  ++ modeToString m) 0 0]).drop 100
          else
            e.event_history ++
              [mkEvent now .MODE_CHANGE
                ("模式變更: " ++ modeToString e.system_state.current_mode ++ " -> "
                  ++ modeToString m) 0 0] } := by
  unfold handleModeTransition
  simp only [hv, not_true_eq_false, if_false]
  cases m <;> first
    | exact absurd rfl hm
    | simp [addEvent]

/-- C3 (the code at the failing input): after `initialize()` and
`setMode(EMERGENCY)` the engine is in Emergency with the emergency brake applied;
`start()` then succeeds and puts it in FullSupervision, the emergency brake still
applied. -/
theorem C3_start_leaves_emergency :
    Reachable emergencyEngine ∧
    emergencyEngine.system_state.current_mode = .EMERGENCY ∧
    (start 0 emergencyEngine).1 = true ∧
    (step (.start 0) emergencyEngine).system_state.current_mode = .FULL_SUPERVISION ∧
    (step (.start 0) emergencyEngine).system_state.emergency_brake = true := by
  refine ⟨?_, by decide, by decide, by decide, by decide⟩
  exact Reachable.step (.setMode 0 .EMERGENCY)
    (Reachable.step (.doInitialize 0) (Reachable.construct zeroBridge))

/-- C4 (counterexample): `setMode(ON_SIGHT)` in mode OnSight with permitted speed 100
changes `permitted_speed` (to 40) and the event log. -/
theorem C4_setMode_same_mode_not_noop :
    onSightEngine.system_state.current_mode = .ON_SIGHT ∧
    (setMode 0 .ON_SIGHT onSightEngine).2.system_state.permitted_speed ≠
      onSightEngine.system_state.permitted_speed ∧
    (setMode 0 .ON_SIGHT onSightEngine).2.event_history ≠ onSightEngine.event_history := by
  have h1 : (setMode 0 .ON_SIGHT onSightEngine).2.system_state.permitted_speed = 40 := rfl
  have h2 : onSightEngine.system_state.permitted_speed = 100 := rfl
  refine ⟨by decide, ?_, by decide⟩
  rw [h1, h2]
  norm_num

/-! ## The event log across operations -/

theorem logAppended_refl (old : List TRAATPEvent) : LogAppended old old [] :=
  ⟨0, Nat.zero_le _, by simp⟩

theorem logAppended_addEvent {old evs : List TRAATPEvent} {e : TRAATPIntegration}
    (h : LogAppended old e.event_history evs) (hl : evs.length ≤ 900) (now : Int)
    (type : TRAATPEventType) (message : String) (distance : ℚ) (severity : Int) :
    LogAppended old (addEvent now type message distance severity e).event_history
      (evs ++ [mkEvent now type message distance severity]) := by
  obtain ⟨k, hk, hnew⟩ := h
  have happ : e.event_history ++ [mkEvent now type message distance severity] =
      (old ++ (evs ++ [mkEvent now type message distance severity])).drop k := by
    rw [hnew, List.drop_append_of_le_length hk, List.drop_append_of_le_length hk,
      List.append_assoc]
  simp only [TRAATPIntegration.addEvent]
  split_ifs with hlen
  · refine ⟨k + 100, ?_, ?_⟩
    · rw [happ] at hlen
      simp only [List.length_drop, List.length_append, List.length_singleton] at hlen
      omega
    · rw [happ, List.drop_drop, Nat.add_comm]
  · exact ⟨k, hk, happ⟩

theorem logAppended_of_eq {old new new2 evs : List TRAATPEvent}
    (h : LogAppended old new evs) (h2 : new2 = new) : LogAppended old new2 evs := by
  rw [h2]; exact h

@[simp] theorem withSHP_event_history (f : SHPInterface → SHPInterface)
    (e : TRAATPIntegration) : (withSHP f e).event_history = e.event_history := rfl

@[simp] theorem withSHP_system_state (f : SHPInterface → SHPInterface)
    (e : TRAATPIntegration) : (withSHP f e).system_state = e.system_state := rfl

@[simp] theorem withSHP_bridge (f : SHPInterface → SHPInterface)
    (e : TRAATPIntegration) : (withSHP f e).bridge = e.bridge := rfl

@[simp] theorem addEvent_system_state (now : Int) (type : TRAATPEventType) (message : String)
    (distance : ℚ) (severity : Int) (e : TRAATPIntegration) :
    (addEvent now type message distance severity e).system_state = e.system_state := rfl

@[simp] theorem addEvent_bridge (now : Int) (type : TRAATPEventType) (message : String)
    (distance : ℚ) (severity : Int) (e : TRAATPIntegration) :
    (addEvent now type message distance severity e).bridge = e.bridge := rfl

@[simp] theorem addEvent_shp_interface (now : Int) (type : TRAATPEventType) (message : String)
    (distance : ℚ) (severity : Int) (e : TRAATPIntegration) :
    (addEvent now type message distance severity e).shp_interface = e.shp_interface := rfl

theorem cutTraction_log (now : Int) (e : TRAATPIntegration) :
    ∃ evs : List TRAATPEvent, evs.length ≤ 1 ∧ ∀ old pre, pre.length ≤ 900 →
      LogAppended old e.event_history pre →
      LogAppended old (cutTraction now e).event_history (pre ++ evs) := by
  by_cases h : e.system_state.traction_cut = true
  · refine ⟨[], by simp, fun old pre _ hp => ?_⟩
    simpa [cutTraction, h] using hp
  · refine ⟨[mkEvent now .TRACTION_CUT "牽引切斷" 0 1], by simp, fun old pre hl hp => ?_⟩
    simp only [cutTraction, h, Bool.false_eq_true, if_false, withSHP_event_history,
      sendETCSTractionCut]
    exact logAppended_addEvent (e := { e with system_state := _ }) hp hl _ _ _ _ _

theorem applyEmergencyBrake_log (now : Int) (e : TRAATPIntegration) :
    ∃ evs : List TRAATPEvent, evs.length ≤ 2 ∧ ∀ old pre, pre.length ≤ 899 →
      LogAppended old e.event_history pre →
      LogAppended old (applyEmergencyBrake now e).event_history (pre ++ evs) := by
  by_cases h : e.system_state.emergency_brake = true
  · refine ⟨[], by simp, fun old pre _ hp => ?_⟩
    simpa [applyEmergencyBrake, h] using hp
  · obtain ⟨evs, hlen, hevs⟩ := cutTraction_log now (sendETCSBrakeCommand now true e)
    refine ⟨mkEvent now .EMERGENCY_BRAKE "緊急煞車作用" 0 2 :: evs, by simp; omega,
      fun old pre hl hp => ?_⟩
    simp only [applyEmergencyBrake, h, Bool.false_eq_true, if_false, withSHP_event_history]
    have h1 : LogAppended old (sendETCSBrakeCommand now true e).event_history
        (pre ++ [mkEvent now .EMERGENCY_BRAKE "緊急煞車作用" 0 2]) := by
      simp only [sendETCSBrakeCommand, if_true]
      exact logAppended_addEvent (e := { e with bridge := _, system_state := _ }) hp
        (by omega) _ _ _ _ _
    have h2 := hevs old _ (by simp; omega) h1
    simpa using h2

theorem handleModeTransition_emergency_log (now : Int) (e : TRAATPIntegration) :
    ∃ rest : List TRAATPEvent, rest.length ≤ 2 ∧ ∀ old pre, pre.length ≤ 898 →
      LogAppended old e.event_history pre →
      LogAppended old (handleModeTransition now .EMERGENCY e).event_history
        (pre ++ mkEvent now .MODE_CHANGE
          ("模式變更: " ++ modeToString e.system_state.current_mode ++ " -> "
            ++ modeToString .EMERGENCY) 0 0 :: rest) := by
  have hv : validateModeTransition e.system_state.current_mode .EMERGENCY = true := by
    simp [validateModeTransition]
  obtain ⟨evs, hlen, hevs⟩ := applyEmergencyBrake_log now
    (addEvent now .MODE_CHANGE
      ("模式變更: " ++ modeToString e.system_state.current_mode ++ " -> "
        ++ modeToString .EMERGENCY) 0 0
      { e with system_state := { e.system_state with current_mode := .EMERGENCY } })
  refine ⟨evs, hlen, fun old pre hl hp => ?_⟩
  simp only [handleModeTransition, hv, not_true_eq_false, if_false]
  have h1 := logAppended_addEvent
    (e := { e with system_state := { e.system_state with current_mode := .EMERGENCY } })
    hp (by omega) now .MODE_CHANGE
      ("模式變更: " ++ modeToString e.system_state.current_mode ++ " -> "
        ++ modeToString .EMERGENCY) 0 0
  have h2 := hevs old _ (by simp; omega) h1
  simpa using h2

theorem applyEmergencyBrake_system_state (now : Int) (e : TRAATPIntegration) :
    (applyEmergencyBrake now e).system_state =
      if e.system_state.emergency_brake then e.system_state
      else { e.system_state with emergency_brake := true, traction_cut := true } := by
  obtain ⟨shp, ss, log, ini, run, lut, lsu, br, ls, sim, dir⟩ := e
  obtain ⟨st, mode, atp, shpa, etcs, v, p, t, d, bi, tc, eb, cs, ns, rn, tn⟩ := ss
  cases eb <;> cases tc <;>
    simp [applyEmergencyBrake, cutTraction, sendETCSTractionCut, sendETCSBrakeCommand]

theorem cutTraction_system_state (now : Int) (e : TRAATPIntegration) :
    (cutTraction now e).system_state = { e.system_state with traction_cut := true } := by
  obtain ⟨shp, ss, log, ini, run, lut, lsu, br, ls, sim, dir⟩ := e
  obtain ⟨st, mode, atp, shpa, etcs, v, p, t, d, bi, tc, eb, cs, ns, rn, tn⟩ := ss
  cases tc <;> simp [cutTraction, sendETCSTractionCut]

/-- C4 (amended): `setMode(m)` with `m = current_mode` returns true and leaves
`current_mode` unchanged, but it is not a no-op: it appends a ModeChange event of
severity 0 (the only event appended unless `m` is Emergency) and re-applies the
mode-entry side effects of `m`: `atp_active := false` for Standby, `atp_active := true`
for FullSupervision and PartialSupervision, `permitted_speed := 40` for OnSight,
`permitted_speed := 25` for Shunting, the emergency-brake procedure for Emergency.
Every other SystemState field is unchanged. -/
theorem C4_setMode_same_mode (now : Int) (e : TRAATPIntegration) (m : TRAATPMode)
    (h : m = e.system_state.current_mode) :
    (setMode now m e).1 = true ∧
    (setMode now m e).2.system_state.current_mode = e.system_state.current_mode ∧
    (setMode now m e).2.system_state =
      (match m with
       | .STANDBY => { e.system_state with atp_active := false }
       | .FULL_SUPERVISION => { e.system_state with atp_active := true }
       | .PARTIAL_SUPERVISION => { e.system_state with atp_active := true }
       | .ON_SIGHT => { e.system_state with permitted_speed := 40 }
       | .SHUNTING => { e.system_state with permitted_speed := 25 }
       | .EMERGENCY =>
         if e.system_state.emergency_brake then e.system_state
         else { e.system_state with emergency_brake := true, traction_cut := true }) ∧
    ∃ rest : List TRAATPEvent, (m ≠ .EMERGENCY → rest = []) ∧
      LogAppended e.event_history (setMode now m e).2.event_history
        (mkEvent now .MODE_CHANGE
          ("模式變更: " ++ modeToString m ++ " -> " ++ modeToString m) 0 0 :: rest) := by
  have hv : validateModeTransition e.system_state.current_mode m = true := by
    simp [validateModeTransition, h]
  have h1 : (setMode now m e).1 = true := by
    simp [setMode, handleModeTransition_current_mode, hv]
  have h2 : (setMode now m e).2.system_state.current_mode = e.system_state.current_mode := by
    simp [setMode, handleModeTransition_current_mode, hv, h]
  refine ⟨h1, h2, ?_, ?_⟩
  · by_cases hm : m = .EMERGENCY
    · subst hm
      simp only [setMode, handleModeTransition, hv, not_true_eq_false, if_false,
        applyEmergencyBrake_system_state, addEvent_system_state]
      obtain ⟨shp, ss, log, ini, run, lut, lsu, br, ls, sim, dir⟩ := e
      obtain ⟨st, mode, atp, shpa, etcs, v, p, t, d, bi, tc, eb, cs, ns, rn, tn⟩ := ss
      simp only at h
      subst h
      cases eb <;> simp
    · rw [setMode, handleModeTransition_accepted now e m hv hm]
      obtain ⟨shp, ss, log, ini, run, lut, lsu, br, ls, sim, dir⟩ := e
      obtain ⟨st, mode, atp, shpa, etcs, v, p, t, d, bi, tc, eb, cs, ns, rn, tn⟩ := ss
      simp only at h
      subst h
      cases m <;> simp at hm ⊢
  · by_cases hm : m = .EMERGENCY
    · subst hm
      obtain ⟨rest, _, hrest⟩ := handleModeTransition_emergency_log now e
      refine ⟨rest, fun hne => absurd rfl hne, ?_⟩
      have := hrest e.event_history [] (by simp) (logAppended_refl _)
      rw [← h] at this
      simpa [setMode] using this
    · refine ⟨[], fun _ => rfl, ?_⟩
      have hlog : (handleModeTransition now m e).event_history =
          (addEvent now .MODE_CHANGE
            ("模式變更: " ++ modeToString m ++ " -> " ++ modeToString m) 0 0 e).event_history := by
        rw [handleModeTransition_accepted now e m hv hm, ← h]
        simp [addEvent]
      exact logAppended_of_eq
        (logAppended_addEvent (e := e) (logAppended_refl _) (by simp) now .MODE_CHANGE
          ("模式變更: " ++ modeToString m ++ " -> " ++ modeToString m) 0 0) hlog

/-- C4 (witness, amended): `setMode(ON_SIGHT)` in mode OnSight. -/
theorem C4_setMode_same_mode_witness :
    (setMode 0 .ON_SIGHT onSightEngine).1 = true ∧
    (setMode 0 .ON_SIGHT onSightEngine).2.system_state.current_mode =
      onSightEngine.system_state.current_mode :=
  ⟨(C4_setMode_same_mode 0 onSightEngine .ON_SIGHT (by decide)).1,
   (C4_setMode_same_mode 0 onSightEngine .ON_SIGHT (by decide)).2.1⟩

/-- C5: an accepted transition to a mode `m` other than Emergency makes `setMode(m)`
return true with `current_mode = m`, appends exactly one event, a ModeChange of
severity 0 (the log's capacity rule then drops the 100 oldest entries if the size has
passed 1000), sets `atp_active` to false for Standby and to true for FullSupervision
and PartialSupervision, sets `permitted_speed` to 40 for OnSight and to 25 for
Shunting, and leaves every other SystemState field as it was. The statement does not
need `m` to differ from `current_mode`. -/
theorem C5_setMode_accepted (now : Int) (e : TRAATPIntegration) (m : TRAATPMode)
    (hE : m ≠ .EMERGENCY)
    (hv : validateModeTransition e.system_state.current_mode m = true) :
    (setMode now m e).1 = true ∧
    (setMode now m e).2.system_state.current_mode = m ∧
    (∃ ev : TRAATPEvent, ev.type = .MODE_CHANGE ∧ ev.severity = 0 ∧
      (setMode now m e).2.event_history =
        if 1000 < e.event_history.length + 1 then (e.event_history ++ [ev]).drop 100
        else e.event_history ++ [ev]) ∧
    (m = .STANDBY → (setMode now m e).2.system_state.atp_active = false) ∧
    (m = .FULL_SUPERVISION ∨ m = .PARTIAL_SUPERVISION →
      (setMode now m e).2.system_state.atp_active = true) ∧
    (m = .ON_SIGHT → (setMode now m e).2.system_state.permitted_speed = 40) ∧
    (m = .SHUNTING → (setMode now m e).2.system_state.permitted_speed = 25) ∧
    (setMode now m e).2.system_state =
      { e.system_state with
        current_mode := m,
        atp_active :=
          if m = .STANDBY then false
          else if m = .FULL_SUPERVISION ∨ m = .PARTIAL_SUPERVISION then true
          else e.system_state.atp_active,
        permitted_speed :=
          if m = .ON_SIGHT then 40
          else if m = .SHUNTING then 25
          else e.system_state.permitted_speed } := by
  have hs := handleModeTransition_accepted now e m hv hE
  refine ⟨?_, ?_, ?_, ?_, ?_, ?_, ?_, ?_⟩
  · simp [setMode, hs]
  · simp [setMode, hs]
  · exact ⟨mkEvent now .MODE_CHANGE
      ("模式變更: " ++ modeToString e.system_state.current_mode ++ " -> " ++ modeToString m) 0 0,
      rfl, rfl, by simp [setMode, hs]⟩
  · intro h; subst h; simp [setMode, hs]
  · intro h; rcases h with h | h <;> subst h <;> simp [setMode, hs]
  · intro h; subst h; simp [setMode, hs]
  · intro h; subst h; simp [setMode, hs]
  · simp [setMode, hs]

/-- C5 (witness): Standby -> OnSight on a fresh engine. -/
theorem C5_setMode_accepted_witness :
    (setMode 0 .ON_SIGHT freshEngine).1 = true ∧
    (setMode 0 .ON_SIGHT freshEngine).2.system_state.current_mode = .ON_SIGHT ∧
    (setMode 0 .ON_SIGHT freshEngine).2.system_state.permitted_speed = 40 :=
  ⟨(C5_setMode_accepted 0 freshEngine .ON_SIGHT (by decide) (by decide)).1,
   (C5_setMode_accepted 0 freshEngine .ON_SIGHT (by decide) (by decide)).2.1,
   (C5_setMode_accepted 0 freshEngine .ON_SIGHT (by decide) (by decide)).2.2.2.2.2.1 rfl⟩

/-! ## Safety escalation -/

theorem handleModeTransition_emergency_system_state (now : Int) (e : TRAATPIntegration) :
    (handleModeTransition now .EMERGENCY e).system_state =
      if e.system_state.emergency_brake then
        { e.system_state with current_mode := .EMERGENCY }
      else { e.system_state with current_mode := .EMERGENCY, emergency_brake := true,
                                 traction_cut := true } := by
  have hv : validateModeTransition e.system_state.current_mode .EMERGENCY = true := by
    simp [validateModeTransition]
  simp only [handleModeTransition, hv, not_true_eq_false, if_false,
    applyEmergencyBrake_system_state, addEvent_system_state]

/-- C7: whatever the state before it, `handleSafetyViolation` leaves the engine with
`current_mode = EMERGENCY`, `emergency_brake = true` and `traction_cut = true`; the
first event it appends is a SystemFault of severity 2 describing the violation; and
the transition to Emergency it forces is accepted from every mode. -/
theorem C7_handleSafetyViolation (now : Int) (violation : String) (e : TRAATPIntegration) :
    (handleSafetyViolation now violation e).system_state.current_mode = .EMERGENCY ∧
    (handleSafetyViolation now violation e).system_state.emergency_brake = true ∧
    (handleSafetyViolation now violation e).system_state.traction_cut = true ∧
    (∀ frm : TRAATPMode, validateModeTransition frm .EMERGENCY = true) ∧
    (mkEvent now .SYSTEM_FAULT ("安全違規: " ++ violation) 0 2).type = .SYSTEM_FAULT ∧
    (mkEvent now .SYSTEM_FAULT ("安全違規: " ++ violation) 0 2).severity = 2 ∧
    ∃ rest : List TRAATPEvent,
      LogAppended e.event_history (handleSafetyViolation now violation e).event_history
        (mkEvent now .SYSTEM_FAULT ("安全違規: " ++ violation) 0 2 :: rest) := by
  have hss : (handleSafetyViolation now violation e).system_state =
      { e.system_state with current_mode := .EMERGENCY, emergency_brake := true,
                            traction_cut := true } := by
    simp only [handleSafetyViolation, handleModeTransition_emergency_system_state,
      cutTraction_system_state, applyEmergencyBrake_system_state, addEvent_system_state]
    obtain ⟨shp, ss, log, ini, run, lut, lsu, br, ls, sim, dir⟩ := e
    obtain ⟨st, mode, atp, shpa, etcs, v, p, t, d, bi, tc, eb, cs, ns, rn, tn⟩ := ss
    cases eb <;> simp
  refine ⟨by rw [hss], by rw [hss], by rw [hss], ?_, rfl, rfl, ?_⟩
  · intro frm; cases frm <;> simp [validateModeTransition]
  · have h0 := logAppended_addEvent (e := e) (logAppended_refl _) (by simp) now .SYSTEM_FAULT
      ("安全違規: " ++ violation) 0 2
    obtain ⟨ev1, hl1, h1⟩ := applyEmergencyBrake_log now
      (addEvent now .SYSTEM_FAULT ("安全違規: " ++ violation) 0 2 e)
    have h1' := h1 _ _ (by simp) h0
    obtain ⟨ev2, hl2, h2⟩ := cutTraction_log now
      (applyEmergencyBrake now (addEvent now .SYSTEM_FAULT ("安全違規: " ++ violation) 0 2 e))
    have h2' := h2 _ _ (by simp; omega) h1'
    obtain ⟨ev3, hl3, h3⟩ := handleModeTransition_emergency_log now
      (cutTraction now
        (applyEmergencyBrake now (addEvent now .SYSTEM_FAULT ("安全違規: " ++ violation) 0 2 e)))
    have h3' := h3 _ _ (by simp; omega) h2'
    exact ⟨_, h3'⟩

/-! ## The emergency-brake demand on reachable states -/

theorem demandInv_of_eq {e e2 : TRAATPIntegration} (h : EmergencyDemandInv e)
    (hs : e2.system_state.emergency_brake = e.system_state.emergency_brake)
    (hb : e2.bridge.EB = e.bridge.EB) : EmergencyDemandInv e2 := by
  unfold EmergencyDemandInv at *
  rw [hs, hb]; exact h

theorem demandInv_applyServiceBrake {e : TRAATPIntegration}
    (h : EmergencyDemandInv e) (now : Int) : EmergencyDemandInv (applyServiceBrake now e) := by
  unfold applyServiceBrake
  split_ifs
  · exact h
  · exact demandInv_of_eq h (by simp [sendETCSBrakeCommand]) (by simp [sendETCSBrakeCommand])

theorem demandInv_cutTraction {e : TRAATPIntegration}
    (h : EmergencyDemandInv e) (now : Int) : EmergencyDemandInv (cutTraction now e) := by
  unfold cutTraction
  split_ifs
  · exact h
  · exact demandInv_of_eq h (by simp [sendETCSTractionCut]) (by simp [sendETCSTractionCut])

theorem applyEmergencyBrake_EB (now : Int) (e : TRAATPIntegration)
    (h : e.system_state.emergency_brake = false) :
    (applyEmergencyBrake now e).bridge.EB = true := by
  unfold applyEmergencyBrake cutTraction
  simp only [h, Bool.false_eq_true, if_false, withSHP_bridge]
  split_ifs <;> simp [sendETCSBrakeCommand, sendETCSTractionCut]

theorem demandInv_applyEmergencyBrake {e : TRAATPIntegration}
    (h : EmergencyDemandInv e) (now : Int) :
    EmergencyDemandInv (applyEmergencyBrake now e) := by
  by_cases heb : e.system_state.emergency_brake = true
  · have : applyEmergencyBrake now e = e := by simp [applyEmergencyBrake, heb]
    rw [this]; exact h
  · intro _
    exact applyEmergencyBrake_EB now e (by simpa using heb)

theorem demandInv_releaseBrake (e : TRAATPIntegration) (now : Int) :
    EmergencyDemandInv (releaseBrake now e) := by
  simp [EmergencyDemandInv, releaseBrake]

theorem demandInv_handleModeTransition {e : TRAATPIntegration}
    (h : EmergencyDemandInv e) (now : Int) (m : TRAATPMode) :
    EmergencyDemandInv (handleModeTransition now m e) := by
  unfold handleModeTransition
  by_cases hv : validateModeTransition e.system_state.current_mode m = true
  · simp only [hv, not_true_eq_false, if_false]
    cases m
    case pos.EMERGENCY =>
      refine demandInv_applyEmergencyBrake ?_ now
      exact h
    all_goals exact demandInv_of_eq h rfl rfl
  · simp only [hv, not_false_eq_true, if_true]
    exact h

theorem demandInv_processSHPSpeedRestrictions {e : TRAATPIntegration}
    (h : EmergencyDemandInv e) (now : Int) :
    EmergencyDemandInv (processSHPSpeedRestrictions now e) := by
  unfold processSHPSpeedRestrictions
  split
  · exact h
  · split
    · exact h
    · unfold EmergencyDemandInv
      dsimp only
      split_ifs
      · refine demandInv_applyServiceBrake ?_ now
        exact h
      · exact h
      · exact h

theorem demandInv_processSHPSignalData {e : TRAATPIntegration}
    (h : EmergencyDemandInv e) (now : Int) :
    EmergencyDemandInv (processSHPSignalData now e) := by
  unfold processSHPSignalData
  split
  · exact h
  · split
    · exact h
    · unfold EmergencyDemandInv
      dsimp only
      split
      · dsimp only
        split_ifs
        · exact demandInv_applyEmergencyBrake h now
        · exact demandInv_applyServiceBrake h now
        · exact h
      · exact h
      · exact h
      · exact h

/-! ### Invariants through the feed update

A property of the engine state that survives the engine's three callbacks, any
change of the feed source's own data and any change of the simulation statics
survives `SHPInterface::update`. -/

theorem updateSpeedRestrictionsLoop_preserves (P : TRAATPIntegration → Prop)
    (hshp : ∀ f e, P e → P (withSHP f e))
    (hcb : ∀ now r e, P e → P (speed_callback now r e)) (now : Int) :
    ∀ (rest done : List SHPSpeedRestriction) (e : TRAATPIntegration),
      P e → P (SHPInterface.updateSpeedRestrictionsLoop now done rest e) := by
  intro rest
  induction rest with
  | nil => intro done e h; exact hshp _ _ h
  | cons r rest ih =>
    intro done e h
    unfold SHPInterface.updateSpeedRestrictionsLoop
    dsimp only
    split_ifs
    · exact ih _ _ (hcb _ _ _ (hshp _ _ h))
    · exact ih _ _ h
    · exact ih _ _ h

theorem updateSignalDataLoop_preserves (P : TRAATPIntegration → Prop)
    (hshp : ∀ f e, P e → P (withSHP f e))
    (hcb : ∀ now s e, P e → P (signal_callback now s e)) (now : Int) :
    ∀ (rest done : List SHPSignalData) (e : TRAATPIntegration),
      P e → P (SHPInterface.updateSignalDataLoop now done rest e) := by
  intro rest
  induction rest with
  | nil => intro done e h; exact hshp _ _ h
  | cons r rest ih =>
    intro done e h
    unfold SHPInterface.updateSignalDataLoop
    dsimp only
    split_ifs
    · exact ih _ _ (hcb _ _ _ (hshp _ _ h))
    · exact ih _ _ h
    · exact ih _ _ h

theorem shp_update_preserves (P : TRAATPIntegration → Prop)
    (hshp : ∀ f e, P e → P (withSHP f e))
    (hsim : ∀ a b e, P e → P { e with sim_speed := a, speed_direction := b })
    (hspeed : ∀ now r e, P e → P (speed_callback now r e))
    (hsignal : ∀ now s e, P e → P (signal_callback now s e))
    (hstatus : ∀ st e, P e → P (status_callback st e))
    (now : Int) (e : TRAATPIntegration) (h : P e) : P (SHPInterface.update now e) := by
  have h1 : P (SHPInterface.processSimRailData e) := hshp _ _ (hsim _ _ _ h)
  have h2 : P (SHPInterface.updateSpeedRestrictions now (SHPInterface.processSimRailData e)) := by
    unfold SHPInterface.updateSpeedRestrictions
    split
    · exact h1
    · exact hshp _ _ (updateSpeedRestrictionsLoop_preserves P hshp hspeed now _ _ _ h1)
  have h3 : P (SHPInterface.updateSignalData now
      (SHPInterface.updateSpeedRestrictions now (SHPInterface.processSimRailData e))) := by
    unfold SHPInterface.updateSignalData
    split
    · exact h2
    · exact hshp _ _ (updateSignalDataLoop_preserves P hshp hsignal now _ _ _ h2)
  unfold SHPInterface.update
  split
  · exact h
  · split_ifs
    · dsimp only
      split
      · exact hstatus _ _ (hshp _ _ h3)
      · exact hshp _ _ h3
    · exact h

theorem demandInv_SHP_update {e : TRAATPIntegration} (h : EmergencyDemandInv e) (now : Int) :
    EmergencyDemandInv (SHPInterface.update now e) :=
  shp_update_preserves EmergencyDemandInv
    (fun _ _ h => h) (fun _ _ _ h => h)
    (fun now _ _ h => demandInv_processSHPSpeedRestrictions (e := addEvent _ _ _ _ _ _) h now)
    (fun now _ _ h => demandInv_processSHPSignalData (e := addEvent _ _ _ _ _ _) h now)
    (fun _ _ h => h) now e h

theorem demandInv_connectToSimRail {e : TRAATPIntegration} (h : EmergencyDemandInv e)
    (now : Int) : EmergencyDemandInv (connectToSimRail now e).2 := by
  unfold connectToSimRail
  split
  · exact h
  · dsimp only
    split_ifs <;> exact h

theorem demandInv_stop {e : TRAATPIntegration} (h : EmergencyDemandInv e) (now : Int) :
    EmergencyDemandInv (stop now e) := by
  unfold stop
  split_ifs
  · intro heb
    simp [disconnectFromSimRail] at heb
  · exact h

theorem demandInv_start {e : TRAATPIntegration} (h : EmergencyDemandInv e) (now : Int) :
    EmergencyDemandInv (start now e).2 := by
  have hc := demandInv_connectToSimRail h now
  unfold start
  dsimp only
  split_ifs <;> first | exact h | exact hc

theorem demandInv_updateETCSSupervision {e : TRAATPIntegration} (h : EmergencyDemandInv e)
    (now : Int) : EmergencyDemandInv (updateETCSSupervision now e) := by
  have h1 : EmergencyDemandInv (writeSupervisionData e) := h
  have h2 : EmergencyDemandInv (checkServiceBrake now (writeSupervisionData e)) := by
    unfold checkServiceBrake
    split_ifs <;> first | exact h1 | exact demandInv_applyServiceBrake h1 now
  have h3 : EmergencyDemandInv
      (checkEmergencyBrake now (checkServiceBrake now (writeSupervisionData e))) := by
    unfold checkEmergencyBrake
    split_ifs <;> first | exact h2 | exact demandInv_applyEmergencyBrake h2 now
  unfold updateETCSSupervision checkBrakeRelease
  split_ifs <;> first | exact h | exact h3 | exact demandInv_releaseBrake _ now

theorem demandInv_handleSafetyViolation {e : TRAATPIntegration} (h : EmergencyDemandInv e)
    (now : Int) (violation : String) :
    EmergencyDemandInv (handleSafetyViolation now violation e) := by
  unfold handleSafetyViolation
  refine demandInv_handleModeTransition ?_ now _
  refine demandInv_cutTraction ?_ now
  refine demandInv_applyEmergencyBrake ?_ now
  exact h

theorem demandInv_performSafetyChecks {e : TRAATPIntegration} (h : EmergencyDemandInv e) :
    EmergencyDemandInv (performSafetyChecks e).2 := by
  unfold performSafetyChecks
  dsimp only
  split_ifs <;> exact h

theorem demandInv_refreshFeed {e : TRAATPIntegration} (h : EmergencyDemandInv e) (now : Int) :
    EmergencyDemandInv (refreshFeed now e) := by
  unfold refreshFeed
  split_ifs <;> first | exact h | exact demandInv_SHP_update h now

theorem demandInv_runSafetyChecks {e : TRAATPIntegration} (h : EmergencyDemandInv e)
    (now : Int) : EmergencyDemandInv (runSafetyChecks now e) := by
  unfold runSafetyChecks
  split_ifs <;> first
    | exact demandInv_performSafetyChecks h
    | exact demandInv_handleSafetyViolation (demandInv_performSafetyChecks h) now _

theorem demandInv_update {e : TRAATPIntegration} (h : EmergencyDemandInv e) (now : Int) :
    EmergencyDemandInv (update now e) := by
  have h1 : EmergencyDemandInv { e with last_update_time := now } := h
  unfold update
  split_ifs <;> first
    | exact h
    | exact demandInv_updateETCSSupervision
        (demandInv_runSafetyChecks (demandInv_refreshFeed h1 now) now) now

theorem demandInv_step {e : TRAATPIntegration} (h : EmergencyDemandInv e) (op : Op) :
    EmergencyDemandInv (step op e) := by
  cases op with
  | doInitialize now =>
    simp only [step, doInitialize]
    split_ifs <;> exact h
  | shutdown now =>
    have h1 := demandInv_stop h now
    simp only [step, shutdown]
    split_ifs <;> first | exact h | exact h1
  | start now => exact demandInv_start h now
  | stop now => exact demandInv_stop h now
  | update now => exact demandInv_update h now
  | setMode now mode => exact demandInv_handleModeTransition h now mode
  | enableATP now enable =>
    simp only [step, enableATP]
    split_ifs <;> first
      | exact h
      | (refine demandInv_handleModeTransition ?_ now _; exact h)
  | enableSHP now enable => exact h
  | enableETCS now enable => exact h
  | setPermittedSpeed speed => exact h
  | setTargetSpeed speed => exact h
  | setCurrentSpeed speed => exact h
  | setDistanceToTarget distance => exact h
  | applyServiceBrake now => exact demandInv_applyServiceBrake h now
  | applyEmergencyBrake now => exact demandInv_applyEmergencyBrake h now
  | releaseBrake now => exact demandInv_releaseBrake e now
  | cutTraction now => exact demandInv_cutTraction h now
  | restoreTraction now => exact h
  | clearEventHistory => exact h
  | runSystemTest now =>
    simp only [step, runSystemTest]
    split_ifs <;> exact h
  | performCalibration now => exact h
  | connectToSimRail now => exact demandInv_connectToSimRail h now
  | disconnectFromSimRail now => exact h
  | forceSimRailUpdate now =>
    simp only [step, forceSimRailUpdate, SHPInterface.forceUpdate]
    split
    · exact h
    · split_ifs <;> first | exact h | exact demandInv_SHP_update h now
  | resetToDefaults now => exact h

theorem reachable_emergencyDemandInv {e : TRAATPIntegration} (h : Reachable e) :
    EmergencyDemandInv e := by
  induction h with
  | construct bridge => intro heb; simp [TRAATPIntegration.construct] at heb
  | step op _ ih => exact demandInv_step ih op

/-! ## Emergency brake (C6) -/

/-- C6 (counterexample): after `applyEmergencyBrake()` and `restoreTraction()` the
engine is reachable with the emergency brake on and traction restored; a further
`applyEmergencyBrake()` returns at its guard and `traction_cut` stays false. -/
theorem C6_applyEmergencyBrake_traction_not_cut :
    Reachable tractionRestoredEngine ∧
    (applyEmergencyBrake 0 tractionRestoredEngine).system_state.emergency_brake = true ∧
    (applyEmergencyBrake 0 tractionRestoredEngine).system_state.traction_cut = false := by
  refine ⟨?_, by decide, by decide⟩
  exact Reachable.step (.restoreTraction 0)
    (Reachable.step (.applyEmergencyBrake 0) (Reachable.construct zeroBridge))

/-- C6 (amended): in every state reachable through the public operations, after
`applyEmergencyBrake()` returns, `emergency_brake` is true and the bridge flag `EB`
is true; `traction_cut` is true whenever the emergency brake was not already applied
before the call (and stays true if it was true before). -/
theorem C6_applyEmergencyBrake (now : Int) (e : TRAATPIntegration) (h : Reachable e) :
    (applyEmergencyBrake now e).system_state.emergency_brake = true ∧
    (applyEmergencyBrake now e).bridge.EB = true ∧
    (e.system_state.emergency_brake = false ∨ e.system_state.traction_cut = true →
      (applyEmergencyBrake now e).system_state.traction_cut = true) := by
  have hss := applyEmergencyBrake_system_state now e
  have hinv := demandInv_applyEmergencyBrake (reachable_emergencyDemandInv h) now
  have heb : (applyEmergencyBrake now e).system_state.emergency_brake = true := by
    rw [hss]; split_ifs with hb
    · exact hb
    · rfl
  refine ⟨heb, hinv heb, ?_⟩
  intro hpre
  rw [hss]
  split_ifs with hb
  · rcases hpre with h1 | h1
    · rw [h1] at hb; exact absurd hb (by decide)
    · exact h1
  · rfl

/-- C6 (witness, amended): `applyEmergencyBrake()` on a fresh engine. -/
theorem C6_applyEmergencyBrake_witness :
    (applyEmergencyBrake 0 freshEngine).system_state.emergency_brake = true ∧
    (applyEmergencyBrake 0 freshEngine).bridge.EB = true ∧
    (applyEmergencyBrake 0 freshEngine).system_state.traction_cut = true :=
  ⟨(C6_applyEmergencyBrake 0 freshEngine (Reachable.construct zeroBridge)).1,
   (C6_applyEmergencyBrake 0 freshEngine (Reachable.construct zeroBridge)).2.1,
   (C6_applyEmergencyBrake 0 freshEngine (Reachable.construct zeroBridge)).2.2
     (Or.inl (by decide))⟩

/-! ## Threshold supervision (C8, C9, C10) -/

/-- C8: with `etcs_active` and neither brake flag set beforehand, one supervision step
at permitted speed `P` and current speed `v` ends with `brake_intervention` and the
bridge flag `SB` both true if and only if `v > P + 5` (`brake_intervention` alone is
true exactly then, and `SB` exactly then or when it was already set); if `v > P + 10`
it ends with `emergency_brake`, `EB` and `traction_cut` true, and if `v <= P + 10`
with `emergency_brake` false. At `P = 130`, `v = 136` engages the service brake only
(emergency brake off, `EB` and `traction_cut` as before) and `v = 141` engages service
brake, emergency brake and traction cut. -/
theorem C8_updateETCSSupervision_thresholds (now : Int) (e : TRAATPIntegration)
    (hetcs : e.system_state.etcs_active = true)
    (hbi : e.system_state.brake_intervention = false)
    (heb : e.system_state.emergency_brake = false) :
    (((updateETCSSupervision now e).system_state.brake_intervention = true ∧
        (updateETCSSupervision now e).bridge.SB = true) ↔
      e.system_state.current_speed > e.system_state.permitted_speed + 5) ∧
    ((updateETCSSupervision now e).system_state.brake_intervention = true ↔
      e.system_state.current_speed > e.system_state.permitted_speed + 5) ∧
    ((updateETCSSupervision now e).bridge.SB = true ↔
      (e.bridge.SB = true ∨
        e.system_state.current_speed > e.system_state.permitted_speed + 5)) ∧
    (e.system_state.current_speed > e.system_state.permitted_speed + 10 →
      (updateETCSSupervision now e).system_state.emergency_brake = true ∧
      (updateETCSSupervision now e).bridge.EB = true ∧
      (updateETCSSupervision now e).system_state.traction_cut = true) ∧
    (e.system_state.current_speed ≤ e.system_state.permitted_speed + 10 →
      (updateETCSSupervision now e).system_state.emergency_brake = false) ∧
    (e.system_state.permitted_speed = 130 → e.system_state.current_speed = 136 →
      (updateETCSSupervision now e).system_state.brake_intervention = true ∧
      (updateETCSSupervision now e).bridge.SB = true ∧
      (updateETCSSupervision now e).system_state.emergency_brake = false ∧
      (updateETCSSupervision now e).bridge.EB = e.bridge.EB ∧
      (updateETCSSupervision now e).system_state.traction_cut = e.system_state.traction_cut) ∧
    (e.system_state.permitted_speed = 130 → e.system_state.current_speed = 141 →
      (updateETCSSupervision now e).system_state.brake_intervention = true ∧
      (updateETCSSupervision now e).bridge.SB = true ∧
      (updateETCSSupervision now e).system_state.emergency_brake = true ∧
      (updateETCSSupervision now e).bridge.EB = true ∧
      (updateETCSSupervision now e).system_state.traction_cut = true) := by
  obtain ⟨shp, ss, log, ini, run, lut, lsu, br, ls, sim, dir⟩ := e
  obtain ⟨st, mode, atp, shpa, etcs, v, p, t, d, bi, tc, eb, cs, ns, rn, tn⟩ := ss
  simp only at hetcs hbi heb
  subst hetcs hbi heb
  by_cases h5 : v > p + 5
  · have hr : ¬ v ≤ p - 2 := by linarith
    by_cases h10 : v > p + 10
    · have h10' : ¬ v ≤ p + 10 := by linarith
      cases tc <;>
        simp [updateETCSSupervision, checkBrakeRelease, checkEmergencyBrake, checkServiceBrake,
          writeSupervisionData, applyServiceBrake, applyEmergencyBrake, cutTraction, releaseBrake,
          sendETCSBrakeCommand, sendETCSTractionCut, h5, h10, hr, h10']
      all_goals (intro hp hv; subst hp hv; norm_num at h10)
    · have h10' : v ≤ p + 10 := by linarith
      simp [updateETCSSupervision, checkBrakeRelease, checkEmergencyBrake, checkServiceBrake,
          writeSupervisionData, applyServiceBrake, applyEmergencyBrake, cutTraction, releaseBrake,
          sendETCSBrakeCommand, sendETCSTractionCut, h5, h10, hr, h10']
      intro hp hv; subst hp hv; norm_num at h10
  · have h10 : ¬ v > p + 10 := by intro h; apply h5; linarith
    have h10' : v ≤ p + 10 := by linarith
    simp [updateETCSSupervision, checkBrakeRelease, checkEmergencyBrake, checkServiceBrake,
          writeSupervisionData, applyServiceBrake, applyEmergencyBrake, cutTraction, releaseBrake,
          sendETCSBrakeCommand, sendETCSTractionCut, h5, h10, h10']
    constructor <;> (intro hp hv; subst hp hv; norm_num at h5)

/-- C8 (witness): permitted speed 130, current speed 136. -/
theorem C8_updateETCSSupervision_thresholds_witness :
    (updateETCSSupervision 0 overspeed136Engine).system_state.brake_intervention = true ∧
    (updateETCSSupervision 0 overspeed136Engine).bridge.SB = true ∧
    (updateETCSSupervision 0 overspeed136Engine).system_state.emergency_brake = false :=
  ⟨((C8_updateETCSSupervision_thresholds 0 overspeed136Engine (by decide) (by decide)
      (by decide)).2.2.2.2.2.1 rfl rfl).1,
   ((C8_updateETCSSupervision_thresholds 0 overspeed136Engine (by decide) (by decide)
      (by decide)).2.2.2.2.2.1 rfl rfl).2.1,
   ((C8_updateETCSSupervision_thresholds 0 overspeed136Engine (by decide) (by decide)
      (by decide)).2.2.2.2.2.1 rfl rfl).2.2.1⟩

theorem supervisionData_applyServiceBrake (now : Int) (e : TRAATPIntegration) :
    supervisionData (applyServiceBrake now e) = supervisionData e := by
  unfold applyServiceBrake sendETCSBrakeCommand
  split_ifs <;> rfl

theorem supervisionData_applyEmergencyBrake (now : Int) (e : TRAATPIntegration) :
    supervisionData (applyEmergencyBrake now e) = supervisionData e := by
  unfold applyEmergencyBrake cutTraction sendETCSTractionCut sendETCSBrakeCommand
  split_ifs <;> rfl

theorem supervisionData_releaseBrake (now : Int) (e : TRAATPIntegration) :
    supervisionData (releaseBrake now e) = supervisionData e := rfl

theorem supervisionData_checks (now : Int) (e : TRAATPIntegration) :
    supervisionData (checkBrakeRelease now (checkEmergencyBrake now (checkServiceBrake now e))) =
      supervisionData e := by
  have h1 : supervisionData (checkServiceBrake now e) = supervisionData e := by
    unfold checkServiceBrake
    split_ifs
    · exact supervisionData_applyServiceBrake now e
    · rfl
  have h2 : supervisionData (checkEmergencyBrake now (checkServiceBrake now e)) =
      supervisionData e := by
    unfold checkEmergencyBrake
    split_ifs
    · rw [supervisionData_applyEmergencyBrake, h1]
    · exact h1
  unfold checkBrakeRelease
  split_ifs
  · rw [supervisionData_releaseBrake, h2]
  · exact h2

theorem updateETCSSupervision_data (now : Int) (e : TRAATPIntegration)
    (hetcs : e.system_state.etcs_active = true) :
    supervisionData (updateETCSSupervision now e) =
      ((e.system_state.permitted_speed, e.system_state.target_speed,
        e.system_state.current_speed, e.system_state.distance_to_target),
       (e.system_state.permitted_speed, e.system_state.permitted_speed + 5,
        e.system_state.permitted_speed + 10, e.system_state.permitted_speed - 2,
        e.system_state.target_speed, e.system_state.current_speed,
        e.system_state.distance_to_target)) := by
  simp only [updateETCSSupervision, hetcs, not_true_eq_false, if_false]
  rw [supervisionData_checks]
  rfl

/-- C9: with `etcs_active`, after one supervision step the bridge holds
`Vperm = permitted_speed`, `Vsbi = permitted_speed + 5`, `Vebi = permitted_speed + 10`,
`Vrelease = permitted_speed - 2`, `Vtarget = target_speed`, `Vest = current_speed` and
`Dtarg = distance_to_target` (the state's values after the step, which are also its
values before it), so that `Vrelease < permitted_speed < Vsbi < Vebi`, in particular
for every permitted speed above 2. -/
theorem C9_updateETCSSupervision_bridge (now : Int) (e : TRAATPIntegration)
    (hetcs : e.system_state.etcs_active = true) :
    (updateETCSSupervision now e).bridge.Vperm =
      (updateETCSSupervision now e).system_state.permitted_speed ∧
    (updateETCSSupervision now e).bridge.Vsbi =
      (updateETCSSupervision now e).system_state.permitted_speed + 5 ∧
    (updateETCSSupervision now e).bridge.Vebi =
      (updateETCSSupervision now e).system_state.permitted_speed + 10 ∧
    (updateETCSSupervision now e).bridge.Vrelease =
      (updateETCSSupervision now e).system_state.permitted_speed - 2 ∧
    (updateETCSSupervision now e).bridge.Vtarget =
      (updateETCSSupervision now e).system_state.target_speed ∧
    (updateETCSSupervision now e).bridge.Vest =
      (updateETCSSupervision now e).system_state.current_speed ∧
    (updateETCSSupervision now e).bridge.Dtarg =
      (updateETCSSupervision now e).system_state.distance_to_target ∧
    (updateETCSSupervision now e).system_state.permitted_speed = e.system_state.permitted_speed ∧
    (updateETCSSupervision now e).system_state.target_speed = e.system_state.target_speed ∧
    (updateETCSSupervision now e).system_state.current_speed = e.system_state.current_speed ∧
    (updateETCSSupervision now e).system_state.distance_to_target =
      e.system_state.distance_to_target ∧
    (e.system_state.permitted_speed > 2 →
      (updateETCSSupervision now e).bridge.Vrelease < e.system_state.permitted_speed ∧
      e.system_state.permitted_speed < (updateETCSSupervision now e).bridge.Vsbi ∧
      (updateETCSSupervision now e).bridge.Vsbi < (updateETCSSupervision now e).bridge.Vebi) := by
  have hd := updateETCSSupervision_data now e hetcs
  simp only [supervisionData, Prod.mk.injEq] at hd
  obtain ⟨⟨s1, s2, s3, s4⟩, b1, b2, b3, b4, b5, b6, b7⟩ := hd
  rw [s1, s2, s3, s4, b1, b2, b3, b4, b5, b6, b7]
  refine ⟨rfl, rfl, rfl, rfl, rfl, rfl, rfl, rfl, rfl, rfl, rfl, fun _ => ⟨?_, ?_, ?_⟩⟩ <;> linarith

/-- C9 (witness): permitted speed 130, current speed 136. -/
theorem C9_updateETCSSupervision_bridge_witness :
    (updateETCSSupervision 0 overspeed136Engine).bridge.Vsbi =
      (updateETCSSupervision 0 overspeed136Engine).system_state.permitted_speed + 5 ∧
    (updateETCSSupervision 0 overspeed136Engine).bridge.Vebi =
      (updateETCSSupervision 0 overspeed136Engine).system_state.permitted_speed + 10 :=
  ⟨(C9_updateETCSSupervision_bridge 0 overspeed136Engine (by decide)).2.1,
   (C9_updateETCSSupervision_bridge 0 overspeed136Engine (by decide)).2.2.1⟩

theorem updateETCSSupervision_emergency_only (now : Int) (e : TRAATPIntegration)
    (hetcs : e.system_state.etcs_active = true)
    (hbi : e.system_state.brake_intervention = false)
    (heb : e.system_state.emergency_brake = true)
    (hv : e.system_state.current_speed ≤ e.system_state.permitted_speed - 2) :
    updateETCSSupervision now e = writeSupervisionData e := by
  obtain ⟨shp, ss, log, ini, run, lut, lsu, br, ls, sim, dir⟩ := e
  obtain ⟨st, mode, atp, shpa, etcs, v, p, t, d, bi, tc, eb, cs, ns, rn, tn⟩ := ss
  simp only at hetcs hbi heb hv
  subst hetcs hbi heb
  have h5 : ¬ v > p + 5 := by intro h; linarith
  simp [updateETCSSupervision, checkBrakeRelease, checkEmergencyBrake, checkServiceBrake,
    writeSupervisionData, h5]

/-- C10 (counterexample): with `etcs_active`, the emergency brake applied, the service
brake not applied and the train at standstill (0 <= 130 - 2), the supervision step
releases nothing: `emergency_brake` and `EB` are still true afterwards. -/
theorem C10_emergency_brake_not_released :
    emergencyOnlyEngine.system_state.etcs_active = true ∧
    emergencyOnlyEngine.system_state.emergency_brake = true ∧
    emergencyOnlyEngine.system_state.current_speed ≤
      emergencyOnlyEngine.system_state.permitted_speed - 2 ∧
    (updateETCSSupervision 0 emergencyOnlyEngine).system_state.emergency_brake = true ∧
    (updateETCSSupervision 0 emergencyOnlyEngine).bridge.EB = true := by
  have hv : emergencyOnlyEngine.system_state.current_speed ≤
      emergencyOnlyEngine.system_state.permitted_speed - 2 := by
    rw [show emergencyOnlyEngine.system_state.current_speed = 0 from rfl,
      show emergencyOnlyEngine.system_state.permitted_speed = 130 from rfl]
    norm_num
  have hstep := updateETCSSupervision_emergency_only 0 emergencyOnlyEngine rfl rfl rfl hv
  refine ⟨rfl, rfl, hv, ?_, ?_⟩
  · rw [hstep]; rfl
  · rw [hstep]; rfl

/-- C10 (amended): with `etcs_active`, whenever `brake_intervention` is true at the
start of a supervision step and `current_speed <= permitted_speed - 2`, the step
releases all brake demands: afterwards `brake_intervention`, `emergency_brake` and
the bridge flags `SB` and `EB` are all false. -/
theorem C10_updateETCSSupervision_release (now : Int) (e : TRAATPIntegration)
    (hetcs : e.system_state.etcs_active = true)
    (hbi : e.system_state.brake_intervention = true)
    (hv : e.system_state.current_speed ≤ e.system_state.permitted_speed - 2) :
    (updateETCSSupervision now e).system_state.brake_intervention = false ∧
    (updateETCSSupervision now e).system_state.emergency_brake = false ∧
    (updateETCSSupervision now e).bridge.SB = false ∧
    (updateETCSSupervision now e).bridge.EB = false := by
  obtain ⟨shp, ss, log, ini, run, lut, lsu, br, ls, sim, dir⟩ := e
  obtain ⟨st, mode, atp, shpa, etcs, v, p, t, d, bi, tc, eb, cs, ns, rn, tn⟩ := ss
  simp only at hetcs hbi hv
  subst hetcs hbi
  have h10 : ¬ v > p + 10 := by intro h; linarith
  simp [updateETCSSupervision, checkBrakeRelease, checkEmergencyBrake, checkServiceBrake,
    writeSupervisionData, releaseBrake, h10, hv]

/-- C10 (witness, amended): the service brake applied at standstill. -/
theorem C10_updateETCSSupervision_release_witness :
    (updateETCSSupervision 0 serviceBrakeEngine).system_state.brake_intervention = false ∧
    (updateETCSSupervision 0 serviceBrakeEngine).bridge.SB = false :=
  ⟨(C10_updateETCSSupervision_release 0 serviceBrakeEngine (by decide) (by decide)
      (by rw [show serviceBrakeEngine.system_state.current_speed = 0 from rfl,
              show serviceBrakeEngine.system_state.permitted_speed = 130 from rfl]
          norm_num)).1,
   (C10_updateETCSSupervision_release 0 serviceBrakeEngine (by decide) (by decide)
      (by rw [show serviceBrakeEngine.system_state.current_speed = 0 from rfl,
              show serviceBrakeEngine.system_state.permitted_speed = 130 from rfl]
          norm_num)).2.2.1⟩

/-! ## Leaving Emergency: every operation but `start()` respects the rule -/

theorem applyServiceBrake_current_mode (now : Int) (e : TRAATPIntegration) :
    (applyServiceBrake now e).system_state.current_mode = e.system_state.current_mode := by
  unfold applyServiceBrake sendETCSBrakeCommand
  split_ifs <;> rfl

theorem cutTraction_current_mode (now : Int) (e : TRAATPIntegration) :
    (cutTraction now e).system_state.current_mode = e.system_state.current_mode := by
  unfold cutTraction sendETCSTractionCut
  split_ifs <;> rfl

theorem processSHPSpeedRestrictions_current_mode (now : Int) (e : TRAATPIntegration) :
    (processSHPSpeedRestrictions now e).system_state.current_mode =
      e.system_state.current_mode := by
  unfold processSHPSpeedRestrictions
  split
  · rfl
  · split
    · rfl
    · dsimp only
      split_ifs
      · exact applyServiceBrake_current_mode now _
      · rfl
      · rfl

theorem processSHPSignalData_current_mode (now : Int) (e : TRAATPIntegration) :
    (processSHPSignalData now e).system_state.current_mode = e.system_state.current_mode := by
  unfold processSHPSignalData
  split
  · rfl
  · split
    · rfl
    · dsimp only
      split
      · dsimp only
        split_ifs
        · exact applyEmergencyBrake_current_mode now e
        · exact applyServiceBrake_current_mode now e
        · rfl
      · rfl
      · rfl
      · rfl

theorem shp_update_current_mode (now : Int) (e : TRAATPIntegration) :
    (SHPInterface.update now e).system_state.current_mode = e.system_state.current_mode :=
  shp_update_preserves (fun x => x.system_state.current_mode = e.system_state.current_mode)
    (fun _ _ h => h) (fun _ _ _ h => h)
    (fun now _ _ h => (processSHPSpeedRestrictions_current_mode now _).trans h)
    (fun now _ _ h => (processSHPSignalData_current_mode now _).trans h)
    (fun _ _ h => h) now e rfl

theorem updateETCSSupervision_current_mode (now : Int) (e : TRAATPIntegration) :
    (updateETCSSupervision now e).system_state.current_mode = e.system_state.current_mode := by
  have h2 : (checkServiceBrake now (writeSupervisionData e)).system_state.current_mode =
      e.system_state.current_mode := by
    unfold checkServiceBrake
    split_ifs
    · exact applyServiceBrake_current_mode now _
    · rfl
  have h3 : (checkEmergencyBrake now
      (checkServiceBrake now (writeSupervisionData e))).system_state.current_mode =
      e.system_state.current_mode := by
    unfold checkEmergencyBrake
    split_ifs
    · exact (applyEmergencyBrake_current_mode now _).trans h2
    · exact h2
  unfold updateETCSSupervision checkBrakeRelease
  split_ifs <;> first | rfl | exact h3

theorem handleSafetyViolation_current_mode (now : Int) (violation : String)
    (e : TRAATPIntegration) :
    (handleSafetyViolation now violation e).system_state.current_mode = .EMERGENCY := by
  unfold handleSafetyViolation
  rw [handleModeTransition_current_mode]
  simp [validateModeTransition]

theorem update_current_mode (now : Int) (e : TRAATPIntegration) :
    (update now e).system_state.current_mode = .EMERGENCY ∨
    (update now e).system_state.current_mode = e.system_state.current_mode := by
  have h0 : (refreshFeed now { e with last_update_time := now }).system_state.current_mode =
      e.system_state.current_mode := by
    unfold refreshFeed
    split_ifs <;> first | rfl | exact shp_update_current_mode now _
  have h1 :
      (performSafetyChecks
        (refreshFeed now { e with last_update_time := now })).2.system_state.current_mode =
      e.system_state.current_mode := by
    rw [← h0]
    unfold performSafetyChecks
    dsimp only
    split_ifs <;> rfl
  have hmain : (updateETCSSupervision now (runSafetyChecks now
        (refreshFeed now { e with last_update_time := now }))).system_state.current_mode =
        .EMERGENCY ∨
      (updateETCSSupervision now (runSafetyChecks now
        (refreshFeed now { e with last_update_time := now }))).system_state.current_mode =
        e.system_state.current_mode := by
    rw [updateETCSSupervision_current_mode]
    unfold runSafetyChecks
    split_ifs <;> first
      | exact Or.inl (handleSafetyViolation_current_mode now _ _)
      | exact Or.inr h1
  unfold update
  split_ifs <;> first | exact Or.inr rfl | exact hmain

theorem stop_current_mode (now : Int) (e : TRAATPIntegration) :
    (stop now e).system_state.current_mode = .STANDBY ∨
    (stop now e).system_state.current_mode = e.system_state.current_mode := by
  unfold stop
  split_ifs <;> first | exact Or.inr rfl | exact Or.inl rfl

/-- Every public operation other than `start()` keeps the rule of
`validateModeTransition`: from Emergency the mode stays Emergency or becomes
Standby. -/
theorem step_from_emergency (op : Op) (e : TRAATPIntegration)
    (hE : e.system_state.current_mode = .EMERGENCY) (hop : ∀ now, op ≠ .start now) :
    (step op e).system_state.current_mode = .EMERGENCY ∨
    (step op e).system_state.current_mode = .STANDBY := by
  have hmt : ∀ now m, (handleModeTransition now m e).system_state.current_mode = .EMERGENCY ∨
      (handleModeTransition now m e).system_state.current_mode = .STANDBY := by
    intro now m
    rw [handleModeTransition_current_mode, hE]
    cases m <;> simp [validateModeTransition]
  cases op with
  | doInitialize now =>
    left
    simp only [step, doInitialize]
    split_ifs <;> exact hE
  | shutdown now =>
    have hs : (stop now e).system_state.current_mode = .EMERGENCY ∨
        (stop now e).system_state.current_mode = .STANDBY := by
      rcases stop_current_mode now e with h | h
      · exact Or.inr h
      · exact Or.inl (h.trans hE)
    simp only [step, shutdown]
    split_ifs <;> first | exact Or.inl hE | exact hs
  | start now => exact absurd rfl (hop now)
  | stop now =>
    rcases stop_current_mode now e with h | h
    · exact Or.inr h
    · exact Or.inl (h.trans hE)
  | update now =>
    rcases update_current_mode now e with h | h
    · exact Or.inl h
    · exact Or.inl (h.trans hE)
  | setMode now mode => exact hmt now mode
  | enableATP now enable =>
    cases enable
    · simp only [step, enableATP, Bool.false_eq_true, if_false]
      rw [handleModeTransition_current_mode]
      simp [validateModeTransition, hE]
    · simp only [step, enableATP, if_true, addEvent_system_state, hE]
      simp [hE]
  | enableSHP now enable => exact Or.inl hE
  | enableETCS now enable => exact Or.inl hE
  | setPermittedSpeed speed => exact Or.inl hE
  | setTargetSpeed speed => exact Or.inl hE
  | setCurrentSpeed speed => exact Or.inl hE
  | setDistanceToTarget distance => exact Or.inl hE
  | applyServiceBrake now => exact Or.inl ((applyServiceBrake_current_mode now e).trans hE)
  | applyEmergencyBrake now => exact Or.inl ((applyEmergencyBrake_current_mode now e).trans hE)
  | releaseBrake now => exact Or.inl hE
  | cutTraction now => exact Or.inl ((cutTraction_current_mode now e).trans hE)
  | restoreTraction now => exact Or.inl hE
  | clearEventHistory => exact Or.inl hE
  | runSystemTest now =>
    left
    simp only [step, runSystemTest]
    split_ifs <;> exact hE
  | performCalibration now => exact Or.inl hE
  | connectToSimRail now =>
    left
    simp only [step, connectToSimRail]
    split
    · exact hE
    · split_ifs <;> exact hE
  | disconnectFromSimRail now => exact Or.inl hE
  | forceSimRailUpdate now =>
    left
    simp only [step, forceSimRailUpdate, SHPInterface.forceUpdate]
    split
    · exact hE
    · split_ifs <;> first | exact hE | exact (shp_update_current_mode now e).trans hE
  | resetToDefaults now => exact Or.inr rfl

/-! ## Idempotence of the brake and traction commands (C11, C12) -/

theorem applyServiceBrake_of_not_applied (now : Int) (e : TRAATPIntegration)
    (hbi : e.system_state.brake_intervention = false) :
    applyServiceBrake now e =
      { e with
        shp_interface := e.shp_interface.map (SHPInterface.sendBrakeCommand false),
        system_state := { e.system_state with brake_intervention := true },
        bridge := { e.bridge with SB := true },
        event_history :=
          if 1000 < e.event_history.length + 1 then
            (e.event_history ++ [mkEvent now .BRAKE_INTERVENTION "常用煞車作用" 0 1]).drop 100
          else e.event_history ++ [mkEvent now .BRAKE_INTERVENTION "常用煞車作用" 0 1] } := by
  simp [applyServiceBrake, hbi, sendETCSBrakeCommand, addEvent, withSHP]

theorem applyServiceBrake_of_applied (now : Int) (e : TRAATPIntegration)
    (hbi : e.system_state.brake_intervention = true) : applyServiceBrake now e = e := by
  simp [applyServiceBrake, hbi]

/-- C11: from a state with `brake_intervention = false`, two calls of
`applyServiceBrake()` in a row append exactly one event in total, a BrakeIntervention
of severity 1; the second call returns the state of the first unchanged (SystemState,
bridge, event log and feed source alike), and the feed source has received exactly one
command, `sendBrakeCommand(false)`. -/
theorem C11_applyServiceBrake_twice (now1 now2 : Int) (e : TRAATPIntegration)
    (hbi : e.system_state.brake_intervention = false) :
    applyServiceBrake now2 (applyServiceBrake now1 e) = applyServiceBrake now1 e ∧
    (applyServiceBrake now1 e).system_state =
      { e.system_state with brake_intervention := true } ∧
    (applyServiceBrake now1 e).bridge = { e.bridge with SB := true } ∧
    (mkEvent now1 .BRAKE_INTERVENTION "常用煞車作用" 0 1).type = .BRAKE_INTERVENTION ∧
    (mkEvent now1 .BRAKE_INTERVENTION "常用煞車作用" 0 1).severity = 1 ∧
    (applyServiceBrake now2 (applyServiceBrake now1 e)).event_history =
      (if 1000 < e.event_history.length + 1 then
        (e.event_history ++ [mkEvent now1 .BRAKE_INTERVENTION "常用煞車作用" 0 1]).drop 100
      else e.event_history ++ [mkEvent now1 .BRAKE_INTERVENTION "常用煞車作用" 0 1]) ∧
    (applyServiceBrake now2 (applyServiceBrake now1 e)).shp_interface.map SHPInterface.sent =
      e.shp_interface.map (fun s => s.sent ++ [SHPCommand.brake false]) := by
  have h1 := applyServiceBrake_of_not_applied now1 e hbi
  have h2 : applyServiceBrake now2 (applyServiceBrake now1 e) = applyServiceBrake now1 e := by
    have hb : (applyServiceBrake now1 e).system_state.brake_intervention = true := by
      rw [h1]
    exact applyServiceBrake_of_applied now2 _ hb
  refine ⟨h2, by rw [h1], by rw [h1], rfl, rfl, by rw [h2, h1], ?_⟩
  rw [h2, h1]
  cases e.shp_interface <;> simp [SHPInterface.sendBrakeCommand]

/-- C11 (witness): two service-brake calls on a fresh engine. -/
theorem C11_applyServiceBrake_twice_witness :
    applyServiceBrake 1 (applyServiceBrake 0 freshEngine) = applyServiceBrake 0 freshEngine ∧
    (applyServiceBrake 1 (applyServiceBrake 0 freshEngine)).event_history =
      [mkEvent 0 .BRAKE_INTERVENTION "常用煞車作用" 0 1] :=
  ⟨(C11_applyServiceBrake_twice 0 1 freshEngine (by decide)).1,
   (C11_applyServiceBrake_twice 0 1 freshEngine (by decide)).2.2.2.2.2.1.trans (by decide)⟩

/-- C12 (counterexample): `restoreTraction()` on a fresh engine, whose `traction_cut`
is already false, appends an event to the log. -/
theorem C12_restoreTraction_not_guarded :
    freshEngine.system_state.traction_cut = false ∧
    (restoreTraction 0 freshEngine).event_history ≠ freshEngine.event_history ∧
    (restoreTraction 0 freshEngine).event_history = [mkEvent 0 .TRACTION_CUT "牽引恢復" 0 0] := by
  decide

/-- C12 (amended): `cutTraction()` is guarded: with `traction_cut` already true it
changes nothing, and otherwise it sets `traction_cut`, appends exactly one TractionCut
event of severity 1 and sends the feed source one traction-cut command.
`restoreTraction()` is not guarded: it always sets `traction_cut` to false and appends
exactly one TractionCut event of severity 0, also when `traction_cut` was already false
(SystemState is then unchanged, the event log is not). -/
theorem C12_cutTraction_restoreTraction (now : Int) (e : TRAATPIntegration) :
    cutTraction now e =
      (if e.system_state.traction_cut then e
       else
        { e with
          shp_interface := e.shp_interface.map SHPInterface.sendTractionCutCommand,
          system_state := { e.system_state with traction_cut := true },
          event_history :=
            if 1000 < e.event_history.length + 1 then
              (e.event_history ++ [mkEvent now .TRACTION_CUT "牽引切斷" 0 1]).drop 100
            else e.event_history ++ [mkEvent now .TRACTION_CUT "牽引切斷" 0 1] }) ∧
    restoreTraction now e =
      { e with
        system_state := { e.system_state with traction_cut := false },
        event_history :=
          if 1000 < e.event_history.length + 1 then
            (e.event_history ++ [mkEvent now .TRACTION_CUT "牽引恢復" 0 0]).drop 100
          else e.event_history ++ [mkEvent now .TRACTION_CUT "牽引恢復" 0 0] } ∧
    (mkEvent now .TRACTION_CUT "牽引切斷" 0 1).type = .TRACTION_CUT ∧
    (mkEvent now .TRACTION_CUT "牽引切斷" 0 1).severity = 1 ∧
    (mkEvent now .TRACTION_CUT "牽引恢復" 0 0).type = .TRACTION_CUT ∧
    (mkEvent now .TRACTION_CUT "牽引恢復" 0 0).severity = 0 ∧
    (e.system_state.traction_cut = false →
      (restoreTraction now e).system_state = e.system_state) := by
  refine ⟨?_, ?_, rfl, rfl, rfl, rfl, ?_⟩
  · by_cases h : e.system_state.traction_cut = true
    · simp [cutTraction, h]
    · simp [cutTraction, h, sendETCSTractionCut, addEvent, withSHP]
  · simp [restoreTraction, addEvent]
  · intro h
    obtain ⟨shp, ss, log, ini, run, lut, lsu, br, ls, sim, dir⟩ := e
    obtain ⟨st, mode, atp, shpa, etcs, v, p, t, d, bi, tc, eb, cs, ns, rn, tn⟩ := ss
    simp only at h
    subst h
    rfl

/-! ## The bounded event log (C13, C14, C15) -/

theorem addEvent_length_le (now : Int) (type : TRAATPEventType) (message : String)
    (distance : ℚ) (severity : Int) (e : TRAATPIntegration)
    (h : e.event_history.length ≤ 1000) :
    (addEvent now type message distance severity e).event_history.length ≤ 1000 := by
  simp only [addEvent]
  split_ifs with hlen
  · simp only [List.length_drop, List.length_append, List.length_singleton]
    omega
  · simp only [List.length_append, List.length_singleton] at hlen ⊢
    omega

theorem addEvents_length_le (evs : List (Int × TRAATPEventType × String × ℚ × Int)) :
    ∀ e : TRAATPIntegration, e.event_history.length ≤ 1000 →
      (addEvents evs e).event_history.length ≤ 1000 := by
  induction evs with
  | nil => intro e h; exact h
  | cons ev evs ih =>
    intro e h
    simp only [addEvents, List.foldl_cons]
    exact ih _ (addEvent_length_le _ _ _ _ _ e h)

/-- C13: if the event log holds at most 1000 entries, it holds at most 1000 entries
after `addEvent` has appended one more, and so after any sequence of appends; this
covers every sequence of appends that starts from the empty log. -/
theorem C13_addEvent_bounded (now : Int) (type : TRAATPEventType) (message : String)
    (distance : ℚ) (severity : Int) (e : TRAATPIntegration)
    (h : e.event_history.length ≤ 1000) :
    (addEvent now type message distance severity e).event_history.length ≤ 1000 ∧
    (∀ evs, (addEvents evs e).event_history.length ≤ 1000) ∧
    (∀ evs (e0 : TRAATPIntegration), e0.event_history = [] →
      (addEvents evs e0).event_history.length ≤ 1000) :=
  ⟨addEvent_length_le now type message distance severity e h,
   fun evs => addEvents_length_le evs e h,
   fun evs e0 h0 => addEvents_length_le evs e0 (by rw [h0]; exact Nat.zero_le _)⟩

/-- C13 (witness): one append to the empty log of a fresh engine. -/
theorem C13_addEvent_bounded_witness :
    (addEvent 0 .SYSTEM_FAULT "系統自檢開始" 0 0 freshEngine).event_history.length ≤ 1000 :=
  (C13_addEvent_bounded 0 .SYSTEM_FAULT "系統自檢開始" 0 0 freshEngine (by decide)).1

theorem reachable_run (ops : List Op) :
    ∀ e : TRAATPIntegration, Reachable e → Reachable (run ops e) := by
  induction ops with
  | nil => intro e h; exact h
  | cons op ops ih =>
    intro e h
    simp only [run, List.foldl_cons]
    exact ih _ (Reachable.step op h)

theorem run_enableETCS_log (n : Nat) :
    ∀ e : TRAATPIntegration, e.event_history.length + n ≤ 1000 →
      (run (List.replicate n (.enableETCS 0 true)) e).event_history =
        e.event_history ++ List.replicate n (mkEvent 0 .MODE_CHANGE "ETCS啟用" 0 0) := by
  induction n with
  | zero => intro e _; simp [run]
  | succ n ih =>
    intro e h
    have hstep : (step (.enableETCS 0 true) e).event_history =
        e.event_history ++ [mkEvent 0 .MODE_CHANGE "ETCS啟用" 0 0] := by
      have hlen : ¬ 1000 < e.event_history.length + 1 := by omega
      simp [step, enableETCS, addEvent, hlen]
    have := ih (step (.enableETCS 0 true) e)
      (by rw [hstep, List.length_append, List.length_singleton]; omega)
    simp only [List.replicate_succ, run, List.foldl_cons] at this ⊢
    rw [this, hstep, List.append_assoc]
    rfl

theorem fullLogEngine_length : fullLogEngine.event_history.length = 1000 := by
  have h0 : freshEngine.event_history = [] := rfl
  have h := run_enableETCS_log 1000 freshEngine (by rw [h0]; exact Nat.le_refl _)
  rw [fullLogEngine, h, h0, List.nil_append, List.length_replicate]

theorem addEvent_eviction (now : Int) (type : TRAATPEventType) (message : String)
    (distance : ℚ) (severity : Int) (e : TRAATPIntegration)
    (hlen : e.event_history.length = 1000) :
    (addEvent now type message distance severity e).event_history =
      e.event_history.drop 100 ++ [mkEvent now type message distance severity] ∧
    (addEvent now type message distance severity e).event_history.length = 901 := by
  have hcross :
      (e.event_history ++ [mkEvent now type message distance severity]).length > 1000 := by
    rw [List.length_append, List.length_singleton, hlen]
    exact Nat.lt_succ_self _
  have heq : (addEvent now type message distance severity e).event_history =
      e.event_history.drop 100 ++ [mkEvent now type message distance severity] := by
    simp only [addEvent, hcross, if_true]
    rw [List.drop_append_of_le_length (by omega)]
  refine ⟨heq, ?_⟩
  rw [heq, List.length_append, List.length_drop, List.length_singleton, hlen]

/-- C14 (counterexample): the engine reached by 1000 calls of `enableETCS(true)` holds
1000 log entries; the next append triggers the eviction and leaves 901 entries, not
900. -/
theorem C14_eviction_leaves_901 :
    Reachable fullLogEngine ∧
    fullLogEngine.event_history.length = 1000 ∧
    (addEvent 0 .SYSTEM_FAULT "系統自檢開始" 0 0 fullLogEngine).event_history.length = 901 ∧
    (addEvent 0 .SYSTEM_FAULT "系統自檢開始" 0 0 fullLogEngine).event_history.length ≠ 900 := by
  have h901 := (addEvent_eviction 0 .SYSTEM_FAULT "系統自檢開始" 0 0 fullLogEngine
    fullLogEngine_length).2
  refine ⟨reachable_run (List.replicate 1000 (.enableETCS 0 true)) freshEngine
    (Reachable.construct zeroBridge), fullLogEngine_length, h901, ?_⟩
  rw [h901]
  exact Nat.succ_ne_self 900

/-- C14 (amended): whenever an append by `addEvent` crosses the 1000-entry bound (the
log held at most 1000 entries and the append makes it exceed 1000), the log contains
exactly 901 entries immediately after that append: the old log without its 100
oldest entries, followed by the new event. The size therefore oscillates between 901
and 1000 under sustained appends. -/
theorem C14_addEvent_eviction (now : Int) (type : TRAATPEventType) (message : String)
    (distance : ℚ) (severity : Int) (e : TRAATPIntegration)
    (hle : e.event_history.length ≤ 1000)
    (hcross : 1000 < (e.event_history ++ [mkEvent now type message distance severity]).length) :
    (addEvent now type message distance severity e).event_history.length = 901 ∧
    (addEvent now type message distance severity e).event_history =
      e.event_history.drop 100 ++ [mkEvent now type message distance severity] := by
  have hlen : e.event_history.length = 1000 := by
    simp only [List.length_append, List.length_singleton] at hcross
    omega
  exact ⟨(addEvent_eviction now type message distance severity e hlen).2,
    (addEvent_eviction now type message distance severity e hlen).1⟩

/-- C14 (witness, amended): the append after 1000 calls of `enableETCS(true)`. -/
theorem C14_addEvent_eviction_witness :
    (addEvent 0 .SYSTEM_FAULT "系統自檢開始" 0 0 fullLogEngine).event_history.length = 901 :=
  (C14_addEvent_eviction 0 .SYSTEM_FAULT "系統自檢開始" 0 0 fullLogEngine
    (Nat.le_of_eq fullLogEngine_length)
    (by rw [List.length_append, fullLogEngine_length]; exact Nat.lt_succ_self _)).1

/-- C15: `getEventHistory(n)` returns the whole log when `n <= 0` or `n >= |L|`, and
otherwise exactly the last `n` entries in their original order (a suffix of the log of
length `n`); its result is always a suffix of the log; and `getEventHistory(3)` on a
log of ten entries returns the eighth, ninth and tenth, in that order. -/
theorem C15_getEventHistory (n : Int) (e : TRAATPIntegration) :
    (n ≤ 0 ∨ n ≥ (e.event_history.length : Int) → getEventHistory n e = e.event_history) ∧
    (0 < n ∧ n < (e.event_history.length : Int) →
      ((getEventHistory n e).length : Int) = n ∧
      getEventHistory n e = e.event_history.drop (e.event_history.length - n.toNat)) ∧
    List.IsSuffix (getEventHistory n e) e.event_history ∧
    (∀ a1 a2 a3 a4 a5 a6 a7 a8 a9 a10 : TRAATPEvent,
      e.event_history = [a1, a2, a3, a4, a5, a6, a7, a8, a9, a10] →
      getEventHistory 3 e = [a8, a9, a10] ∧ getEventHistory 0 e = e.event_history ∧
      getEventHistory (-1) e = e.event_history) := by
  refine ⟨?_, ?_, ?_, ?_⟩
  · intro h
    simp [getEventHistory, h]
  · rintro ⟨h0, hn⟩
    have hc : ¬ (n ≤ 0 ∨ n ≥ (e.event_history.length : Int)) := by omega
    simp only [getEventHistory, hc, if_false, List.length_drop, and_true]
    omega
  · simp only [getEventHistory]
    split_ifs
    · exact List.suffix_refl _
    · exact List.drop_suffix _ _
  · intro a1 a2 a3 a4 a5 a6 a7 a8 a9 a10 h
    simp [getEventHistory, h]

/-! ## Nearest-entry selection (C16, C17) -/

theorem min_element_foldl_spec {α : Type} (act : α → Bool) (dist : α → ℚ) :
    ∀ (xs seen : List α) (init : α),
      init ∈ seen → (∀ y ∈ seen, act y = true → dist init ≤ dist y) →
      (xs.foldl (fun smallest y => if (act y && decide (dist y < dist smallest)) then y
          else smallest) init) ∈ seen ++ xs ∧
      ∀ y ∈ seen ++ xs, act y = true →
        dist (xs.foldl (fun smallest y => if (act y && decide (dist y < dist smallest)) then y
          else smallest) init) ≤ dist y := by
  intro xs
  induction xs with
  | nil => intro seen init hmem hmin; simpa using ⟨hmem, hmin⟩
  | cons x xs ih =>
    intro seen init hmem hmin
    simp only [List.foldl_cons]
    have key : ∀ c : α, c ∈ seen ++ [x] →
        (∀ y ∈ seen ++ [x], act y = true → dist c ≤ dist y) →
        (xs.foldl (fun smallest y => if (act y && decide (dist y < dist smallest)) then y
            else smallest) c) ∈ seen ++ x :: xs ∧
        ∀ y ∈ seen ++ x :: xs, act y = true →
          dist (xs.foldl (fun smallest y => if (act y && decide (dist y < dist smallest)) then y
            else smallest) c) ≤ dist y := by
      intro c hc hcmin
      have := ih (seen ++ [x]) c hc hcmin
      simpa [List.append_assoc] using this
    by_cases hx : (act x && decide (dist x < dist init)) = true
    · rw [if_pos hx]
      simp only [Bool.and_eq_true, decide_eq_true_eq] at hx
      refine key x (by simp) ?_
      intro y hy hact
      rcases List.mem_append.mp hy with h | h
      · exact le_trans (le_of_lt hx.2) (hmin y h hact)
      · simp only [List.mem_singleton] at h
        rw [h]
    · rw [if_neg hx]
      refine key init (List.mem_append_left _ hmem) ?_
      intro y hy hact
      rcases List.mem_append.mp hy with h | h
      · exact hmin y h hact
      · simp only [List.mem_singleton] at h
        subst h
        simp only [Bool.and_eq_true, decide_eq_true_eq, not_and, not_lt] at hx
        exact hx hact

/-- What `std::min_element` does return with the comparator of `getNextSpeedRestriction`
and `getNextSignal`: an entry of the list that is no farther than any active entry. -/
theorem min_element_spec {α : Type} (act : α → Bool) (dist : α → ℚ) (l : List α) (c : α)
    (h : min_element (fun a b => act a && decide (dist a < dist b)) l = some c) :
    c ∈ l ∧ ∀ y ∈ l, act y = true → dist c ≤ dist y := by
  cases l with
  | nil => simp [min_element] at h
  | cons x xs =>
    simp only [min_element, Option.some.injEq] at h
    have := min_element_foldl_spec act dist xs [x] x (by simp) (by
      intro y hy _
      simp only [List.mem_singleton] at hy
      rw [hy])
    rw [h] at this
    simpa using this

/-- When `getNextSpeedRestriction` returns an entry, the entry is in the list, is
active and has the least distance among the active entries. -/
theorem getNextSpeedRestriction_some (s : SHPInterface) (r : SHPSpeedRestriction)
    (h : SHPInterface.getNextSpeedRestriction s = some r) :
    r ∈ s.speed_restrictions ∧ r.active = true ∧
    ∀ y ∈ s.speed_restrictions, y.active = true → r.distance ≤ y.distance := by
  unfold SHPInterface.getNextSpeedRestriction at h
  split at h
  · rename_i it hit
    split_ifs at h with hact
    simp only [Option.some.injEq] at h
    subst h
    have := min_element_spec (fun a : SHPSpeedRestriction => a.active)
      (fun a => a.distance) s.speed_restrictions it hit
    exact ⟨this.1, hact, this.2⟩
  · exact absurd h (by simp)

/-- When `getNextSignal` returns an entry, the entry is in the list, is active and has
the least distance among the active entries. -/
theorem getNextSignal_some (s : SHPInterface) (r : SHPSignalData)
    (h : SHPInterface.getNextSignal s = some r) :
    r ∈ s.signals ∧ r.active = true ∧
    ∀ y ∈ s.signals, y.active = true → r.distance ≤ y.distance := by
  unfold SHPInterface.getNextSignal at h
  split at h
  · rename_i it hit
    split_ifs at h with hact
    simp only [Option.some.injEq] at h
    subst h
    have := min_element_spec (fun a : SHPSignalData => a.active)
      (fun a => a.distance) s.signals it hit
    exact ⟨this.1, hact, this.2⟩
  · exact absurd h (by simp)

/-- C16 (the code at the failing input): once the first restriction and the first
signal have been retired at the head of their lists, `getNextSpeedRestriction` and
`getNextSignal` return nothing although both lists still hold active entries. -/
theorem C16_getNext_misses_active_entries :
    SHPInterface.getNextSpeedRestriction retiredHeadFeed = none ∧
    (∃ r ∈ retiredHeadFeed.speed_restrictions, r.active = true) ∧
    SHPInterface.getNextSignal retiredHeadFeed = none ∧
    (∃ s ∈ retiredHeadFeed.signals, s.active = true) := by
  refine ⟨?_, ?_, ?_, ?_⟩
  · norm_num [SHPInterface.getNextSpeedRestriction, min_element, retiredHeadFeed]
  · simp [retiredHeadFeed]
  · norm_num [SHPInterface.getNextSignal, min_element, retiredHeadFeed]
  · simp [retiredHeadFeed]

theorem processSHPSpeedRestrictions_uses_first (now : Int) (e : TRAATPIntegration)
    (shp : SHPInterface) (r : SHPSpeedRestriction)
    (hshp : e.shp_interface = some shp)
    (hfind : shp.speed_restrictions.find? (fun r => r.active && decide (r.distance > 0)) =
      some r) :
    (processSHPSpeedRestrictions now e).system_state.target_speed = (r.speed_limit : ℚ) ∧
    (processSHPSpeedRestrictions now e).system_state.distance_to_target = r.distance := by
  unfold processSHPSpeedRestrictions
  simp only [hshp, hfind]
  exact ⟨trivial, trivial⟩

/-- C17 (the code at the failing input): with the restriction at 1200 m listed before
the one at 500 m, both active, the restriction fold takes its values from the entry at
1200 m (limit 60), not from the nearest active entry at 500 m (limit 80). -/
theorem C17_fold_uses_first_listed_entry :
    (∃ r ∈ (unsortedFeedEngine.shp_interface.map
        SHPInterface.speed_restrictions).getD [],
      r.active = true ∧ r.distance = 500 ∧ r.speed_limit = 80) ∧
    (processSHPSpeedRestrictions 0 unsortedFeedEngine).system_state.distance_to_target = 1200 ∧
    (processSHPSpeedRestrictions 0 unsortedFeedEngine).system_state.target_speed = 60 ∧
    (processSHPSpeedRestrictions 0 unsortedFeedEngine).system_state.permitted_speed = 60 := by
  have hshp : unsortedFeedEngine.shp_interface =
      some (SHPInterface.setTRASpeedProfile
        [ { distance := 1200, speed_limit := 60, warning_speed := 65, temporary := true,
            reason := "施工限速", active := true },
          { distance := 500, speed_limit := 80, warning_speed := 85, temporary := false,
            reason := "彎道限速", active := true } ]
        initializeSHPInterface.2) := rfl
  have hp : unsortedFeedEngine.system_state.permitted_speed = 130 := rfl
  have hv : unsortedFeedEngine.system_state.current_speed = 0 := rfl
  refine ⟨?_, ?_, ?_, ?_⟩
  · rw [hshp]
    simp [SHPInterface.setTRASpeedProfile]
  · norm_num [processSHPSpeedRestrictions, hshp, SHPInterface.setTRASpeedProfile, hp, hv]
  · norm_num [processSHPSpeedRestrictions, hshp, SHPInterface.setTRASpeedProfile, hp, hv]
  · norm_num [processSHPSpeedRestrictions, hshp, SHPInterface.setTRASpeedProfile, hp, hv]

/-! ## The signal fold (C18) -/

theorem applyEmergencyBrake_emergency_brake (now : Int) (e : TRAATPIntegration) :
    (applyEmergencyBrake now e).system_state.emergency_brake = true := by
  rw [applyEmergencyBrake_system_state]
  split_ifs with h
  · exact h
  · rfl

theorem applyServiceBrake_system_state (now : Int) (e : TRAATPIntegration) :
    (applyServiceBrake now e).system_state =
      { e.system_state with brake_intervention := true } := by
  obtain ⟨shp, ss, log, ini, run, lut, lsu, br, ls, sim, dir⟩ := e
  obtain ⟨st, mode, atp, shpa, etcs, v, p, t, d, bi, tc, eb, cs, ns, rn, tn⟩ := ss
  cases bi <;> simp [applyServiceBrake, sendETCSBrakeCommand]

/-- C18: let `s` be the signal on which the signal fold acts (the first active signal
with positive distance of the feed's list; for a feed with a single such signal, that
signal). If `s` is RedStop with distance below 100, `emergency_brake` is true after the
fold; if `s` is RedStop with distance in [100, 300), `brake_intervention` is true and
`emergency_brake` keeps its value; for every RedStop `target_speed = 0`; for
YellowCaution `target_speed = min(80, permitted_speed)`; for GreenClear
`target_speed = permitted_speed`; for any other aspect `target_speed` is unchanged;
and in all cases `distance_to_target = s.distance`. -/
theorem C18_processSHPSignalData (now : Int) (e : TRAATPIntegration) (shp : SHPInterface)
    (s : SHPSignalData) (hshp : e.shp_interface = some shp)
    (hfind : shp.signals.find? (fun x => x.active && decide (x.distance > 0)) = some s) :
    (s.aspect = .RED_STOP → s.distance < 100 →
      (processSHPSignalData now e).system_state.emergency_brake = true) ∧
    (s.aspect = .RED_STOP → 100 ≤ s.distance → s.distance < 300 →
      (processSHPSignalData now e).system_state.brake_intervention = true ∧
      (processSHPSignalData now e).system_state.emergency_brake =
        e.system_state.emergency_brake) ∧
    (s.aspect = .RED_STOP → (processSHPSignalData now e).system_state.target_speed = 0) ∧
    (s.aspect = .YELLOW_CAUTION →
      (processSHPSignalData now e).system_state.target_speed =
        min 80 e.system_state.permitted_speed) ∧
    (s.aspect = .GREEN_CLEAR →
      (processSHPSignalData now e).system_state.target_speed =
        e.system_state.permitted_speed) ∧
    (s.aspect ≠ .RED_STOP → s.aspect ≠ .YELLOW_CAUTION → s.aspect ≠ .GREEN_CLEAR →
      (processSHPSignalData now e).system_state.target_speed =
        e.system_state.target_speed) ∧
    (processSHPSignalData now e).system_state.distance_to_target = s.distance ∧
    (shp.signals = [s] → s.active = true → s.distance > 0 →
      shp.signals.find? (fun x => x.active && decide (x.distance > 0)) = some s) := by
  have hstep : processSHPSignalData now e =
      (let e1 :=
        match s.aspect with
        | .RED_STOP =>
          let e0 :=
            if s.distance < 100 then applyEmergencyBrake now e
            else if s.distance < 300 then applyServiceBrake now e
            else e
          { e0 with system_state := { e0.system_state with target_speed := 0 } }
        | .YELLOW_CAUTION =>
          { e with system_state :=
              { e.system_state with target_speed := min 80 e.system_state.permitted_speed } }
        | .GREEN_CLEAR =>
          { e with system_state :=
              { e.system_state with target_speed := e.system_state.permitted_speed } }
        | _ => e
      { e1 with system_state := { e1.system_state with distance_to_target := s.distance } }) := by
    unfold processSHPSignalData
    simp only [hshp, hfind]
  refine ⟨?_, ?_, ?_, ?_, ?_, ?_, ?_, ?_⟩
  · intro ha hd
    rw [hstep]
    simp only [ha, hd, if_true]
    exact applyEmergencyBrake_emergency_brake now e
  · intro ha h1 h2
    have h1' : ¬ s.distance < 100 := not_lt.mpr h1
    rw [hstep]
    simp only [ha, h1', h2, if_true, if_false]
    simp [applyServiceBrake_system_state]
  · intro ha
    rw [hstep]
    simp only [ha]
  · intro ha
    rw [hstep]
    simp only [ha]
  · intro ha
    rw [hstep]
    simp only [ha]
  · intro h1 h2 h3
    rw [hstep]
    cases hasp : s.aspect <;> simp_all
  · rw [hstep]
  · intro hl ha hd
    rw [hl]
    simp [ha, hd]

/-- C18 (witness): a single RedStop at distance 80 gives the emergency brake and target
speed 0; a single RedStop at distance 250 gives the service brake only. -/
theorem C18_processSHPSignalData_witness :
    ((processSHPSignalData 0 (redStopEngine 80)).system_state.emergency_brake = true ∧
      (processSHPSignalData 0 (redStopEngine 80)).system_state.target_speed = 0) ∧
    ((processSHPSignalData 0 (redStopEngine 250)).system_state.brake_intervention = true ∧
      (processSHPSignalData 0 (redStopEngine 250)).system_state.emergency_brake = false ∧
      (processSHPSignalData 0 (redStopEngine 250)).system_state.target_speed = 0) :=
  ⟨⟨(C18_processSHPSignalData 0 (redStopEngine 80) (redStopFeed 80)
        { distance := 80, aspect := .RED_STOP, speed_limit := 0, signal_id := "S003",
          approach_control := false, active := true } rfl
        (by norm_num [redStopFeed])).1 rfl (by norm_num),
    (C18_processSHPSignalData 0 (redStopEngine 80) (redStopFeed 80)
        { distance := 80, aspect := .RED_STOP, speed_limit := 0, signal_id := "S003",
          approach_control := false, active := true } rfl
        (by norm_num [redStopFeed])).2.2.1 rfl⟩,
   ⟨((C18_processSHPSignalData 0 (redStopEngine 250) (redStopFeed 250)
        { distance := 250, aspect := .RED_STOP, speed_limit := 0, signal_id := "S003",
          approach_control := false, active := true } rfl
        (by norm_num [redStopFeed])).2.1 rfl (by norm_num) (by norm_num)).1,
    ((C18_processSHPSignalData 0 (redStopEngine 250) (redStopFeed 250)
        { distance := 250, aspect := .RED_STOP, speed_limit := 0, signal_id := "S003",
          approach_control := false, active := true } rfl
        (by norm_num [redStopFeed])).2.1 rfl (by norm_num) (by norm_num)).2,
    (C18_processSHPSignalData 0 (redStopEngine 250) (redStopFeed 250)
        { distance := 250, aspect := .RED_STOP, speed_limit := 0, signal_id := "S003",
          approach_control := false, active := true } rfl
        (by norm_num [redStopFeed])).2.2.1 rfl⟩⟩

/-! ## Starting and stopping (C19, C20) -/

theorem connectToSimRail_eq_with (now : Int) (e : TRAATPIntegration) :
    connectToSimRail now e = connectToSimRailWith SHPInterface.connect now e := rfl

theorem start_eq_with (now : Int) (e : TRAATPIntegration) :
    start now e = startWith SHPInterface.connect now e := rfl

/-- C19 (counterexample): if the feed source's `connect()` fails on an initialised
engine, `start()` returns false but has set `integration_status` to the error state and
appended an event. -/
theorem C19_start_failed_connect_mutates :
    (startWith failingConnect 0 initializedEngine).1 = false ∧
    initializedEngine.system_state.integration_status = .CONNECTED ∧
    (startWith failingConnect 0 initializedEngine).2.system_state.integration_status =
      .ERROR_STATE ∧
    (startWith failingConnect 0 initializedEngine).2.event_history ≠
      initializedEngine.event_history := by
  decide

theorem lifecycle_applyServiceBrake (now : Int) (e : TRAATPIntegration) :
    lifecycle (applyServiceBrake now e) = lifecycle e := by
  unfold applyServiceBrake sendETCSBrakeCommand
  split_ifs <;> rfl

theorem lifecycle_applyEmergencyBrake (now : Int) (e : TRAATPIntegration) :
    lifecycle (applyEmergencyBrake now e) = lifecycle e := by
  unfold applyEmergencyBrake cutTraction sendETCSTractionCut sendETCSBrakeCommand
  split_ifs <;> rfl

theorem lifecycle_cutTraction (now : Int) (e : TRAATPIntegration) :
    lifecycle (cutTraction now e) = lifecycle e := by
  unfold cutTraction sendETCSTractionCut
  split_ifs <;> rfl

theorem lifecycle_handleModeTransition (now : Int) (m : TRAATPMode) (e : TRAATPIntegration) :
    lifecycle (handleModeTransition now m e) = lifecycle e := by
  unfold handleModeTransition
  by_cases hv : validateModeTransition e.system_state.current_mode m = true
  · simp only [hv, not_true_eq_false, if_false]
    cases m
    case pos.EMERGENCY => exact lifecycle_applyEmergencyBrake now _
    all_goals rfl
  · simp only [hv, not_false_eq_true, if_true]
    rfl

theorem lifecycle_processSHPSpeedRestrictions (now : Int) (e : TRAATPIntegration) :
    lifecycle (processSHPSpeedRestrictions now e) = lifecycle e := by
  unfold processSHPSpeedRestrictions
  split
  · rfl
  · split
    · rfl
    · unfold lifecycle
      dsimp only
      split_ifs
      · exact lifecycle_applyServiceBrake now _
      · rfl
      · rfl

theorem lifecycle_processSHPSignalData (now : Int) (e : TRAATPIntegration) :
    lifecycle (processSHPSignalData now e) = lifecycle e := by
  unfold processSHPSignalData
  split
  · rfl
  · split
    · rfl
    · unfold lifecycle
      dsimp only
      split
      · dsimp only
        split_ifs
        · exact lifecycle_applyEmergencyBrake now e
        · exact lifecycle_applyServiceBrake now e
        · rfl
      · rfl
      · rfl
      · rfl

theorem lifecycle_shp_update (now : Int) (e : TRAATPIntegration) :
    lifecycle (SHPInterface.update now e) = lifecycle e :=
  shp_update_preserves (fun x => lifecycle x = lifecycle e)
    (fun _ _ h => h) (fun _ _ _ h => h)
    (fun now _ _ h => (lifecycle_processSHPSpeedRestrictions now _).trans h)
    (fun now _ _ h => (lifecycle_processSHPSignalData now _).trans h)
    (fun _ _ h => h) now e rfl

theorem lifecycle_updateETCSSupervision (now : Int) (e : TRAATPIntegration) :
    lifecycle (updateETCSSupervision now e) = lifecycle e := by
  have h2 : lifecycle (checkServiceBrake now (writeSupervisionData e)) = lifecycle e := by
    unfold checkServiceBrake
    split_ifs
    · exact lifecycle_applyServiceBrake now _
    · rfl
  have h3 : lifecycle (checkEmergencyBrake now
      (checkServiceBrake now (writeSupervisionData e))) = lifecycle e := by
    unfold checkEmergencyBrake
    split_ifs
    · exact (lifecycle_applyEmergencyBrake now _).trans h2
    · exact h2
  unfold updateETCSSupervision checkBrakeRelease
  split_ifs <;> first | rfl | exact h3

theorem lifecycle_handleSafetyViolation (now : Int) (violation : String)
    (e : TRAATPIntegration) :
    lifecycle (handleSafetyViolation now violation e) = lifecycle e := by
  unfold handleSafetyViolation
  rw [lifecycle_handleModeTransition, lifecycle_cutTraction, lifecycle_applyEmergencyBrake]
  rfl

theorem lifecycle_update (now : Int) (e : TRAATPIntegration) :
    lifecycle (update now e) = lifecycle e := by
  have h0 : lifecycle (refreshFeed now { e with last_update_time := now }) = lifecycle e := by
    unfold refreshFeed
    split_ifs <;> first | rfl | exact lifecycle_shp_update now _
  have h1 : lifecycle (performSafetyChecks
      (refreshFeed now { e with last_update_time := now })).2 = lifecycle e := by
    rw [← h0]
    unfold performSafetyChecks
    dsimp only
    split_ifs <;> rfl
  have h2 : lifecycle (runSafetyChecks now
      (refreshFeed now { e with last_update_time := now })) = lifecycle e := by
    unfold runSafetyChecks
    split_ifs <;> first
      | exact h1
      | exact (lifecycle_handleSafetyViolation now _ _).trans h1
  unfold update
  split_ifs <;> first | rfl | exact (lifecycle_updateETCSSupervision now _).trans h2

theorem runningInv_of_lifecycle {e e2 : TRAATPIntegration} (h : RunningInv e)
    (hl : lifecycle e2 = lifecycle e) : RunningInv e2 := by
  simp only [lifecycle, Prod.mk.injEq] at hl
  unfold RunningInv at *
  rw [hl.1, hl.2]
  exact h

theorem runningInv_stop {e : TRAATPIntegration} (h : RunningInv e) (now : Int) :
    RunningInv (stop now e) := by
  unfold stop
  split_ifs <;> first
    | exact h
    | (intro hr; simp [disconnectFromSimRail, addEvent] at hr)

theorem stop_running (now : Int) (e : TRAATPIntegration) : (stop now e).running = false := by
  unfold stop
  split_ifs with h <;> first
    | rfl
    | simpa using h

theorem runningInv_step {e : TRAATPIntegration} (h : RunningInv e) (op : Op) :
    RunningInv (step op e) := by
  cases op with
  | doInitialize now =>
    simp only [step, doInitialize]
    split_ifs <;> first
      | exact h
      | (intro _; rfl)
  | shutdown now =>
    have hs := stop_running now e
    simp only [step, shutdown]
    split_ifs <;> first
      | exact h
      | (intro hr
         simp only [addEvent] at hr
         rw [hs] at hr
         exact absurd hr (by decide))
  | start now =>
    by_cases h1 : e.initialized = true
    · intro _
      have hl : (start now e).2.initialized = e.initialized := by
        simp only [start, connectToSimRail]
        split_ifs <;> first
          | rfl
          | (split <;> rfl)
      exact hl.trans h1
    · have hl : (start now e).2 = e := by simp [start, h1]
      simp only [step, hl]
      exact h
  | stop now => exact runningInv_stop h now
  | update now => exact runningInv_of_lifecycle h (lifecycle_update now e)
  | setMode now mode => exact runningInv_of_lifecycle h (lifecycle_handleModeTransition now mode e)
  | enableATP now enable =>
    refine runningInv_of_lifecycle h ?_
    simp only [step, enableATP]
    split_ifs <;> first | rfl | exact lifecycle_handleModeTransition now _ _
  | enableSHP now enable => exact h
  | enableETCS now enable => exact h
  | setPermittedSpeed speed => exact h
  | setTargetSpeed speed => exact h
  | setCurrentSpeed speed => exact h
  | setDistanceToTarget distance => exact h
  | applyServiceBrake now => exact runningInv_of_lifecycle h (lifecycle_applyServiceBrake now e)
  | applyEmergencyBrake now =>
    exact runningInv_of_lifecycle h (lifecycle_applyEmergencyBrake now e)
  | releaseBrake now => exact h
  | cutTraction now => exact runningInv_of_lifecycle h (lifecycle_cutTraction now e)
  | restoreTraction now => exact h
  | clearEventHistory => exact h
  | runSystemTest now =>
    simp only [step, runSystemTest]
    split_ifs <;> exact h
  | performCalibration now => exact h
  | connectToSimRail now =>
    simp only [step, connectToSimRail]
    split
    · exact h
    · split_ifs <;> exact h
  | disconnectFromSimRail now => exact h
  | forceSimRailUpdate now =>
    refine runningInv_of_lifecycle h ?_
    simp only [step, forceSimRailUpdate, SHPInterface.forceUpdate]
    split
    · rfl
    · split_ifs <;> first | rfl | exact lifecycle_shp_update now e
  | resetToDefaults now => exact h

/-- In every reachable state, a running engine is initialised. -/
theorem reachable_runningInv {e : TRAATPIntegration} (h : Reachable e) : RunningInv e := by
  induction h with
  | construct bridge => intro hr; simp [TRAATPIntegration.construct] at hr
  | step op _ ih => exact runningInv_step ih op

/-- C19 (amended): for every engine state in which a running engine is initialised
(as in every reachable state) and every outcome of the feed source's `connect()`, if
`start()` returns false then `running` is false afterwards, and: when the engine is
uninitialised or holds no feed source, the whole state (SystemState and event log
included) is exactly as before the call; when `connect()` itself failed,
`integration_status` has become the error state and one CommunicationError event of
severity 2 has been appended, every other SystemState field being as before. With the
`connect()` of `shp_interface.cpp`, which never fails, a `start()` that returns false
has changed nothing. -/
theorem C19_start_returns_false (connect : SHPInterface → Bool × SHPInterface) (now : Int)
    (e : TRAATPIntegration) (hinv : RunningInv e)
    (hfalse : (startWith connect now e).1 = false) :
    (startWith connect now e).2.running = false ∧
    (e.initialized = false ∨ e.shp_interface = none → (startWith connect now e).2 = e) ∧
    (∀ shp, e.initialized = true → e.shp_interface = some shp →
      (connect shp).1 = false ∧
      (startWith connect now e).2 =
        { e with
          shp_interface := some (connect shp).2,
          system_state := { e.system_state with integration_status := .ERROR_STATE },
          event_history :=
            if 1000 < e.event_history.length + 1 then
              (e.event_history ++
                [mkEvent now .COMMUNICATION_ERROR "SimRail連接失敗" 0 2]).drop 100
            else e.event_history ++ [mkEvent now .COMMUNICATION_ERROR "SimRail連接失敗" 0 2] }) ∧
    ((start now e).1 = false → (start now e).2 = e) := by
  by_cases hini : e.initialized = true
  · have hrun : e.running = false := by
      by_contra hr
      have hr' : e.running = true := by simpa using hr
      simp [startWith, hini, hr'] at hfalse
    cases hshp : e.shp_interface with
    | none =>
      have hres : (startWith connect now e).2 = e := by
        simp [startWith, hini, hrun, connectToSimRailWith, hshp]
      refine ⟨by rw [hres]; exact hrun, fun _ => hres, ?_, ?_⟩
      · intro shp _ h
        exact absurd h (by simp)
      · intro _
        simp [start, hini, hrun, connectToSimRail, hshp]
    | some shp =>
      have hc : (connect shp).1 = false := by
        by_contra hc
        have hc' : (connect shp).1 = true := by simpa using hc
        simp [startWith, hini, hrun, connectToSimRailWith, hshp, hc'] at hfalse
      have hres : (startWith connect now e).2 =
          { e with
            shp_interface := some (connect shp).2,
            system_state := { e.system_state with integration_status := .ERROR_STATE },
            event_history :=
              if 1000 < e.event_history.length + 1 then
                (e.event_history ++
                  [mkEvent now .COMMUNICATION_ERROR "SimRail連接失敗" 0 2]).drop 100
              else e.event_history ++
                [mkEvent now .COMMUNICATION_ERROR "SimRail連接失敗" 0 2] } := by
        simp [startWith, hini, hrun, connectToSimRailWith, hshp, hc, addEvent]
      refine ⟨by rw [hres]; exact hrun, ?_, ?_, ?_⟩
      · intro h
        rcases h with h | h
        · rw [hini] at h; exact absurd h (by decide)
        · exact absurd h (by simp)
      · intro shp2 _ h2
        have : shp2 = shp := by
          simp only [Option.some.injEq] at h2
          exact h2.symm
        subst this
        exact ⟨hc, hres⟩
      · intro hf
        simp [start, hini, hrun, connectToSimRail, hshp, SHPInterface.connect] at hf
  · have hini' : e.initialized = false := by simpa using hini
    have hres : (startWith connect now e).2 = e := by simp [startWith, hini']
    have hrun : e.running = false := by
      by_contra hr
      have hr' : e.running = true := by simpa using hr
      exact hini (hinv hr')
    refine ⟨by rw [hres]; exact hrun, fun _ => hres, ?_, ?_⟩
    · intro shp h _
      rw [hini'] at h
      exact absurd h (by decide)
    · intro _
      simp [start, hini']

/-- C19 (witness, amended): `start()` on an engine that was never initialised. -/
theorem C19_start_returns_false_witness :
    (startWith SHPInterface.connect 0 freshEngine).2.running = false ∧
    (startWith SHPInterface.connect 0 freshEngine).2 = freshEngine :=
  ⟨(C19_start_returns_false SHPInterface.connect 0 freshEngine
      (reachable_runningInv (Reachable.construct zeroBridge)) (by decide)).1,
   (C19_start_returns_false SHPInterface.connect 0 freshEngine
      (reachable_runningInv (Reachable.construct zeroBridge)) (by decide)).2.1
     (Or.inl (by decide))⟩

/-- C20 (counterexample): on an engine that is not running, with the emergency brake
applied, `stop()` leaves `emergency_brake` and `traction_cut` true. -/
theorem C20_stop_when_not_running :
    brakedIdleEngine.running = false ∧
    (stop 0 brakedIdleEngine).system_state.emergency_brake = true ∧
    (stop 0 brakedIdleEngine).system_state.traction_cut = true := by
  decide

/-- C20 (amended): after `stop()` returns, `running` is false; if the engine was
running when `stop()` was called, `brake_intervention`, `traction_cut` and
`emergency_brake` are all false as well; if it was not running, `stop()` has changed
nothing. -/
theorem C20_stop (now : Int) (e : TRAATPIntegration) :
    (stop now e).running = false ∧
    (e.running = true →
      (stop now e).system_state.brake_intervention = false ∧
      (stop now e).system_state.traction_cut = false ∧
      (stop now e).system_state.emergency_brake = false) ∧
    (e.running = false → stop now e = e) := by
  refine ⟨stop_running now e, ?_, ?_⟩
  · intro h
    simp [stop, h, disconnectFromSimRail]
  · intro h
    simp [stop, h]

/-- On a list sorted by distance, the first entry that satisfies `p` is also the
nearest entry that satisfies `p`: the folds of the engine pick the nearest active
entry exactly when the feed keeps its lists in order of distance. -/
theorem find_first_is_nearest_of_sorted {α : Type} (p : α → Bool) (dist : α → ℚ) :
    ∀ l : List α, l.Pairwise (fun a b => dist a ≤ dist b) →
      ∀ r, l.find? p = some r → ∀ y ∈ l, p y = true → dist r ≤ dist y := by
  intro l
  induction l with
  | nil => intro _ r h; simp at h
  | cons x xs ih =>
    intro hs r hr y hy hpy
    rw [List.pairwise_cons] at hs
    by_cases hpx : p x = true
    · rw [List.find?_cons_of_pos _ hpx] at hr
      simp only [Option.some.injEq] at hr
      subst hr
      rcases List.mem_cons.mp hy with h | h
      · rw [h]
      · exact hs.1 y h
    · rw [List.find?_cons_of_neg _ hpx] at hr
      rcases List.mem_cons.mp hy with h | h
      · subst h; exact absurd hpy hpx
      · exact ih hs.2 r hr y h hpy

/-! ## The log bound on reachable states -/

theorem logBound_addEvent {e : TRAATPIntegration} (h : LogBound e) (now : Int)
    (type : TRAATPEventType) (message : String) (distance : ℚ) (severity : Int) :
    LogBound (addEvent now type message distance severity e) :=
  addEvent_length_le now type message distance severity e h

theorem logBound_sendETCSBrakeCommand {e : TRAATPIntegration} (h : LogBound e) (now : Int)
    (emergency : Bool) : LogBound (sendETCSBrakeCommand now emergency e) := by
  unfold sendETCSBrakeCommand
  split_ifs
  · refine logBound_addEvent ?_ now _ _ _ _
    exact h
  · refine logBound_addEvent ?_ now _ _ _ _
    exact h

theorem logBound_applyServiceBrake {e : TRAATPIntegration} (h : LogBound e) (now : Int) :
    LogBound (applyServiceBrake now e) := by
  unfold applyServiceBrake
  split_ifs <;> first | exact h | exact logBound_sendETCSBrakeCommand h now false

theorem logBound_cutTraction {e : TRAATPIntegration} (h : LogBound e) (now : Int) :
    LogBound (cutTraction now e) := by
  unfold cutTraction sendETCSTractionCut
  split_ifs
  · exact h
  · refine logBound_addEvent (e := { e with system_state := _ }) ?_ now _ _ _ _
    exact h

theorem logBound_applyEmergencyBrake {e : TRAATPIntegration} (h : LogBound e) (now : Int) :
    LogBound (applyEmergencyBrake now e) := by
  unfold applyEmergencyBrake
  split_ifs
  · exact h
  · exact logBound_cutTraction (logBound_sendETCSBrakeCommand h now true) now

theorem logBound_releaseBrake {e : TRAATPIntegration} (h : LogBound e) (now : Int) :
    LogBound (releaseBrake now e) := by
  unfold releaseBrake
  refine logBound_addEvent ?_ now _ _ _ _
  exact h

theorem logBound_handleModeTransition {e : TRAATPIntegration} (h : LogBound e) (now : Int)
    (m : TRAATPMode) : LogBound (handleModeTransition now m e) := by
  have h2 : LogBound (addEvent now .MODE_CHANGE
      ("模式變更: " ++ modeToString e.system_state.current_mode ++ " -> " ++ modeToString m) 0 0
      { e with system_state := { e.system_state with current_mode := m } }) := by
    refine logBound_addEvent ?_ now _ _ _ _
    exact h
  unfold handleModeTransition
  by_cases hv : validateModeTransition e.system_state.current_mode m = true
  · simp only [hv, not_true_eq_false, if_false]
    cases m
    case pos.EMERGENCY => exact logBound_applyEmergencyBrake h2 now
    all_goals exact h2
  · simp only [hv, not_false_eq_true, if_true]
    exact logBound_addEvent h now _ _ _ _

theorem logBound_processSHPSpeedRestrictions {e : TRAATPIntegration} (h : LogBound e)
    (now : Int) : LogBound (processSHPSpeedRestrictions now e) := by
  unfold processSHPSpeedRestrictions
  split
  · exact h
  · split
    · exact h
    · unfold LogBound
      dsimp only
      split_ifs
      · refine logBound_applyServiceBrake ?_ now
        exact h
      · exact h
      · exact h

theorem logBound_processSHPSignalData {e : TRAATPIntegration} (h : LogBound e)
    (now : Int) : LogBound (processSHPSignalData now e) := by
  unfold processSHPSignalData
  split
  · exact h
  · split
    · exact h
    · unfold LogBound
      dsimp only
      split
      · dsimp only
        split_ifs
        · exact logBound_applyEmergencyBrake h now
        · exact logBound_applyServiceBrake h now
        · exact h
      · exact h
      · exact h
      · exact h

theorem logBound_shp_update {e : TRAATPIntegration} (h : LogBound e) (now : Int) :
    LogBound (SHPInterface.update now e) :=
  shp_update_preserves LogBound
    (fun _ _ h => h) (fun _ _ _ h => h)
    (fun now _ _ h => logBound_processSHPSpeedRestrictions (logBound_addEvent h now _ _ _ _) now)
    (fun now _ _ h => logBound_processSHPSignalData (logBound_addEvent h now _ _ _ _) now)
    (fun _ _ h => h) now e h

theorem logBound_updateETCSSupervision {e : TRAATPIntegration} (h : LogBound e)
    (now : Int) : LogBound (updateETCSSupervision now e) := by
  have h1 : LogBound (writeSupervisionData e) := h
  have h2 : LogBound (checkServiceBrake now (writeSupervisionData e)) := by
    unfold checkServiceBrake
    split_ifs <;> first | exact h1 | exact logBound_applyServiceBrake h1 now
  have h3 : LogBound
      (checkEmergencyBrake now (checkServiceBrake now (writeSupervisionData e))) := by
    unfold checkEmergencyBrake
    split_ifs <;> first | exact h2 | exact logBound_applyEmergencyBrake h2 now
  unfold updateETCSSupervision checkBrakeRelease
  split_ifs <;> first | exact h | exact h3 | exact logBound_releaseBrake h3 now

theorem logBound_handleSafetyViolation {e : TRAATPIntegration} (h : LogBound e)
    (now : Int) (violation : String) : LogBound (handleSafetyViolation now violation e) := by
  unfold handleSafetyViolation
  exact logBound_handleModeTransition
    (logBound_cutTraction (logBound_applyEmergencyBrake (logBound_addEvent h now _ _ _ _) now)
      now) now _

theorem logBound_update {e : TRAATPIntegration} (h : LogBound e) (now : Int) :
    LogBound (update now e) := by
  have h0 : LogBound (refreshFeed now { e with last_update_time := now }) := by
    unfold refreshFeed
    split_ifs <;> first
      | exact h
      | exact logBound_shp_update (e := { e with last_update_time := now }) h now
  have h1 : LogBound
      (performSafetyChecks (refreshFeed now { e with last_update_time := now })).2 := by
    unfold performSafetyChecks
    dsimp only
    split_ifs <;> exact h0
  have h2 : LogBound (runSafetyChecks now
      (refreshFeed now { e with last_update_time := now })) := by
    unfold runSafetyChecks
    split_ifs <;> first | exact h1 | exact logBound_handleSafetyViolation h1 now _
  unfold update
  split_ifs <;> first | exact h | exact logBound_updateETCSSupervision h2 now

theorem logBound_connectToSimRail {e : TRAATPIntegration} (h : LogBound e) (now : Int) :
    LogBound (connectToSimRail now e).2 := by
  unfold connectToSimRail
  split
  · exact h
  · dsimp only
    split_ifs <;> (refine logBound_addEvent ?_ now _ _ _ _; exact h)

theorem logBound_disconnectFromSimRail {e : TRAATPIntegration} (h : LogBound e)
    (now : Int) : LogBound (disconnectFromSimRail now e) := by
  unfold disconnectFromSimRail
  refine logBound_addEvent ?_ now _ _ _ _
  exact h

theorem logBound_stop {e : TRAATPIntegration} (h : LogBound e) (now : Int) :
    LogBound (stop now e) := by
  unfold stop
  split_ifs <;> first
    | exact h
    | (refine logBound_addEvent ?_ now _ _ _ _
       exact logBound_disconnectFromSimRail (e := { e with system_state := _ }) h now)

theorem logBound_start {e : TRAATPIntegration} (h : LogBound e) (now : Int) :
    LogBound (start now e).2 := by
  have hc := logBound_connectToSimRail h now
  unfold start
  dsimp only
  split_ifs <;> first
    | exact h
    | exact hc
    | (refine logBound_addEvent ?_ now _ _ _ _; exact hc)

theorem logBound_step {e : TRAATPIntegration} (h : LogBound e) (op : Op) :
    LogBound (step op e) := by
  cases op with
  | doInitialize now =>
    simp only [step, doInitialize]
    split_ifs <;> first
      | exact h
      | exact logBound_addEvent (e := { e with shp_interface := _ }) h now _ _ _ _
  | shutdown now =>
    have hs := logBound_stop h now
    simp only [step, shutdown]
    split_ifs <;> first
      | exact h
      | (refine logBound_addEvent ?_ now _ _ _ _; exact hs)
  | start now => exact logBound_start h now
  | stop now => exact logBound_stop h now
  | update now => exact logBound_update h now
  | setMode now mode => exact logBound_handleModeTransition h now mode
  | enableATP now enable =>
    simp only [step, enableATP]
    split_ifs <;> first
      | (refine logBound_handleModeTransition ?_ now _
         refine logBound_addEvent ?_ now _ _ _ _
         exact h)
      | (refine logBound_addEvent ?_ now _ _ _ _; exact h)
  | enableSHP now enable =>
    simp only [step, enableSHP]
    refine logBound_addEvent ?_ now _ _ _ _
    exact h
  | enableETCS now enable =>
    simp only [step, enableETCS]
    refine logBound_addEvent ?_ now _ _ _ _
    exact h
  | setPermittedSpeed speed => exact h
  | setTargetSpeed speed => exact h
  | setCurrentSpeed speed => exact h
  | setDistanceToTarget distance => exact h
  | applyServiceBrake now => exact logBound_applyServiceBrake h now
  | applyEmergencyBrake now => exact logBound_applyEmergencyBrake h now
  | releaseBrake now => exact logBound_releaseBrake h now
  | cutTraction now => exact logBound_cutTraction h now
  | restoreTraction now =>
    simp only [step, restoreTraction]
    refine logBound_addEvent ?_ now _ _ _ _
    exact h
  | clearEventHistory => exact Nat.zero_le _
  | runSystemTest now =>
    have h1 : LogBound (addEvent now .SYSTEM_FAULT "系統自檢開始" 0 0 e) :=
      logBound_addEvent h now .SYSTEM_FAULT "系統自檢開始" 0 0
    simp only [step, runSystemTest]
    refine logBound_addEvent ?_ now _ _ _ _
    split_ifs
    · refine logBound_addEvent ?_ now _ _ _ _
      exact h1
    · exact h1
  | performCalibration now =>
    simp only [step, performCalibration]
    refine logBound_addEvent ?_ now _ _ _ _
    refine logBound_addEvent ?_ now _ _ _ _
    exact h
  | connectToSimRail now => exact logBound_connectToSimRail h now
  | disconnectFromSimRail now => exact logBound_disconnectFromSimRail h now
  | forceSimRailUpdate now =>
    simp only [step, forceSimRailUpdate, SHPInterface.forceUpdate]
    split
    · exact h
    · split_ifs <;> first | exact h | exact logBound_shp_update h now
  | resetToDefaults now =>
    simp only [step, resetToDefaults]
    refine logBound_addEvent ?_ now _ _ _ _
    exact h

/-- In every reachable state the event log holds at most 1000 entries. -/
theorem reachable_logBound {e : TRAATPIntegration} (h : Reachable e) : LogBound e := by
  induction h with
  | construct bridge => exact Nat.zero_le _
  | step op _ ih => exact logBound_step ih op

/-! ## Threshold supervision while ETCS is disabled -/

/-- C28: whenever `etcs_active` is false, `updateETCSSupervision` returns the state
it was given, for any current and permitted speed: SystemState, the bridge values
and the event log are unchanged, so neither brake flag is set by it; and
`etcs_active` is false after construction, `initialize()` and `start()`. -/
theorem C28_updateETCSSupervision_disabled (now : Int) (e : TRAATPIntegration)
    (h : e.system_state.etcs_active = false) :
    updateETCSSupervision now e = e ∧
    (updateETCSSupervision now e).system_state = e.system_state ∧
    (updateETCSSupervision now e).bridge = e.bridge ∧
    (updateETCSSupervision now e).event_history = e.event_history ∧
    (∀ (bridge : Bridge) (n1 n2 : Int),
      (TRAATPIntegration.construct bridge).system_state.etcs_active = false ∧
      (doInitialize n1 (TRAATPIntegration.construct bridge)).2.system_state.etcs_active
        = false ∧
      (start n2 (doInitialize n1 (TRAATPIntegration.construct bridge)).2).2.system_state.etcs_active
        = false) := by
  have h0 : updateETCSSupervision now e = e := by
    simp [updateETCSSupervision, h]
  refine ⟨h0, by rw [h0], by rw [h0], by rw [h0], ?_⟩
  intro bridge n1 n2
  refine ⟨rfl, rfl, rfl⟩

/-- C28 (witness): after `initialize()` and `start()`, at 300 km/h against a permitted
speed of 130 km/h, the supervision step applies no brake. -/
theorem C28_updateETCSSupervision_disabled_witness :
    startedOverspeedEngine.system_state.current_speed = 300 ∧
    startedOverspeedEngine.system_state.permitted_speed = 130 ∧
    updateETCSSupervision 100 startedOverspeedEngine = startedOverspeedEngine ∧
    (updateETCSSupervision 100 startedOverspeedEngine).system_state.brake_intervention = false ∧
    (updateETCSSupervision 100 startedOverspeedEngine).system_state.emergency_brake = false :=
  ⟨rfl, rfl, (C28_updateETCSSupervision_disabled 100 startedOverspeedEngine rfl).1,
   by rw [(C28_updateETCSSupervision_disabled 100 startedOverspeedEngine rfl).1]; rfl,
   by rw [(C28_updateETCSSupervision_disabled 100 startedOverspeedEngine rfl).1]; rfl⟩

/-! ## The remembered speed of the safety check -/

theorem performSafetyChecks_last_speed (e : TRAATPIntegration) :
    (performSafetyChecks e).2.last_speed =
      if e.system_state.emergency_brake = true ∧ e.system_state.current_speed > 5 then
        some e.system_state.current_speed
      else e.last_speed := by
  unfold performSafetyChecks
  dsimp only
  split_ifs <;> rfl

theorem performSafetyChecks_frame (e : TRAATPIntegration) :
    (performSafetyChecks e).2 = { e with last_speed := (performSafetyChecks e).2.last_speed } := by
  unfold performSafetyChecks
  dsimp only
  split_ifs <;> rfl

/-- C29: the first time `performSafetyChecks` reaches its brake check (the function
static `last_speed` not yet initialised) with `emergency_brake` true and
`current_speed > 5`, it returns false whatever the speeds and the connection state,
and remembers the current speed; on every check the remembered speed is written only
when `emergency_brake` is true and `current_speed > 5`, and nothing else of the state
changes. -/
theorem C29_first_brake_check_fails (e : TRAATPIntegration)
    (hfirst : e.last_speed = none)
    (heb : e.system_state.emergency_brake = true)
    (hv : e.system_state.current_speed > 5) :
    (performSafetyChecks e).1 = false ∧
    (performSafetyChecks e).2.last_speed = some e.system_state.current_speed ∧
    (∀ e2 : TRAATPIntegration,
      (performSafetyChecks e2).2.last_speed =
        (if e2.system_state.emergency_brake = true ∧ e2.system_state.current_speed > 5 then
          some e2.system_state.current_speed
        else e2.last_speed) ∧
      (performSafetyChecks e2).2 =
        { e2 with last_speed := (performSafetyChecks e2).2.last_speed }) := by
  refine ⟨?_, ?_, fun e2 => ⟨performSafetyChecks_last_speed e2, performSafetyChecks_frame e2⟩⟩
  · unfold performSafetyChecks
    simp [heb, hv, hfirst]
  · rw [performSafetyChecks_last_speed, if_pos ⟨heb, hv⟩]

/-- C29 (witness): the emergency brake applied at 50 km/h, permitted speed 130 km/h,
no check made before. -/
theorem C29_first_brake_check_fails_witness :
    firstCheckEngine.system_state.current_speed = 50 ∧
    firstCheckEngine.system_state.permitted_speed = 130 ∧
    (performSafetyChecks firstCheckEngine).1 = false ∧
    (performSafetyChecks firstCheckEngine).2.last_speed = some 50 :=
  ⟨rfl, rfl,
   (C29_first_brake_check_fails firstCheckEngine rfl rfl
      (by rw [show firstCheckEngine.system_state.current_speed = 50 from rfl]; norm_num)).1,
   (C29_first_brake_check_fails firstCheckEngine rfl rfl
      (by rw [show firstCheckEngine.system_state.current_speed = 50 from rfl]; norm_num)).2.1⟩

/-! ## The restriction fold -/

/-- C23: for the restriction `r` on which `processSHPSpeedRestrictions` acts (the
first listed entry that is active with a positive distance), with P and v the
permitted and current speed before: afterwards `permitted_speed = min P r.speed_limit`
(so never above P), `target_speed = r.speed_limit`, `distance_to_target = r.distance`,
and `brake_intervention` is true exactly when `r.speed_limit < P` and
`v > r.speed_limit + 5`, or it was true before; when no entry is active with a
positive distance the fold returns the state unchanged. -/
theorem C23_processSHPSpeedRestrictions (now : Int) (e : TRAATPIntegration)
    (shp : SHPInterface) (hshp : e.shp_interface = some shp) :
    match shp.speed_restrictions.find? (fun r => r.active && decide (r.distance > 0)) with
    | some r =>
      (processSHPSpeedRestrictions now e).system_state.permitted_speed =
        min e.system_state.permitted_speed (r.speed_limit : ℚ) ∧
      (processSHPSpeedRestrictions now e).system_state.permitted_speed ≤
        e.system_state.permitted_speed ∧
      (processSHPSpeedRestrictions now e).system_state.target_speed = (r.speed_limit : ℚ) ∧
      (processSHPSpeedRestrictions now e).system_state.distance_to_target = r.distance ∧
      ((processSHPSpeedRestrictions now e).system_state.brake_intervention = true ↔
        ((r.speed_limit : ℚ) < e.system_state.permitted_speed ∧
          e.system_state.current_speed > (r.speed_limit : ℚ) + 5) ∨
        e.system_state.brake_intervention = true)
    | none => processSHPSpeedRestrictions now e = e := by
  cases hfind : shp.speed_restrictions.find? (fun r => r.active && decide (r.distance > 0)) with
  | none =>
    simp only [processSHPSpeedRestrictions, hshp, hfind]
  | some r =>
    simp only [processSHPSpeedRestrictions, hshp, hfind]
    by_cases hlt : (r.speed_limit : ℚ) < e.system_state.permitted_speed
    · have hmin : min e.system_state.permitted_speed (r.speed_limit : ℚ) = (r.speed_limit : ℚ) :=
        min_eq_right (le_of_lt hlt)
      by_cases hv : e.system_state.current_speed > (r.speed_limit : ℚ) + 5
      · simp only [hlt, hv, if_true, applyServiceBrake_system_state, hmin]
        and_intros <;> first | trivial | exact le_of_lt hlt | simp
      · simp only [hlt, hv, if_true, if_false, hmin]
        and_intros <;> first | trivial | exact le_of_lt hlt | simp
    · have hmin : min e.system_state.permitted_speed (r.speed_limit : ℚ) =
          e.system_state.permitted_speed := min_eq_left (not_lt.mp hlt)
      simp only [hlt, if_false, hmin]
      and_intros <;> first | trivial | exact le_refl _ | simp

/-- C23 (witness): the initialised engine at 100 km/h with permitted speed 130 km/h;
the fold acts on the restriction of 80 km/h at 500 m and demands the service brake. -/
theorem C23_processSHPSpeedRestrictions_witness :
    (processSHPSpeedRestrictions 0 initialized100Engine).system_state.permitted_speed = 80 ∧
    (processSHPSpeedRestrictions 0 initialized100Engine).system_state.target_speed = 80 ∧
    (processSHPSpeedRestrictions 0 initialized100Engine).system_state.distance_to_target = 500 ∧
    (processSHPSpeedRestrictions 0 initialized100Engine).system_state.brake_intervention
      = true := by
  have h := C23_processSHPSpeedRestrictions 0 initialized100Engine
    (SHPInterface.doInitialize SHPInterface.construct).2 rfl
  have hfind : (SHPInterface.doInitialize SHPInterface.construct).2.speed_restrictions.find?
      (fun r => r.active && decide (r.distance > 0)) =
      some { distance := 500, speed_limit := 80, warning_speed := 85, temporary := false,
             reason := "彎道限速", active := true } := by
    simp [SHPInterface.doInitialize, SHPInterface.construct, SHPInterface.connect, List.find?]
  rw [hfind] at h
  simp only at h
  obtain ⟨h1, -, h3, h4, h5⟩ := h
  have hP : initialized100Engine.system_state.permitted_speed = 130 := rfl
  have hv : initialized100Engine.system_state.current_speed = 100 := rfl
  rw [hP] at h1 h5
  rw [hv] at h5
  refine ⟨?_, ?_, h4, ?_⟩
  · rw [h1]; norm_num
  · rw [h3]; norm_num
  · rw [h5]; left; norm_num

/-! ## The brake check of `performSafetyChecks` and the previous tick -/

theorem performSafetyChecks_system_state (e : TRAATPIntegration) :
    (performSafetyChecks e).2.system_state = e.system_state := by
  rw [performSafetyChecks_frame]

theorem performSafetyChecks_shp_interface (e : TRAATPIntegration) :
    (performSafetyChecks e).2.shp_interface = e.shp_interface := by
  rw [performSafetyChecks_frame]

/-- What the code computes in the brake check: the comparison is with the remembered
speed, whenever that was written. -/
theorem performSafetyChecks_brake_check (e : TRAATPIntegration) (l : ℚ)
    (hP : ¬ e.system_state.current_speed > e.system_state.permitted_speed + 15)
    (hc : ¬ (e.system_state.atp_active = true ∧ ¬ isSimRailConnected e = true))
    (heb : e.system_state.emergency_brake = true)
    (hv : e.system_state.current_speed > 5)
    (hl : e.last_speed = some l) :
    (performSafetyChecks e).1 = decide (e.system_state.current_speed < l) := by
  unfold performSafetyChecks
  simp only [hP, hc, heb, hv, hl, if_false, and_self, if_true, Option.getD_some]
  by_cases h : e.system_state.current_speed < l
  · simp [h, not_le.mpr h]
  · simp [h, not_lt.mp h]

theorem thirdCheckEngine_last_speed : thirdCheckEngine.last_speed = some 50 := by
  have h50 : firstCheckEngine.system_state.current_speed = 50 := rfl
  have h1 : (performSafetyChecks firstCheckEngine).2.last_speed = some 50 := by
    rw [performSafetyChecks_last_speed, h50, if_pos ⟨rfl, by norm_num⟩]
  have h2 : (performSafetyChecks
      (setCurrentSpeed 4 (performSafetyChecks firstCheckEngine).2)).2.last_speed = some 50 := by
    rw [performSafetyChecks_last_speed]
    have h4 : (setCurrentSpeed 4 (performSafetyChecks firstCheckEngine).2).system_state.current_speed
        = 4 := rfl
    rw [h4, if_neg (by norm_num)]
    exact h1
  exact h2

theorem thirdCheckEngine_system_state :
    thirdCheckEngine.system_state = { firstCheckEngine.system_state with current_speed := 10 } := by
  simp only [thirdCheckEngine, setCurrentSpeed, performSafetyChecks_system_state]

/-- C24 (failing input): three consecutive safety checks under the emergency brake at
50, 4 and 10 km/h, with no hard overspeed and ATP inactive. Before the third check
the speed recorded at the preceding check is 4 km/h, which is not greater than the
current 10 km/h, yet the third check returns true: it compares against the 50 km/h
remembered from the first check, because the second check (speed not above 5) left
the remembered speed untouched. -/
theorem C24_safety_check_uses_stale_speed :
    thirdCheckEngine.system_state.emergency_brake = true ∧
    thirdCheckEngine.system_state.current_speed = 10 ∧
    thirdCheckEngine.system_state.permitted_speed = 130 ∧
    thirdCheckEngine.system_state.atp_active = false ∧
    (setCurrentSpeed 4 (performSafetyChecks firstCheckEngine).2).system_state.current_speed
      = 4 ∧
    thirdCheckEngine.last_speed = some 50 ∧
    (performSafetyChecks thirdCheckEngine).1 = true := by
  have hss := thirdCheckEngine_system_state
  have heb : thirdCheckEngine.system_state.emergency_brake = true := by rw [hss]; rfl
  have hv : thirdCheckEngine.system_state.current_speed = 10 := by rw [hss]
  have hP : thirdCheckEngine.system_state.permitted_speed = 130 := by rw [hss]; rfl
  have hatp : thirdCheckEngine.system_state.atp_active = false := by rw [hss]; rfl
  refine ⟨heb, hv, hP, hatp, rfl, thirdCheckEngine_last_speed, ?_⟩
  rw [performSafetyChecks_brake_check thirdCheckEngine 50 (by rw [hv, hP]; norm_num)
    (by rw [hatp]; simp) heb (by rw [hv]; norm_num) thirdCheckEngine_last_speed, hv]
  norm_num

/-! ## What a tick does to the speeds -/

theorem handleSafetyViolation_system_state (now : Int) (violation : String)
    (e : TRAATPIntegration) :
    (handleSafetyViolation now violation e).system_state =
      { e.system_state with current_mode := .EMERGENCY, emergency_brake := true,
                            traction_cut := true } := by
  simp only [handleSafetyViolation, handleModeTransition_emergency_system_state,
    cutTraction_system_state, applyEmergencyBrake_system_state, addEvent_system_state]
  obtain ⟨shp, ss, log, ini, run, lut, lsu, br, ls, sim, dir⟩ := e
  obtain ⟨st, mode, atp, shpa, etcs, v, p, t, d, bi, tc, eb, cs, ns, rn, tn⟩ := ss
  cases eb <;> simp

theorem updateETCSSupervision_speeds (now : Int) (e : TRAATPIntegration) :
    (supervisionData (updateETCSSupervision now e)).1 = (supervisionData e).1 := by
  cases hetcs : e.system_state.etcs_active with
  | true => rw [updateETCSSupervision_data now e hetcs]; rfl
  | false => simp [updateETCSSupervision, hetcs]

theorem runSafetyChecks_speeds (now : Int) (e : TRAATPIntegration) :
    (supervisionData (runSafetyChecks now e)).1 = (supervisionData e).1 := by
  unfold runSafetyChecks
  split_ifs <;>
    simp only [supervisionData, handleSafetyViolation_system_state,
      performSafetyChecks_system_state]

theorem update_of_no_refresh (now : Int) (e : TRAATPIntegration)
    (hrun : e.running = true) (hdue : ¬ now - e.last_update_time < 100)
    (hno : ¬ (e.shp_interface.isSome = true ∧ now - e.last_shp_update > 500)) :
    update now e =
      updateETCSSupervision now (runSafetyChecks now { e with last_update_time := now }) := by
  have h : refreshFeed now { e with last_update_time := now } =
      { e with last_update_time := now } := by
    unfold refreshFeed
    exact if_neg hno
  unfold update
  rw [h]
  simp [hrun, hdue]

theorem update_of_no_refresh_speeds (now : Int) (e : TRAATPIntegration)
    (hrun : e.running = true) (hdue : ¬ now - e.last_update_time < 100)
    (hno : ¬ (e.shp_interface.isSome = true ∧ now - e.last_shp_update > 500)) :
    (supervisionData (update now e)).1 = (supervisionData e).1 := by
  rw [update_of_no_refresh now e hrun hdue hno, updateETCSSupervision_speeds,
    runSafetyChecks_speeds]
  rfl


/-! ## The emergency brake at the end of an escalating tick -/

theorem performSafetyChecks_disconnected (e : TRAATPIntegration)
    (hatp : e.system_state.atp_active = true) (hc : isSimRailConnected e = false) :
    (performSafetyChecks e).1 = false := by
  unfold performSafetyChecks
  simp only [hatp, hc]
  split_ifs <;> simp_all

theorem runSafetyChecks_of_failed (now : Int) (e : TRAATPIntegration)
    (h : (performSafetyChecks e).1 = false) :
    runSafetyChecks now e = handleSafetyViolation now "安全檢查失敗" (performSafetyChecks e).2 := by
  unfold runSafetyChecks
  simp [h]

theorem updateETCSSupervision_releases (now : Int) (e : TRAATPIntegration)
    (hetcs : e.system_state.etcs_active = true)
    (hbi : e.system_state.brake_intervention = true)
    (hv : e.system_state.current_speed ≤ e.system_state.permitted_speed - 2) :
    (updateETCSSupervision now e).system_state.emergency_brake = false ∧
    (updateETCSSupervision now e).bridge.EB = false := by
  obtain ⟨shp, ss, log, ini, run, lut, lsu, br, ls, sim, dir⟩ := e
  obtain ⟨st, mode, atp, shpa, etcs, v, p, t, d, bi, tc, eb, cs, ns, rn, tn⟩ := ss
  simp only at hetcs hbi hv
  subst hetcs hbi
  have h10 : ¬ v > p + 10 := by intro h; linarith
  simp [updateETCSSupervision, checkBrakeRelease, checkEmergencyBrake, checkServiceBrake,
    writeSupervisionData, releaseBrake, h10, hv]

/-- The tick in which the safety check fails while ETCS is enabled, the service
brake is applied and the speed is at most `permitted_speed - 2`: the release rule
clears the emergency brake the escalation has just applied. -/
theorem update_escalation_released (now : Int) (e : TRAATPIntegration)
    (hrun : e.running = true) (hdue : ¬ now - e.last_update_time < 100)
    (hno : ¬ (e.shp_interface.isSome = true ∧ now - e.last_shp_update > 500))
    (hfail : (performSafetyChecks { e with last_update_time := now }).1 = false)
    (hetcs : e.system_state.etcs_active = true)
    (hbi : e.system_state.brake_intervention = true)
    (hv : e.system_state.current_speed ≤ e.system_state.permitted_speed - 2) :
    (runSafetyChecks now { e with last_update_time := now }).system_state.emergency_brake
      = true ∧
    (update now e).system_state.current_mode = .EMERGENCY ∧
    (update now e).system_state.emergency_brake = false ∧
    (update now e).bridge.EB = false := by
  have hss : (runSafetyChecks now { e with last_update_time := now }).system_state =
      { e.system_state with current_mode := .EMERGENCY, emergency_brake := true,
                            traction_cut := true } := by
    rw [runSafetyChecks_of_failed now _ hfail, handleSafetyViolation_system_state,
      performSafetyChecks_system_state]
  have hrel := updateETCSSupervision_releases now
    (runSafetyChecks now { e with last_update_time := now })
    (by rw [hss]; exact hetcs) (by rw [hss]; exact hbi) (by rw [hss]; exact hv)
  rw [update_of_no_refresh now e hrun hdue hno]
  refine ⟨by rw [hss], ?_, hrel.1, hrel.2⟩
  rw [updateETCSSupervision_current_mode, hss]

/-- C26 (failing input): a running engine with ETCS enabled, the service brake
applied, at standstill, the emergency brake not applied, whose feed source is
disconnected under active ATP. The tick at 100 ms is effective; in it the safety
check fails and the escalation applies the emergency brake, but at the end of the
same tick the mode is Emergency while `emergency_brake` and the bridge flag `EB` are
false: the release rule of the threshold supervision cleared them. -/
theorem C26_release_clears_escalation :
    Reachable disconnectedBrakedEngine ∧
    disconnectedBrakedEngine.running = true ∧
    ¬ (100 - disconnectedBrakedEngine.last_update_time < 100) ∧
    disconnectedBrakedEngine.system_state.emergency_brake = false ∧
    (performSafetyChecks
      (refreshFeed 100 { disconnectedBrakedEngine with last_update_time := 100 })).1 = false ∧
    (runSafetyChecks 100
      (refreshFeed 100 { disconnectedBrakedEngine with
        last_update_time := 100 })).system_state.emergency_brake = true ∧
    (update 100 disconnectedBrakedEngine).system_state.current_mode = .EMERGENCY ∧
    (update 100 disconnectedBrakedEngine).system_state.emergency_brake = false ∧
    (update 100 disconnectedBrakedEngine).bridge.EB = false := by
  have hdue : ¬ (100 - disconnectedBrakedEngine.last_update_time < 100) := by
    rw [show disconnectedBrakedEngine.last_update_time = 0 from rfl]; norm_num
  have hno : ¬ (disconnectedBrakedEngine.shp_interface.isSome = true ∧
      100 - disconnectedBrakedEngine.last_shp_update > 500) := by
    rw [show disconnectedBrakedEngine.last_shp_update = 0 from rfl]; norm_num
  have href : refreshFeed 100 { disconnectedBrakedEngine with last_update_time := 100 } =
      { disconnectedBrakedEngine with last_update_time := 100 } := by
    unfold refreshFeed
    exact if_neg hno
  have hfail : (performSafetyChecks
      { disconnectedBrakedEngine with last_update_time := 100 }).1 = false :=
    performSafetyChecks_disconnected _ rfl rfl
  have hv : disconnectedBrakedEngine.system_state.current_speed ≤
      disconnectedBrakedEngine.system_state.permitted_speed - 2 := by
    rw [show disconnectedBrakedEngine.system_state.current_speed = 0 from rfl,
      show disconnectedBrakedEngine.system_state.permitted_speed = 130 from rfl]
    norm_num
  have h := update_escalation_released 100 disconnectedBrakedEngine rfl hdue hno hfail rfl rfl hv
  rw [href]
  exact ⟨reachable_run _ _ (Reachable.construct zeroBridge), rfl, hdue, rfl, hfail, h.1, h.2.1,
    h.2.2.1, h.2.2.2⟩

/-! ## The bridge demand flags and the local flags -/

/-- C27 (failing input): `initialize()`, `start()`, `applyServiceBrake()`,
`applyEmergencyBrake()`, `stop()` from a bridge with `SB` and `EB` false. `stop()`
clears `brake_intervention` and `emergency_brake` but not the bridge flags, so the
reachable state afterwards has `SB` and `EB` true and both local flags false. -/
theorem C27_stop_leaves_bridge_demands :
    zeroBridge.SB = false ∧ zeroBridge.EB = false ∧
    Reachable stoppedAfterBrakingEngine ∧
    stoppedAfterBrakingEngine.bridge.SB = true ∧
    stoppedAfterBrakingEngine.system_state.brake_intervention = false ∧
    stoppedAfterBrakingEngine.bridge.EB = true ∧
    stoppedAfterBrakingEngine.system_state.emergency_brake = false :=
  ⟨rfl, rfl, reachable_run _ _ (Reachable.construct zeroBridge), rfl, rfl, rfl, rfl⟩

/-- With the emergency brake applied, a supervision step keeps it exactly when its
release rule does not fire. -/
theorem updateETCSSupervision_keeps_emergency_iff (now : Int) (e : TRAATPIntegration)
    (heb : e.system_state.emergency_brake = true) :
    (updateETCSSupervision now e).system_state.emergency_brake = true ↔
      ¬ (e.system_state.etcs_active = true ∧ e.system_state.brake_intervention = true ∧
          e.system_state.current_speed ≤ e.system_state.permitted_speed - 2) := by
  obtain ⟨shp, ss, log, ini, run, lut, lsu, br, ls, sim, dir⟩ := e
  obtain ⟨st, mode, atp, shpa, etcs, v, p, t, d, bi, tc, eb, cs, ns, rn, tn⟩ := ss
  simp only at heb
  subst heb
  cases etcs
  · simp [updateETCSSupervision]
  · cases bi
    · by_cases h5 : v > p + 5
      · have hrel : ¬ v ≤ p - 2 := by intro h; linarith
        simp [updateETCSSupervision, checkBrakeRelease, checkEmergencyBrake,
          checkServiceBrake, writeSupervisionData, applyServiceBrake, sendETCSBrakeCommand,
          h5, hrel]
      · simp [updateETCSSupervision, checkBrakeRelease, checkEmergencyBrake,
          checkServiceBrake, writeSupervisionData, h5]
    · by_cases hrel : v ≤ p - 2
      · simp [updateETCSSupervision, checkBrakeRelease, checkEmergencyBrake,
          checkServiceBrake, writeSupervisionData, releaseBrake, hrel]
      · simp [updateETCSSupervision, checkBrakeRelease, checkEmergencyBrake,
          checkServiceBrake, writeSupervisionData, hrel]

/-- The end of a tick whose safety check failed: the emergency brake the escalation
applied is still on exactly when the release rule does not fire on the state the
check ran in. -/
theorem escalation_tick_emergency_brake (now : Int) (e : TRAATPIntegration)
    (hfail : (performSafetyChecks e).1 = false) :
    (updateETCSSupervision now (runSafetyChecks now e)).system_state.emergency_brake = true ↔
      ¬ (e.system_state.etcs_active = true ∧ e.system_state.brake_intervention = true ∧
          e.system_state.current_speed ≤ e.system_state.permitted_speed - 2) := by
  have hss : (runSafetyChecks now e).system_state =
      { e.system_state with current_mode := .EMERGENCY, emergency_brake := true,
                            traction_cut := true } := by
    rw [runSafetyChecks_of_failed now _ hfail, handleSafetyViolation_system_state,
      performSafetyChecks_system_state]
  rw [updateETCSSupervision_keeps_emergency_iff now _ (by rw [hss]), hss]

/-! ### Every operation but `stop()` keeps the flags in agreement -/

theorem flagsAgree_applyServiceBrake {e : TRAATPIntegration} (h : FlagsAgree e) (now : Int) :
    FlagsAgree (applyServiceBrake now e) := by
  obtain ⟨shp, ss, log, ini, run, lut, lsu, br, ls, sim, dir⟩ := e
  obtain ⟨st, mode, atp, shpa, etcs, v, p, t, d, bi, tc, eb, cs, ns, rn, tn⟩ := ss
  simp only [FlagsAgree] at h
  cases bi <;> simp [FlagsAgree, applyServiceBrake, sendETCSBrakeCommand, h.1, h.2]

theorem flagsAgree_cutTraction {e : TRAATPIntegration} (h : FlagsAgree e) (now : Int) :
    FlagsAgree (cutTraction now e) := by
  unfold cutTraction
  split_ifs <;> exact h

theorem flagsAgree_applyEmergencyBrake {e : TRAATPIntegration} (h : FlagsAgree e) (now : Int) :
    FlagsAgree (applyEmergencyBrake now e) := by
  obtain ⟨shp, ss, log, ini, run, lut, lsu, br, ls, sim, dir⟩ := e
  obtain ⟨st, mode, atp, shpa, etcs, v, p, t, d, bi, tc, eb, cs, ns, rn, tn⟩ := ss
  simp only [FlagsAgree] at h
  cases eb <;> cases tc <;>
    simp [FlagsAgree, applyEmergencyBrake, cutTraction, sendETCSTractionCut,
      sendETCSBrakeCommand, h.1, h.2]

theorem flagsAgree_releaseBrake (e : TRAATPIntegration) (now : Int) :
    FlagsAgree (releaseBrake now e) := by
  simp [FlagsAgree, releaseBrake]

theorem flagsAgree_handleModeTransition {e : TRAATPIntegration} (h : FlagsAgree e)
    (now : Int) (m : TRAATPMode) : FlagsAgree (handleModeTransition now m e) := by
  cases m <;> unfold handleModeTransition <;> dsimp only <;> split_ifs <;> first
    | exact h
    | (refine flagsAgree_applyEmergencyBrake ?_ now; exact h)

theorem flagsAgree_processSHPSpeedRestrictions {e : TRAATPIntegration} (h : FlagsAgree e)
    (now : Int) : FlagsAgree (processSHPSpeedRestrictions now e) := by
  unfold processSHPSpeedRestrictions
  split
  · exact h
  · split
    · exact h
    · unfold FlagsAgree
      dsimp only
      split_ifs
      · refine flagsAgree_applyServiceBrake ?_ now
        exact h
      · exact h
      · exact h

theorem flagsAgree_processSHPSignalData {e : TRAATPIntegration} (h : FlagsAgree e)
    (now : Int) : FlagsAgree (processSHPSignalData now e) := by
  unfold processSHPSignalData
  split
  · exact h
  · split
    · exact h
    · unfold FlagsAgree
      dsimp only
      split
      · dsimp only
        split_ifs
        · exact flagsAgree_applyEmergencyBrake h now
        · exact flagsAgree_applyServiceBrake h now
        · exact h
      · exact h
      · exact h
      · exact h

theorem flagsAgree_shp_update {e : TRAATPIntegration} (h : FlagsAgree e) (now : Int) :
    FlagsAgree (SHPInterface.update now e) :=
  shp_update_preserves FlagsAgree
    (fun _ _ h => h) (fun _ _ _ h => h)
    (fun now _ _ h => by
      unfold speed_callback
      refine flagsAgree_processSHPSpeedRestrictions ?_ now
      exact h)
    (fun now _ _ h => by
      unfold signal_callback
      refine flagsAgree_processSHPSignalData ?_ now
      exact h)
    (fun _ _ h => h) now e h

theorem flagsAgree_connectToSimRail {e : TRAATPIntegration} (h : FlagsAgree e)
    (now : Int) : FlagsAgree (connectToSimRail now e).2 := by
  unfold connectToSimRail
  split
  · exact h
  · dsimp only
    split_ifs <;> exact h

theorem flagsAgree_start {e : TRAATPIntegration} (h : FlagsAgree e) (now : Int) :
    FlagsAgree (start now e).2 := by
  have hc := flagsAgree_connectToSimRail h now
  unfold start
  dsimp only
  split_ifs <;> first | exact h | exact hc

theorem flagsAgree_updateETCSSupervision {e : TRAATPIntegration} (h : FlagsAgree e)
    (now : Int) : FlagsAgree (updateETCSSupervision now e) := by
  have h1 : FlagsAgree (writeSupervisionData e) := h
  have h2 : FlagsAgree (checkServiceBrake now (writeSupervisionData e)) := by
    unfold checkServiceBrake
    split_ifs <;> first | exact h1 | exact flagsAgree_applyServiceBrake h1 now
  have h3 : FlagsAgree
      (checkEmergencyBrake now (checkServiceBrake now (writeSupervisionData e))) := by
    unfold checkEmergencyBrake
    split_ifs <;> first | exact h2 | exact flagsAgree_applyEmergencyBrake h2 now
  unfold updateETCSSupervision checkBrakeRelease
  split_ifs <;> first | exact h | exact h3 | exact flagsAgree_releaseBrake _ now

theorem flagsAgree_handleSafetyViolation {e : TRAATPIntegration} (h : FlagsAgree e)
    (now : Int) (violation : String) :
    FlagsAgree (handleSafetyViolation now violation e) := by
  unfold handleSafetyViolation
  refine flagsAgree_handleModeTransition ?_ now _
  refine flagsAgree_cutTraction ?_ now
  refine flagsAgree_applyEmergencyBrake ?_ now
  exact h

theorem flagsAgree_performSafetyChecks {e : TRAATPIntegration} (h : FlagsAgree e) :
    FlagsAgree (performSafetyChecks e).2 := by
  unfold performSafetyChecks
  dsimp only
  split_ifs <;> exact h

theorem flagsAgree_update {e : TRAATPIntegration} (h : FlagsAgree e) (now : Int) :
    FlagsAgree (update now e) := by
  have h1 : FlagsAgree { e with last_update_time := now } := h
  have h2 : FlagsAgree (refreshFeed now { e with last_update_time := now }) := by
    unfold refreshFeed
    split_ifs <;> first | exact h1 | exact flagsAgree_shp_update h1 now
  have h3 : FlagsAgree (runSafetyChecks now
      (refreshFeed now { e with last_update_time := now })) := by
    unfold runSafetyChecks
    split_ifs <;> first
      | exact flagsAgree_performSafetyChecks h2
      | exact flagsAgree_handleSafetyViolation (flagsAgree_performSafetyChecks h2) now _
  unfold update
  split_ifs <;> first
    | exact h
    | exact flagsAgree_updateETCSSupervision h3 now

/-- Every public operation other than `stop()` and `shutdown()` keeps the bridge
flags equal to the local flags. -/
theorem flagsAgree_step {e : TRAATPIntegration} (h : FlagsAgree e) (op : Op)
    (hop : notStopOp op) : FlagsAgree (step op e) := by
  cases op with
  | doInitialize now =>
    simp only [step, doInitialize]
    split_ifs <;> exact h
  | shutdown now => exact hop.elim
  | start now => exact flagsAgree_start h now
  | stop now => exact hop.elim
  | update now => exact flagsAgree_update h now
  | setMode now mode => exact flagsAgree_handleModeTransition h now mode
  | enableATP now enable =>
    simp only [step, enableATP]
    split_ifs <;> first
      | exact h
      | (refine flagsAgree_handleModeTransition ?_ now _; exact h)
  | enableSHP now enable => exact h
  | enableETCS now enable => exact h
  | setPermittedSpeed speed => exact h
  | setTargetSpeed speed => exact h
  | setCurrentSpeed speed => exact h
  | setDistanceToTarget distance => exact h
  | applyServiceBrake now => exact flagsAgree_applyServiceBrake h now
  | applyEmergencyBrake now => exact flagsAgree_applyEmergencyBrake h now
  | releaseBrake now => exact flagsAgree_releaseBrake e now
  | cutTraction now => exact flagsAgree_cutTraction h now
  | restoreTraction now => exact h
  | clearEventHistory => exact h
  | runSystemTest now =>
    simp only [step, runSystemTest]
    split_ifs <;> exact h
  | performCalibration now => exact h
  | connectToSimRail now => exact flagsAgree_connectToSimRail h now
  | disconnectFromSimRail now => exact h
  | forceSimRailUpdate now =>
    simp only [step, forceSimRailUpdate, SHPInterface.forceUpdate]
    split
    · exact h
    · split_ifs <;> first | exact h | exact flagsAgree_shp_update h now
  | resetToDefaults now => exact h

theorem flagsAgree_run (ops : List Op) :
    ∀ e : TRAATPIntegration, FlagsAgree e → (∀ op ∈ ops, notStopOp op) →
      FlagsAgree (run ops e) := by
  induction ops with
  | nil => intro e h _; exact h
  | cons op ops ih =>
    intro e h hops
    simp only [run, List.foldl_cons]
    exact ih _ (flagsAgree_step h op (hops op (List.mem_cons_self _ _)))
      (fun o ho => hops o (List.mem_cons_of_mem _ ho))

/-- What `stop()` does to the flags of a running engine: both local flags are
cleared, the bridge flags keep their values. -/
theorem stop_flags (now : Int) (e : TRAATPIntegration) (hrun : e.running = true) :
    (stop now e).system_state.brake_intervention = false ∧
    (stop now e).system_state.emergency_brake = false ∧
    (stop now e).bridge.SB = e.bridge.SB ∧
    (stop now e).bridge.EB = e.bridge.EB := by
  unfold stop
  simp only [hrun, not_true_eq_false, if_false]
  exact ⟨rfl, rfl, rfl, rfl⟩

/-! ## The feed update in closed form

The engine's callbacks run while the feed iterates over its collections, but they
only append to the feed's command log: the collections after an update are a
function of the collections and the feed speed before it. -/

theorem feedData_withSHP (f : SHPInterface → SHPInterface)
    (hf : ∀ s : SHPInterface, { f s with sent := [] } = f { s with sent := [] })
    (e : TRAATPIntegration) :
    feedData (withSHP f e) = (feedData e).map f := by
  unfold feedData withSHP
  cases e.shp_interface with
  | none => rfl
  | some s => simp only [Option.map_some']; rw [hf s]

theorem feedData_withSHP_sent (f : SHPInterface → SHPInterface)
    (hf : ∀ s : SHPInterface, { f s with sent := [] } = { s with sent := [] })
    (e : TRAATPIntegration) :
    feedData (withSHP f e) = feedData e := by
  unfold feedData withSHP
  cases e.shp_interface with
  | none => rfl
  | some s => simp only [Option.map_some']; rw [hf s]

theorem feedData_of_shp_eq {e e2 : TRAATPIntegration}
    (h : e2.shp_interface = e.shp_interface) : feedData e2 = feedData e := by
  unfold feedData; rw [h]

theorem feedData_addEvent (now : Int) (type : TRAATPEventType) (message : String)
    (distance : ℚ) (severity : Int) (e : TRAATPIntegration) :
    feedData (addEvent now type message distance severity e) = feedData e := rfl

theorem sendETCSBrakeCommand_shp_interface (now : Int) (emergency : Bool)
    (e : TRAATPIntegration) :
    (sendETCSBrakeCommand now emergency e).shp_interface = e.shp_interface := by
  cases emergency <;> rfl

theorem feedData_applyServiceBrake (now : Int) (e : TRAATPIntegration) :
    feedData (applyServiceBrake now e) = feedData e := by
  unfold applyServiceBrake
  split_ifs
  · rfl
  · rw [feedData_withSHP_sent (SHPInterface.sendBrakeCommand false) (fun _ => rfl)]
    exact feedData_of_shp_eq (sendETCSBrakeCommand_shp_interface now false e)

theorem feedData_cutTraction (now : Int) (e : TRAATPIntegration) :
    feedData (cutTraction now e) = feedData e := by
  unfold cutTraction
  split_ifs
  · rfl
  · rw [feedData_withSHP_sent SHPInterface.sendTractionCutCommand (fun _ => rfl)]
    rfl

theorem feedData_applyEmergencyBrake (now : Int) (e : TRAATPIntegration) :
    feedData (applyEmergencyBrake now e) = feedData e := by
  unfold applyEmergencyBrake
  split_ifs
  · rfl
  · rw [feedData_withSHP_sent
      (fun s => SHPInterface.sendTractionCutCommand (SHPInterface.sendBrakeCommand true s))
      (fun _ => rfl), feedData_cutTraction]
    exact feedData_of_shp_eq (sendETCSBrakeCommand_shp_interface now true e)

theorem feedData_processSHPSpeedRestrictions (now : Int) (e : TRAATPIntegration) :
    feedData (processSHPSpeedRestrictions now e) = feedData e := by
  unfold processSHPSpeedRestrictions
  split
  · rfl
  · split
    · rfl
    · unfold feedData
      dsimp only
      split_ifs
      · exact feedData_applyServiceBrake now _
      · rfl
      · rfl

theorem feedData_processSHPSignalData (now : Int) (e : TRAATPIntegration) :
    feedData (processSHPSignalData now e) = feedData e := by
  unfold processSHPSignalData
  split
  · rfl
  · split
    · rfl
    · unfold feedData
      dsimp only
      split
      · dsimp only
        split_ifs
        · exact feedData_applyEmergencyBrake now e
        · exact feedData_applyServiceBrake now e
        · rfl
      · rfl
      · rfl
      · rfl

theorem feedData_speed_callback (now : Int) (r : SHPSpeedRestriction) (e : TRAATPIntegration) :
    feedData (speed_callback now r e) = feedData e := by
  unfold speed_callback
  rw [feedData_processSHPSpeedRestrictions, feedData_addEvent]

theorem feedData_signal_callback (now : Int) (s : SHPSignalData) (e : TRAATPIntegration) :
    feedData (signal_callback now s e) = feedData e := by
  unfold signal_callback
  rw [feedData_processSHPSignalData, feedData_addEvent]

theorem currentSpeed_of_feedData {e e2 : TRAATPIntegration} (h : feedData e2 = feedData e) :
    SHPInterface.currentSpeed e2 = SHPInterface.currentSpeed e := by
  unfold feedData at h
  unfold SHPInterface.currentSpeed
  cases h1 : e.shp_interface with
  | none =>
    rw [h1] at h
    cases h2 : e2.shp_interface with
    | none => rfl
    | some s2 => rw [h2] at h; simp at h
  | some s =>
    rw [h1] at h
    cases h2 : e2.shp_interface with
    | none => rw [h2] at h; simp at h
    | some s2 =>
      rw [h2] at h
      simp only [Option.map_some', Option.some.injEq] at h
      have := congrArg (fun x => x.system_status.current_speed) h
      exact this

theorem advanceRestriction_retire (v : ℚ) (r : SHPSpeedRestriction) (hact : r.active = true)
    (hle : r.distance - v * (1 / 100) ≤ 0) :
    advanceRestriction v r =
      { distance := r.distance - v * (1 / 100), speed_limit := r.speed_limit,
        warning_speed := r.warning_speed, temporary := r.temporary, reason := r.reason,
        active := false } := by
  unfold advanceRestriction
  rw [if_pos hact]
  dsimp only
  rw [if_pos hle]

theorem advanceRestriction_move (v : ℚ) (r : SHPSpeedRestriction) (hact : r.active = true)
    (hle : ¬ r.distance - v * (1 / 100) ≤ 0) :
    advanceRestriction v r = { r with distance := r.distance - v * (1 / 100) } := by
  unfold advanceRestriction
  rw [if_pos hact]
  dsimp only
  rw [if_neg hle]

theorem advanceRestriction_inactive (v : ℚ) (r : SHPSpeedRestriction)
    (hact : ¬ r.active = true) : advanceRestriction v r = r := by
  unfold advanceRestriction
  rw [if_neg hact]

theorem advanceSignal_retire (v : ℚ) (r : SHPSignalData) (hact : r.active = true)
    (hle : r.distance - v * (1 / 100) ≤ 0) :
    advanceSignal v r =
      { distance := r.distance - v * (1 / 100), aspect := r.aspect,
        speed_limit := r.speed_limit, signal_id := r.signal_id,
        approach_control := r.approach_control, active := false } := by
  unfold advanceSignal
  rw [if_pos hact]
  dsimp only
  rw [if_pos hle]

theorem advanceSignal_move (v : ℚ) (r : SHPSignalData) (hact : r.active = true)
    (hle : ¬ r.distance - v * (1 / 100) ≤ 0) :
    advanceSignal v r = { r with distance := r.distance - v * (1 / 100) } := by
  unfold advanceSignal
  rw [if_pos hact]
  dsimp only
  rw [if_neg hle]

theorem advanceSignal_inactive (v : ℚ) (r : SHPSignalData)
    (hact : ¬ r.active = true) : advanceSignal v r = r := by
  unfold advanceSignal
  rw [if_neg hact]

theorem currentSpeed_eq_feedData (e : TRAATPIntegration) :
    SHPInterface.currentSpeed e =
      ((feedData e).map (fun s => s.system_status.current_speed)).getD 0 := by
  unfold SHPInterface.currentSpeed feedData
  cases e.shp_interface <;> rfl

theorem currentSpeed_set_restrictions (l : List SHPSpeedRestriction) (e : TRAATPIntegration) :
    SHPInterface.currentSpeed (withSHP (fun s => { s with speed_restrictions := l }) e) =
      SHPInterface.currentSpeed e := by
  unfold SHPInterface.currentSpeed withSHP
  cases e.shp_interface <;> rfl

theorem currentSpeed_set_signals (l : List SHPSignalData) (e : TRAATPIntegration) :
    SHPInterface.currentSpeed (withSHP (fun s => { s with signals := l }) e) =
      SHPInterface.currentSpeed e := by
  unfold SHPInterface.currentSpeed withSHP
  cases e.shp_interface <;> rfl

theorem updateSpeedRestrictionsLoop_feedData (now : Int) :
    ∀ (rest done : List SHPSpeedRestriction) (e : TRAATPIntegration),
      feedData (SHPInterface.updateSpeedRestrictionsLoop now done rest e) =
        (feedData e).map (fun s =>
          { s with speed_restrictions :=
              done ++ rest.map (advanceRestriction (SHPInterface.currentSpeed e)) }) := by
  intro rest
  induction rest with
  | nil =>
    intro done e
    unfold SHPInterface.updateSpeedRestrictionsLoop
    rw [feedData_withSHP (fun s => { s with speed_restrictions := done }) (fun _ => rfl)]
    simp
  | cons r rest ih =>
    intro done e
    unfold SHPInterface.updateSpeedRestrictionsLoop
    dsimp only
    by_cases hact : r.active = true
    · by_cases hle : r.distance - SHPInterface.currentSpeed e * (1 / 100) ≤ 0
      · rw [if_pos hact, if_pos hle, ih]
        have hfd := (feedData_speed_callback now
          { distance := r.distance - SHPInterface.currentSpeed e * (1 / 100),
            speed_limit := r.speed_limit, warning_speed := r.warning_speed,
            temporary := r.temporary, reason := r.reason, active := false }
          (withSHP (fun s => { s with speed_restrictions := done ++
            { distance := r.distance - SHPInterface.currentSpeed e * (1 / 100),
              speed_limit := r.speed_limit, warning_speed := r.warning_speed,
              temporary := r.temporary, reason := r.reason, active := false } :: rest }) e))
        have hcs := (currentSpeed_of_feedData hfd).trans (currentSpeed_set_restrictions _ e)
        rw [hcs, hfd, feedData_withSHP _ (fun _ => rfl), Option.map_map]
        congr 1
        funext s
        simp only [List.map_cons, List.append_assoc, List.singleton_append,
          advanceRestriction_retire _ _ hact hle, Function.comp_apply]
      · rw [if_pos hact, if_neg hle, ih]
        congr 1
        funext s
        simp only [List.map_cons, List.append_assoc, List.singleton_append,
          advanceRestriction_move _ _ hact hle]
    · rw [if_neg hact, ih]
      congr 1
      funext s
      simp only [List.map_cons, List.append_assoc, List.singleton_append,
        advanceRestriction_inactive _ _ hact]

theorem updateSignalDataLoop_feedData (now : Int) :
    ∀ (rest done : List SHPSignalData) (e : TRAATPIntegration),
      feedData (SHPInterface.updateSignalDataLoop now done rest e) =
        (feedData e).map (fun s =>
          { s with signals :=
              done ++ rest.map (advanceSignal (SHPInterface.currentSpeed e)) }) := by
  intro rest
  induction rest with
  | nil =>
    intro done e
    unfold SHPInterface.updateSignalDataLoop
    rw [feedData_withSHP (fun s => { s with signals := done }) (fun _ => rfl)]
    simp
  | cons r rest ih =>
    intro done e
    unfold SHPInterface.updateSignalDataLoop
    dsimp only
    by_cases hact : r.active = true
    · by_cases hle : r.distance - SHPInterface.currentSpeed e * (1 / 100) ≤ 0
      · rw [if_pos hact, if_pos hle, ih]
        have hfd := (feedData_signal_callback now
          { distance := r.distance - SHPInterface.currentSpeed e * (1 / 100),
            aspect := r.aspect, speed_limit := r.speed_limit, signal_id := r.signal_id,
            approach_control := r.approach_control, active := false }
          (withSHP (fun s => { s with signals := done ++
            { distance := r.distance - SHPInterface.currentSpeed e * (1 / 100),
              aspect := r.aspect, speed_limit := r.speed_limit, signal_id := r.signal_id,
              approach_control := r.approach_control, active := false } :: rest }) e))
        have hcs := (currentSpeed_of_feedData hfd).trans (currentSpeed_set_signals _ e)
        rw [hcs, hfd, feedData_withSHP _ (fun _ => rfl), Option.map_map]
        congr 1
        funext s
        simp only [List.map_cons, List.append_assoc, List.singleton_append,
          advanceSignal_retire _ _ hact hle, Function.comp_apply]
      · rw [if_pos hact, if_neg hle, ih]
        congr 1
        funext s
        simp only [List.map_cons, List.append_assoc, List.singleton_append,
          advanceSignal_move _ _ hact hle]
    · rw [if_neg hact, ih]
      congr 1
      funext s
      simp only [List.map_cons, List.append_assoc, List.singleton_append,
        advanceSignal_inactive _ _ hact]

theorem feedData_some {e : TRAATPIntegration} {s : SHPInterface}
    (h : e.shp_interface = some s) : feedData e = some { s with sent := [] } := by
  unfold feedData; rw [h]; rfl

theorem currentSpeed_some {e : TRAATPIntegration} {s : SHPInterface}
    (h : e.shp_interface = some s) :
    SHPInterface.currentSpeed e = s.system_status.current_speed := by
  unfold SHPInterface.currentSpeed; rw [h]

theorem updateSpeedRestrictions_feedData (now : Int) (e : TRAATPIntegration) :
    feedData (SHPInterface.updateSpeedRestrictions now e) =
      (feedData e).map (fun s =>
        { s with
          speed_restrictions :=
            (s.speed_restrictions.map (advanceRestriction s.system_status.current_speed)).filter
              (fun r => !(!r.active && decide (r.distance < -100))) }) := by
  unfold SHPInterface.updateSpeedRestrictions
  cases hs : e.shp_interface with
  | none => simp only [feedData, hs, Option.map_none']
  | some s =>
    simp only
    rw [feedData_withSHP _ (fun _ => rfl), updateSpeedRestrictionsLoop_feedData,
      currentSpeed_some hs, feedData_some hs]
    rfl

theorem updateSignalData_feedData (now : Int) (e : TRAATPIntegration) :
    feedData (SHPInterface.updateSignalData now e) =
      (feedData e).map (fun s =>
        { s with
          signals :=
            (s.signals.map (advanceSignal s.system_status.current_speed)).filter
              (fun x => !(!x.active && decide (x.distance < -50))) }) := by
  unfold SHPInterface.updateSignalData
  cases hs : e.shp_interface with
  | none => simp only [feedData, hs, Option.map_none']
  | some s =>
    simp only
    rw [feedData_withSHP _ (fun _ => rfl), updateSignalDataLoop_feedData,
      currentSpeed_some hs, feedData_some hs]
    rfl

theorem processSimRailData_shp_interface (e : TRAATPIntegration) (s : SHPInterface)
    (hs : e.shp_interface = some s) :
    ∃ st : SHPSystemStatus,
      (SHPInterface.processSimRailData e).shp_interface = some { s with system_status := st } ∧
      st.current_speed = e.sim_speed + (e.speed_direction : ℚ) * 2 := by
  unfold SHPInterface.processSimRailData withSHP
  simp only [hs, Option.map_some']
  split
  · exact ⟨_, rfl, rfl⟩
  · exact ⟨_, rfl, rfl⟩

theorem status_callback_shp_interface (st : SHPSystemStatus) (e : TRAATPIntegration) :
    (status_callback st e).shp_interface = e.shp_interface := rfl

theorem shp_update_feedData (now : Int) (e : TRAATPIntegration) (s : SHPInterface)
    (hs : e.shp_interface = some s) (hc : s.connected = true) :
    feedData (SHPInterface.update now e) =
      (feedData (SHPInterface.processSimRailData e)).map (fun s1 =>
        SHPInterface.updateTrackData
          { s1 with
            speed_restrictions :=
              (s1.speed_restrictions.map
                (advanceRestriction s1.system_status.current_speed)).filter
                (fun r => !(!r.active && decide (r.distance < -100))),
            signals :=
              (s1.signals.map (advanceSignal s1.system_status.current_speed)).filter
                (fun x => !(!x.active && decide (x.distance < -50))) }) := by
  have h4 : feedData (withSHP SHPInterface.updateTrackData
      (SHPInterface.updateSignalData now (SHPInterface.updateSpeedRestrictions now
        (SHPInterface.processSimRailData e)))) =
      (feedData (SHPInterface.processSimRailData e)).map (fun s1 =>
        SHPInterface.updateTrackData
          { s1 with
            speed_restrictions :=
              (s1.speed_restrictions.map
                (advanceRestriction s1.system_status.current_speed)).filter
                (fun r => !(!r.active && decide (r.distance < -100))),
            signals :=
              (s1.signals.map (advanceSignal s1.system_status.current_speed)).filter
                (fun x => !(!x.active && decide (x.distance < -50))) }) := by
    rw [feedData_withSHP SHPInterface.updateTrackData (fun _ => rfl),
      updateSignalData_feedData, updateSpeedRestrictions_feedData, Option.map_map,
      Option.map_map]
    rfl
  unfold SHPInterface.update
  simp only [hs, hc, not_true_eq_false, if_false]
  split
  · exact (feedData_of_shp_eq (status_callback_shp_interface _ _)).trans h4
  · exact h4

/-- One feed update while connected, in closed form: with `v` the simulated speed
after its step, each collection is mapped through the loop body and then purged. -/
theorem shp_update_collections (now : Int) (e : TRAATPIntegration) (s : SHPInterface)
    (hs : e.shp_interface = some s) (hc : s.connected = true) :
    ∃ s2 : SHPInterface,
      (SHPInterface.update now e).shp_interface = some s2 ∧
      s2.connected = true ∧
      s2.system_status.current_speed = e.sim_speed + (e.speed_direction : ℚ) * 2 ∧
      s2.speed_restrictions =
        (s.speed_restrictions.map
          (advanceRestriction (e.sim_speed + (e.speed_direction : ℚ) * 2))).filter
          (fun r => !(!r.active && decide (r.distance < -100))) ∧
      s2.signals =
        (s.signals.map (advanceSignal (e.sim_speed + (e.speed_direction : ℚ) * 2))).filter
          (fun x => !(!x.active && decide (x.distance < -50))) ∧
      s2.track_data =
        (s.track_data.map (fun track =>
          { track with distance :=
              track.distance - (e.sim_speed + (e.speed_direction : ℚ) * 2) * (1 / 100) })).filter
          (fun t => !(decide (t.distance < -100))) := by
  obtain ⟨st, hst, hv⟩ := processSimRailData_shp_interface e s hs
  have h := shp_update_feedData now e s hs hc
  rw [feedData_some hst] at h
  simp only [Option.map_some'] at h
  cases hu : (SHPInterface.update now e).shp_interface with
  | none => rw [feedData, hu] at h; simp at h
  | some s2 =>
    rw [feedData_some hu] at h
    simp only [Option.some.injEq] at h
    refine ⟨s2, rfl, ?_, ?_, ?_, ?_, ?_⟩
    · have := congrArg (fun x => x.connected) h
      simp only [SHPInterface.updateTrackData] at this
      rw [this, hc]
    · have := congrArg (fun x => x.system_status.current_speed) h
      simp only [SHPInterface.updateTrackData] at this
      rw [this, hv]
    · have := congrArg (fun x => x.speed_restrictions) h
      simp only [SHPInterface.updateTrackData] at this
      rw [this, hv]
    · have := congrArg (fun x => x.signals) h
      simp only [SHPInterface.updateTrackData] at this
      rw [this, hv]
    · have := congrArg (fun x => x.track_data) h
      simp only [SHPInterface.updateTrackData] at this
      rw [this, hv]

/-! ## What one feed update does to the distances -/

/-- C25 (failing input): a connected feed whose first restriction and first signal
are already retired (distances -2/5 and -1/5). One feed update runs at 2 km/h; the
active entries move by 2 x 0.01 = 1/50, but the two retired entries are still in
their collections with their distances unchanged, so they never approach the purge
thresholds of -100 and -50. -/
theorem C25_retired_entries_not_advanced :
    ∃ s2 : SHPInterface,
      (SHPInterface.update 0 retiredFeedEngine).shp_interface = some s2 ∧
      s2.system_status.current_speed = 2 ∧
      retiredHeadFeed.speed_restrictions.map (fun r => (r.distance, r.active)) =
        [(-2 / 5, false), (3498 / 5, true), (7498 / 5, true)] ∧
      s2.speed_restrictions.map (fun r => (r.distance, r.active)) =
        [(-2 / 5, false), (3498 / 5 - 1 / 50, true), (7498 / 5 - 1 / 50, true)] ∧
      retiredHeadFeed.signals.map (fun x => (x.distance, x.active)) =
        [(-1 / 5, false), (2499 / 5, true), (5999 / 5, true)] ∧
      s2.signals.map (fun x => (x.distance, x.active)) =
        [(-1 / 5, false), (2499 / 5 - 1 / 50, true), (5999 / 5 - 1 / 50, true)] := by
  obtain ⟨s2, h1, -, h3, h4, h5, -⟩ :=
    shp_update_collections 0 retiredFeedEngine retiredHeadFeed rfl rfl
  have hv : retiredFeedEngine.sim_speed + (retiredFeedEngine.speed_direction : ℚ) * 2 = 2 := by
    rw [show retiredFeedEngine.sim_speed = 0 from rfl,
      show retiredFeedEngine.speed_direction = 1 from rfl]
    norm_num
  rw [hv] at h3 h4 h5
  refine ⟨s2, h1, h3, ?_, ?_, ?_, ?_⟩
  · simp [retiredHeadFeed]
  · rw [h4]
    simp [retiredHeadFeed, advanceRestriction, List.filter]
    norm_num
  · simp [retiredHeadFeed]
  · rw [h5]
    simp [retiredHeadFeed, advanceSignal, List.filter]
    norm_num

theorem advanceRestriction_distance (v : ℚ) (r : SHPSpeedRestriction) :
    (advanceRestriction v r).distance =
      if r.active = true then r.distance - v * (1 / 100) else r.distance := by
  unfold advanceRestriction
  dsimp only
  split_ifs <;> rfl

theorem advanceSignal_distance (v : ℚ) (x : SHPSignalData) :
    (advanceSignal v x).distance =
      if x.active = true then x.distance - v * (1 / 100) else x.distance := by
  unfold advanceSignal
  dsimp only
  split_ifs <;> rfl

/-- What one feed update while connected computes, with `v` the feed's current
speed after the simulated speed step of that update: every speed restriction and
every signal still in its collection comes from an entry before the update whose
distance was decreased by exactly `v * 0.01` if that entry was active and is
unchanged if it was inactive; every track feature still in its collection has its
distance decreased by exactly `v * 0.01`. -/
theorem shp_update_distances (now : Int) (e : TRAATPIntegration) (s : SHPInterface)
    (hs : e.shp_interface = some s) (hc : s.connected = true) :
    ∃ s2 : SHPInterface,
      (SHPInterface.update now e).shp_interface = some s2 ∧
      s2.system_status.current_speed = e.sim_speed + (e.speed_direction : ℚ) * 2 ∧
      (∀ r2 ∈ s2.speed_restrictions, ∃ r ∈ s.speed_restrictions,
        r2 = advanceRestriction s2.system_status.current_speed r ∧
        r2.distance =
          if r.active = true then r.distance - s2.system_status.current_speed * (1 / 100)
          else r.distance) ∧
      (∀ x2 ∈ s2.signals, ∃ x ∈ s.signals,
        x2 = advanceSignal s2.system_status.current_speed x ∧
        x2.distance =
          if x.active = true then x.distance - s2.system_status.current_speed * (1 / 100)
          else x.distance) ∧
      (∀ t2 ∈ s2.track_data, ∃ t ∈ s.track_data,
        t2 = { t with distance := t.distance - s2.system_status.current_speed * (1 / 100) }) := by
  obtain ⟨s2, h1, -, h3, h4, h5, h6⟩ := shp_update_collections now e s hs hc
  refine ⟨s2, h1, h3, ?_, ?_, ?_⟩
  · intro r2 hr2
    rw [h4, List.mem_filter, List.mem_map] at hr2
    obtain ⟨⟨r, hr, rfl⟩, -⟩ := hr2
    rw [h3]
    exact ⟨r, hr, rfl, advanceRestriction_distance _ r⟩
  · intro x2 hx2
    rw [h5, List.mem_filter, List.mem_map] at hx2
    obtain ⟨⟨x, hx, rfl⟩, -⟩ := hx2
    rw [h3]
    exact ⟨x, hx, rfl, advanceSignal_distance _ x⟩
  · intro t2 ht2
    rw [h6, List.mem_filter, List.mem_map] at ht2
    obtain ⟨⟨t, ht, rfl⟩, -⟩ := ht2
    rw [h3]
    exact ⟨t, ht, rfl⟩

/-! ## Retired entries stay in the feed's collections -/

theorem shp_update_keeps_retired (now : Int) (e : TRAATPIntegration) (s : SHPInterface)
    (hs : e.shp_interface = some s) :
    ∃ s2 : SHPInterface,
      (SHPInterface.update now e).shp_interface = some s2 ∧
      (∀ r ∈ s.speed_restrictions, r.active = false → r.distance ≥ -100 →
        r ∈ s2.speed_restrictions) ∧
      (∀ x ∈ s.signals, x.active = false → x.distance ≥ -50 → x ∈ s2.signals) := by
  cases hc : s.connected with
  | false =>
    refine ⟨s, ?_, fun r hr _ _ => hr, fun x hx _ _ => hx⟩
    unfold SHPInterface.update
    simp [hs, hc]
  | true =>
    obtain ⟨s2, h1, -, -, h4, h5, -⟩ := shp_update_collections now e s hs hc
    refine ⟨s2, h1, ?_, ?_⟩
    · intro r hr hact hd
      rw [h4, List.mem_filter, List.mem_map]
      refine ⟨⟨r, hr, advanceRestriction_inactive _ r (by simp [hact])⟩, ?_⟩
      simp [hact, not_lt.mpr hd]
    · intro x hx hact hd
      rw [h5, List.mem_filter, List.mem_map]
      refine ⟨⟨x, hx, advanceSignal_inactive _ x (by simp [hact])⟩, ?_⟩
      simp [hact, not_lt.mpr hd]

theorem feedUpdates_keeps_retired (nows : List Int) :
    ∀ (e : TRAATPIntegration) (s : SHPInterface), e.shp_interface = some s →
      ∃ s2 : SHPInterface,
        (feedUpdates nows e).shp_interface = some s2 ∧
        (∀ r ∈ s.speed_restrictions, r.active = false → r.distance ≥ -100 →
          r ∈ s2.speed_restrictions) ∧
        (∀ x ∈ s.signals, x.active = false → x.distance ≥ -50 → x ∈ s2.signals) := by
  induction nows with
  | nil => intro e s hs; exact ⟨s, hs, fun r hr _ _ => hr, fun x hx _ _ => hx⟩
  | cons now nows ih =>
    intro e s hs
    obtain ⟨s1, h1, hr1, hx1⟩ := shp_update_keeps_retired now e s hs
    obtain ⟨s2, h2, hr2, hx2⟩ := ih (SHPInterface.update now e) s1 h1
    refine ⟨s2, ?_, fun r hr ha hd => hr2 r (hr1 r hr ha hd) ha hd,
      fun x hx ha hd => hx2 x (hx1 x hx ha hd) ha hd⟩
    simpa only [feedUpdates, List.foldl_cons] using h2

theorem retire_restriction_distance (v : ℚ) (r : SHPSpeedRestriction)
    (hact : r.active = true) (hpos : r.distance > 0) (hv : v ≤ 10000)
    (hle : r.distance - v * (1 / 100) ≤ 0) :
    (advanceRestriction v r).active = false ∧
    -(v * (1 / 100)) < (advanceRestriction v r).distance ∧
    (advanceRestriction v r).distance ≤ 0 ∧
    (advanceRestriction v r).distance ≥ -100 := by
  rw [advanceRestriction_retire v r hact hle]
  refine ⟨rfl, ?_, hle, ?_⟩
  · show -(v * (1 / 100)) < r.distance - v * (1 / 100)
    linarith
  · show r.distance - v * (1 / 100) ≥ -100
    linarith

theorem retire_signal_distance (v : ℚ) (x : SHPSignalData)
    (hact : x.active = true) (hpos : x.distance > 0) (hv : v ≤ 5000)
    (hle : x.distance - v * (1 / 100) ≤ 0) :
    (advanceSignal v x).active = false ∧
    -(v * (1 / 100)) < (advanceSignal v x).distance ∧
    (advanceSignal v x).distance ≤ 0 ∧
    (advanceSignal v x).distance ≥ -50 := by
  rw [advanceSignal_retire v x hact hle]
  refine ⟨rfl, ?_, hle, ?_⟩
  · show -(v * (1 / 100)) < x.distance - v * (1 / 100)
    linarith
  · show x.distance - v * (1 / 100) ≥ -50
    linarith

/-- C30: a restriction (resp. signal) of the feed that is inactive with distance
`>= -100` (resp. `>= -50`) is still in the feed's collection, unchanged, after any
number of feed updates, whatever the speeds; an active entry with positive distance
that an update at speed `v <= 10000` (resp. `v <= 5000`) retires is retired at a
distance in `(-v * 0.01, 0]`, hence `>= -100` (resp. `>= -50`); so the entry retired
by the update at `now` is in the collection after that update and after any number
of further updates. -/
theorem C30_retired_entries_never_purged (now : Int) (nows : List Int)
    (e : TRAATPIntegration) (s : SHPInterface) (hs : e.shp_interface = some s) :
    (∃ s2 : SHPInterface,
      (feedUpdates nows e).shp_interface = some s2 ∧
      (∀ r ∈ s.speed_restrictions, r.active = false → r.distance ≥ -100 →
        r ∈ s2.speed_restrictions) ∧
      (∀ x ∈ s.signals, x.active = false → x.distance ≥ -50 → x ∈ s2.signals)) ∧
    (∀ (v : ℚ) (r : SHPSpeedRestriction), r.active = true → r.distance > 0 → v ≤ 10000 →
      r.distance - v * (1 / 100) ≤ 0 →
      (advanceRestriction v r).active = false ∧
      -(v * (1 / 100)) < (advanceRestriction v r).distance ∧
      (advanceRestriction v r).distance ≤ 0 ∧
      (advanceRestriction v r).distance ≥ -100) ∧
    (∀ (v : ℚ) (x : SHPSignalData), x.active = true → x.distance > 0 → v ≤ 5000 →
      x.distance - v * (1 / 100) ≤ 0 →
      (advanceSignal v x).active = false ∧
      -(v * (1 / 100)) < (advanceSignal v x).distance ∧
      (advanceSignal v x).distance ≤ 0 ∧
      (advanceSignal v x).distance ≥ -50) ∧
    (s.connected = true →
      ∃ s3 : SHPInterface,
        (feedUpdates (now :: nows) e).shp_interface = some s3 ∧
        (∀ r ∈ s.speed_restrictions, r.active = true → r.distance > 0 →
          e.sim_speed + (e.speed_direction : ℚ) * 2 ≤ 10000 →
          r.distance - (e.sim_speed + (e.speed_direction : ℚ) * 2) * (1 / 100) ≤ 0 →
          advanceRestriction (e.sim_speed + (e.speed_direction : ℚ) * 2) r
            ∈ s3.speed_restrictions) ∧
        (∀ x ∈ s.signals, x.active = true → x.distance > 0 →
          e.sim_speed + (e.speed_direction : ℚ) * 2 ≤ 5000 →
          x.distance - (e.sim_speed + (e.speed_direction : ℚ) * 2) * (1 / 100) ≤ 0 →
          advanceSignal (e.sim_speed + (e.speed_direction : ℚ) * 2) x ∈ s3.signals)) := by
  refine ⟨feedUpdates_keeps_retired nows e s hs, retire_restriction_distance,
    retire_signal_distance, ?_⟩
  intro hc
  obtain ⟨s1, h1, -, -, h4, h5, -⟩ := shp_update_collections now e s hs hc
  obtain ⟨s3, h3, hr3, hx3⟩ := feedUpdates_keeps_retired nows (SHPInterface.update now e) s1 h1
  refine ⟨s3, by simpa only [feedUpdates, List.foldl_cons] using h3, ?_, ?_⟩
  · intro r hr hact hpos hv hle
    have h := retire_restriction_distance _ r hact hpos hv hle
    refine hr3 _ ?_ h.1 h.2.2.2
    rw [h4, List.mem_filter, List.mem_map]
    refine ⟨⟨r, hr, rfl⟩, ?_⟩
    simp [h.1, not_lt.mpr h.2.2.2]
  · intro x hx hact hpos hv hle
    have h := retire_signal_distance _ x hact hpos hv hle
    refine hx3 _ ?_ h.1 h.2.2.2
    rw [h5, List.mem_filter, List.mem_map]
    refine ⟨⟨x, hx, rfl⟩, ?_⟩
    simp [h.1, not_lt.mpr h.2.2.2]

/-- C30 (witness): the feed whose first restriction was retired at distance -2/5 and
whose first signal was retired at -1/5; after three further feed updates both are
still in their collections. -/
theorem C30_retired_entries_never_purged_witness :
    ∃ s2 : SHPInterface,
      (feedUpdates [600, 1200, 1800] retiredFeedEngine).shp_interface = some s2 ∧
      ({ distance := -2 / 5, speed_limit := 80, warning_speed := 85, temporary := false,
         reason := "彎道限速", active := false } : SHPSpeedRestriction)
        ∈ s2.speed_restrictions ∧
      ({ distance := -1 / 5, aspect := .GREEN_CLEAR, speed_limit := 110, signal_id := "S001",
         approach_control := false, active := false } : SHPSignalData) ∈ s2.signals :=
  (C30_retired_entries_never_purged 0 [600, 1200, 1800] retiredFeedEngine retiredHeadFeed
    rfl).1.imp
    (fun _ h =>
      ⟨h.1,
       h.2.1 _ (List.mem_cons_self _ _) rfl (by norm_num),
       h.2.2 _ (List.mem_cons_self _ _) rfl (by norm_num)⟩)

/-! ## Positivity of the permitted speed -/

theorem permittedPositive_of_frame {e e2 : TRAATPIntegration} (h : PermittedPositive e)
    (hp : e2.system_state.permitted_speed = e.system_state.permitted_speed)
    (hf : feedData e2 = feedData e) : PermittedPositive e2 := by
  refine ⟨by rw [hp]; exact h.1, ?_⟩
  intro s2 hs2 r hr
  have h2 := feedData_some hs2
  rw [hf] at h2
  cases hs : e.shp_interface with
  | none => rw [feedData, hs] at h2; simp at h2
  | some s =>
    rw [feedData_some hs] at h2
    simp only [Option.some.injEq] at h2
    have hl : s.speed_restrictions = s2.speed_restrictions :=
      congrArg (fun x => x.speed_restrictions) h2
    exact h.2 s hs r (by rw [hl]; exact hr)

theorem permittedPositive_applyServiceBrake {e : TRAATPIntegration} (h : PermittedPositive e)
    (now : Int) : PermittedPositive (applyServiceBrake now e) :=
  permittedPositive_of_frame h (by rw [applyServiceBrake_system_state])
    (feedData_applyServiceBrake now e)

theorem permittedPositive_cutTraction {e : TRAATPIntegration} (h : PermittedPositive e)
    (now : Int) : PermittedPositive (cutTraction now e) :=
  permittedPositive_of_frame h (by rw [cutTraction_system_state])
    (feedData_cutTraction now e)

theorem permittedPositive_applyEmergencyBrake {e : TRAATPIntegration}
    (h : PermittedPositive e) (now : Int) : PermittedPositive (applyEmergencyBrake now e) :=
  permittedPositive_of_frame h
    (congrArg (fun x => x.1.1) (supervisionData_applyEmergencyBrake now e))
    (feedData_applyEmergencyBrake now e)

theorem permittedPositive_handleModeTransition {e : TRAATPIntegration}
    (h : PermittedPositive e) (now : Int) (m : TRAATPMode) :
    PermittedPositive (handleModeTransition now m e) := by
  cases m <;> unfold handleModeTransition <;> dsimp only <;> split_ifs <;> first
    | exact h
    | exact ⟨by show (0 : ℚ) < 40; norm_num, h.2⟩
    | (refine permittedPositive_applyEmergencyBrake ?_ now; exact h)

theorem processSHPSpeedRestrictions_permitted_pos {e : TRAATPIntegration}
    (h : PermittedPositive e) (now : Int) :
    0 < (processSHPSpeedRestrictions now e).system_state.permitted_speed := by
  unfold processSHPSpeedRestrictions
  split
  · exact h.1
  · next shp hshp =>
    split
    · exact h.1
    · next r hfind =>
      have hr : (0 : ℚ) < (r.speed_limit : ℚ) :=
        Int.cast_pos.mpr (h.2 shp hshp r (List.mem_of_find?_eq_some hfind))
      dsimp only
      split_ifs
      · rw [applyServiceBrake_system_state]; exact hr
      · exact hr
      · exact h.1

theorem processSHPSignalData_permitted_speed (now : Int) (e : TRAATPIntegration) :
    (processSHPSignalData now e).system_state.permitted_speed =
      e.system_state.permitted_speed := by
  unfold processSHPSignalData
  split
  · rfl
  · split
    · rfl
    · dsimp only
      split
      · dsimp only
        split_ifs
        · exact congrArg (fun x => x.1.1) (supervisionData_applyEmergencyBrake now e)
        · rw [applyServiceBrake_system_state]
        · rfl
      · rfl
      · rfl
      · rfl

theorem updateSpeedRestrictionsLoop_permitted_pos (now : Int) :
    ∀ (rest done : List SHPSpeedRestriction) (e : TRAATPIntegration),
      0 < e.system_state.permitted_speed →
      (∀ r ∈ done ++ rest, 0 < r.speed_limit) →
      0 < (SHPInterface.updateSpeedRestrictionsLoop now done rest
        e).system_state.permitted_speed := by
  intro rest
  induction rest with
  | nil =>
    intro done e h _
    unfold SHPInterface.updateSpeedRestrictionsLoop
    exact h
  | cons r rest ih =>
    intro done e h hl
    unfold SHPInterface.updateSpeedRestrictionsLoop
    dsimp only
    have hl2 : ∀ (r2 : SHPSpeedRestriction), r2.speed_limit = r.speed_limit →
        ∀ x ∈ (done ++ [r2]) ++ rest, 0 < x.speed_limit := by
      intro r2 h2 x hx
      simp only [List.append_assoc, List.singleton_append, List.mem_append, List.mem_cons] at hx
      rcases hx with hx | hx | hx
      · exact hl x (List.mem_append_left _ hx)
      · rw [hx, h2]; exact hl r (List.mem_append_right _ (List.mem_cons_self _ _))
      · exact hl x (List.mem_append_right _ (List.mem_cons_of_mem _ hx))
    split_ifs
    · refine ih _ _ ?_ (hl2 _ rfl)
      unfold speed_callback
      refine processSHPSpeedRestrictions_permitted_pos ?_ now
      refine ⟨h, ?_⟩
      intro s hs x hx
      have hs2 : (withSHP (fun s => { s with speed_restrictions := done ++
          { distance := r.distance - SHPInterface.currentSpeed e * (1 / 100),
            speed_limit := r.speed_limit, warning_speed := r.warning_speed,
            temporary := r.temporary, reason := r.reason, active := false } :: rest })
          e).shp_interface = some s := hs
      unfold withSHP at hs2
      cases he : e.shp_interface with
      | none => rw [he] at hs2; simp at hs2
      | some s0 =>
        rw [he] at hs2
        simp only [Option.map_some', Option.some.injEq] at hs2
        rw [← hs2] at hx
        exact hl2
          { distance := r.distance - SHPInterface.currentSpeed e * (1 / 100),
            speed_limit := r.speed_limit, warning_speed := r.warning_speed,
            temporary := r.temporary, reason := r.reason, active := false }
          rfl x (by simpa using hx)
    · exact ih _ _ h (hl2 _ rfl)
    · exact ih _ _ h (hl2 _ rfl)

theorem advanceRestriction_speed_limit (v : ℚ) (r : SHPSpeedRestriction) :
    (advanceRestriction v r).speed_limit = r.speed_limit := by
  unfold advanceRestriction
  dsimp only
  split_ifs <;> rfl

theorem permittedPositive_shp_update {e : TRAATPIntegration} (h : PermittedPositive e)
    (now : Int) : PermittedPositive (SHPInterface.update now e) := by
  cases hs : e.shp_interface with
  | none =>
    have : SHPInterface.update now e = e := by
      unfold SHPInterface.update; simp [hs]
    rw [this]; exact h
  | some s =>
    cases hc : s.connected with
    | false =>
      have : SHPInterface.update now e = e := by
        unfold SHPInterface.update; simp [hs, hc]
      rw [this]; exact h
    | true =>
      refine ⟨?_, ?_⟩
      · obtain ⟨st, hst, -⟩ := processSimRailData_shp_interface e s hs
        have h1 : 0 < (SHPInterface.processSimRailData e).system_state.permitted_speed := h.1
        have h2 : 0 < (SHPInterface.updateSpeedRestrictions now
            (SHPInterface.processSimRailData e)).system_state.permitted_speed := by
          unfold SHPInterface.updateSpeedRestrictions
          rw [hst]
          exact updateSpeedRestrictionsLoop_permitted_pos now _ _ _ h1
            (fun r hr => h.2 s hs r (by simpa using hr))
        have h3 : 0 < (SHPInterface.updateSignalData now
            (SHPInterface.updateSpeedRestrictions now
              (SHPInterface.processSimRailData e))).system_state.permitted_speed := by
          unfold SHPInterface.updateSignalData
          split
          · exact h2
          · exact updateSignalDataLoop_preserves
              (fun x => 0 < x.system_state.permitted_speed) (fun _ _ hx => hx)
              (fun now sig x hx => by
                show 0 < (signal_callback now sig x).system_state.permitted_speed
                unfold signal_callback
                rw [processSHPSignalData_permitted_speed]
                exact hx) now _ _ _ h2
        unfold SHPInterface.update
        simp only [hs, hc, not_true_eq_false, if_false]
        split
        · exact h3
        · exact h3
      · obtain ⟨s2, h1, -, -, h4, -, -⟩ := shp_update_collections now e s hs hc
        intro s3 hs3 r hr
        have : s3 = s2 := Option.some.inj (hs3.symm.trans h1)
        subst this
        rw [h4, List.mem_filter, List.mem_map] at hr
        obtain ⟨⟨r0, hr0, rfl⟩, -⟩ := hr
        rw [advanceRestriction_speed_limit]
        exact h.2 s hs r0 hr0

/-! ### A feed refresh that retires no restriction -/

theorem updateSpeedRestrictionsLoop_no_retire (now : Int) :
    ∀ (rest done : List SHPSpeedRestriction) (e : TRAATPIntegration),
      (∀ r ∈ rest, r.active = true →
        ¬ (r.distance - SHPInterface.currentSpeed e * (1 / 100) ≤ 0)) →
      (SHPInterface.updateSpeedRestrictionsLoop now done rest e).system_state =
        e.system_state := by
  intro rest
  induction rest with
  | nil =>
    intro done e _
    unfold SHPInterface.updateSpeedRestrictionsLoop
    rfl
  | cons r rest ih =>
    intro done e h
    have hrest : ∀ x ∈ rest, x.active = true →
        ¬ (x.distance - SHPInterface.currentSpeed e * (1 / 100) ≤ 0) :=
      fun x hx => h x (List.mem_cons_of_mem _ hx)
    unfold SHPInterface.updateSpeedRestrictionsLoop
    dsimp only
    by_cases hact : r.active = true
    · rw [if_pos hact, if_neg (h r (List.mem_cons_self _ _) hact)]
      exact ih _ e hrest
    · rw [if_neg hact]
      exact ih _ e hrest

theorem shp_update_permitted_of_no_retire (now : Int) (e : TRAATPIntegration)
    (hno : ∀ s : SHPInterface, e.shp_interface = some s →
      ∀ r ∈ s.speed_restrictions, r.active = true →
        ¬ (r.distance - (e.sim_speed + (e.speed_direction : ℚ) * 2) * (1 / 100) ≤ 0)) :
    (SHPInterface.update now e).system_state.permitted_speed =
      e.system_state.permitted_speed := by
  cases hs : e.shp_interface with
  | none =>
    have : SHPInterface.update now e = e := by
      unfold SHPInterface.update; simp [hs]
    rw [this]
  | some s =>
    cases hc : s.connected with
    | false =>
      have : SHPInterface.update now e = e := by
        unfold SHPInterface.update; simp [hs, hc]
      rw [this]
    | true =>
      obtain ⟨st, hst, hv⟩ := processSimRailData_shp_interface e s hs
      have hcs : SHPInterface.currentSpeed (SHPInterface.processSimRailData e) =
          e.sim_speed + (e.speed_direction : ℚ) * 2 := by
        rw [currentSpeed_some hst]; exact hv
      have h2 : (SHPInterface.updateSpeedRestrictions now
          (SHPInterface.processSimRailData e)).system_state.permitted_speed =
          e.system_state.permitted_speed := by
        unfold SHPInterface.updateSpeedRestrictions
        rw [hst]
        simp only [withSHP_system_state]
        rw [updateSpeedRestrictionsLoop_no_retire now _ _ _
          (fun r hr hact => by rw [hcs]; exact hno s hs r hr hact)]
        rfl
      have h3 : (SHPInterface.updateSignalData now
          (SHPInterface.updateSpeedRestrictions now
            (SHPInterface.processSimRailData e))).system_state.permitted_speed =
          e.system_state.permitted_speed := by
        unfold SHPInterface.updateSignalData
        split
        · exact h2
        · exact updateSignalDataLoop_preserves
            (fun x => x.system_state.permitted_speed = e.system_state.permitted_speed)
            (fun _ _ hx => hx)
            (fun now sig x hx => by
              show (signal_callback now sig x).system_state.permitted_speed =
                e.system_state.permitted_speed
              unfold signal_callback
              rw [processSHPSignalData_permitted_speed]
              exact hx) now _ _ _ h2
      unfold SHPInterface.update
      simp only [hs, hc, not_true_eq_false, if_false]
      split
      · exact h3
      · exact h3

theorem update_permitted_of_no_retire (now : Int) (e : TRAATPIntegration)
    (hno : ∀ s : SHPInterface, e.shp_interface = some s →
      ∀ r ∈ s.speed_restrictions, r.active = true →
        ¬ (r.distance - (e.sim_speed + (e.speed_direction : ℚ) * 2) * (1 / 100) ≤ 0)) :
    (update now e).system_state.permitted_speed = e.system_state.permitted_speed := by
  have h1 : (refreshFeed now { e with last_update_time := now }).system_state.permitted_speed =
      e.system_state.permitted_speed := by
    unfold refreshFeed
    split_ifs
    · exact shp_update_permitted_of_no_retire now { e with last_update_time := now } hno
    · rfl
  have h2 : (updateETCSSupervision now (runSafetyChecks now
      (refreshFeed now { e with last_update_time := now }))).system_state.permitted_speed =
      e.system_state.permitted_speed := by
    have ha := congrArg (fun x => x.1)
      (updateETCSSupervision_speeds now (runSafetyChecks now
        (refreshFeed now { e with last_update_time := now })))
    have hb := congrArg (fun x => x.1)
      (runSafetyChecks_speeds now (refreshFeed now { e with last_update_time := now }))
    exact ha.trans (hb.trans h1)
  unfold update
  split_ifs <;> first | rfl | exact h2

/-! ## What a tick folds into the state -/

/-- C22 (counterexample): the engine after `initialize()` and `start()` is running,
its feed holds an active restriction 500 m ahead with limit 80 km/h, below the
permitted speed of 130 km/h. The tick at 100 ms is effective and refreshes no feed;
after it `permitted_speed` is still 130 and `target_speed` is still 0. -/
theorem C22_tick_does_not_fold :
    startedEngine.running = true ∧
    ¬ (100 - startedEngine.last_update_time < 100) ∧
    (∃ shp r, startedEngine.shp_interface = some shp ∧ r ∈ shp.speed_restrictions ∧
      r.active = true ∧ r.distance = 500 ∧ r.speed_limit = 80) ∧
    startedEngine.system_state.permitted_speed = 130 ∧
    (update 100 startedEngine).system_state.permitted_speed = 130 ∧
    (update 100 startedEngine).system_state.target_speed = 0 ∧
    (update 100 startedEngine).system_state.distance_to_target = 0 := by
  have hdue : ¬ (100 - startedEngine.last_update_time < 100) := by
    rw [show startedEngine.last_update_time = 0 from rfl]; norm_num
  have hno : ¬ (startedEngine.shp_interface.isSome = true ∧
      100 - startedEngine.last_shp_update > 500) := by
    rw [show startedEngine.last_shp_update = 0 from rfl]; norm_num
  have h := update_of_no_refresh_speeds 100 startedEngine rfl hdue hno
  have hP : (update 100 startedEngine).system_state.permitted_speed = 130 :=
    congrArg (fun x => x.1) h
  have hT : (update 100 startedEngine).system_state.target_speed = 0 :=
    congrArg (fun x => x.2.1) h
  have hD : (update 100 startedEngine).system_state.distance_to_target = 0 :=
    congrArg (fun x => x.2.2.2) h
  refine ⟨rfl, hdue, ?_, rfl, hP, hT, hD⟩
  refine ⟨_, _, rfl, List.mem_cons_self _ _, rfl, rfl, rfl⟩

/-- C22 (amended): the tick itself does not run the restriction fold; only the
feed's speed callback does, when a restriction retires during a feed refresh. On an
effective tick in which no feed refresh occurs, `permitted_speed`, `target_speed`,
`current_speed` and `distance_to_target` keep their values; on an effective tick
whose feed refresh (if any) retires no restriction, `permitted_speed` keeps its
value; whatever restrictions the feed holds. -/
theorem C22_tick_without_callback (now : Int) (e : TRAATPIntegration)
    (hrun : e.running = true) (hdue : ¬ now - e.last_update_time < 100) :
    (¬ (e.shp_interface.isSome = true ∧ now - e.last_shp_update > 500) →
      (update now e).system_state.permitted_speed = e.system_state.permitted_speed ∧
      (update now e).system_state.target_speed = e.system_state.target_speed ∧
      (update now e).system_state.current_speed = e.system_state.current_speed ∧
      (update now e).system_state.distance_to_target = e.system_state.distance_to_target) ∧
    ((∀ s : SHPInterface, e.shp_interface = some s →
        ∀ r ∈ s.speed_restrictions, r.active = true →
          ¬ (r.distance - (e.sim_speed + (e.speed_direction : ℚ) * 2) * (1 / 100) ≤ 0)) →
      (update now e).system_state.permitted_speed = e.system_state.permitted_speed) := by
  refine ⟨?_, update_permitted_of_no_retire now e⟩
  intro hno
  have h := update_of_no_refresh_speeds now e hrun hdue hno
  exact ⟨congrArg (fun x => x.1) h, congrArg (fun x => x.2.1) h,
    congrArg (fun x => x.2.2.1) h, congrArg (fun x => x.2.2.2) h⟩

/-- C22 (witness, amended): the ticks at 100 ms (no feed refresh) and at 600 ms (a
feed refresh that retires nothing) of the engine just started, with the restriction
of 80 km/h at 500 m in the feed: the permitted speed stays 130. -/
theorem C22_tick_without_callback_witness :
    (update 100 startedEngine).system_state.permitted_speed = 130 ∧
    (update 100 startedEngine).system_state.target_speed = 0 ∧
    (update 600 startedEngine).system_state.permitted_speed = 130 := by
  have h100 := C22_tick_without_callback 100 startedEngine rfl
    (by rw [show startedEngine.last_update_time = 0 from rfl]; norm_num)
  have h600 := C22_tick_without_callback 600 startedEngine rfl
    (by rw [show startedEngine.last_update_time = 0 from rfl]; norm_num)
  have ha := h100.1 (by rw [show startedEngine.last_shp_update = 0 from rfl]; norm_num)
  have hb := h600.2 (by
    intro s hs r hr hact
    have hs2 : (SHPInterface.connect (SHPInterface.doInitialize SHPInterface.construct).2).2
        = s := Option.some.inj hs
    rw [← hs2] at hr
    rw [show startedEngine.sim_speed = 0 from rfl,
      show startedEngine.speed_direction = 1 from rfl]
    simp only [SHPInterface.connect, List.mem_cons, List.mem_singleton, List.not_mem_nil,
      or_false] at hr
    rcases hr with rfl | rfl | rfl <;> norm_num)
  exact ⟨ha.1, ha.2.1, hb⟩

theorem connect_limits_positive (s : SHPInterface) :
    ∀ r ∈ (SHPInterface.connect s).2.speed_restrictions, 0 < r.speed_limit := by
  intro r hr
  simp only [SHPInterface.connect, List.mem_cons, List.mem_singleton, List.not_mem_nil,
    or_false] at hr
  rcases hr with rfl | rfl | rfl <;> decide

theorem permittedPositive_connectToSimRail {e : TRAATPIntegration} (h : PermittedPositive e)
    (now : Int) : PermittedPositive (connectToSimRail now e).2 := by
  unfold connectToSimRail
  split
  · exact h
  · next s hs =>
    have hc : (SHPInterface.connect s).1 = true := rfl
    simp only [hc, if_true]
    refine ⟨h.1, ?_⟩
    intro s2 hs2 r hr
    have hs3 : some (SHPInterface.connect s).2 = some s2 := hs2
    rw [← Option.some.inj hs3] at hr
    exact connect_limits_positive s r hr

theorem permittedPositive_disconnectFromSimRail {e : TRAATPIntegration}
    (h : PermittedPositive e) (now : Int) :
    PermittedPositive (disconnectFromSimRail now e) := by
  refine ⟨h.1, ?_⟩
  intro s2 hs2 r hr
  have hs3 : e.shp_interface.map SHPInterface.disconnect = some s2 := hs2
  cases he : e.shp_interface with
  | none => rw [he] at hs3; simp at hs3
  | some s =>
    rw [he] at hs3
    simp only [Option.map_some', Option.some.injEq] at hs3
    rw [← hs3] at hr
    unfold SHPInterface.disconnect at hr
    split_ifs at hr <;> first
      | exact h.2 s he r hr
      | simp at hr

theorem permittedPositive_stop {e : TRAATPIntegration} (h : PermittedPositive e) (now : Int) :
    PermittedPositive (stop now e) := by
  have h1 : PermittedPositive { e with system_state :=
      { e.system_state with atp_active := false, current_mode := .STANDBY,
                            brake_intervention := false, traction_cut := false,
                            emergency_brake := false } } := h
  have h2 := permittedPositive_disconnectFromSimRail h1 now
  unfold stop
  split_ifs <;> first | exact h | exact h2

theorem permittedPositive_start {e : TRAATPIntegration} (h : PermittedPositive e) (now : Int) :
    PermittedPositive (start now e).2 := by
  have hc := permittedPositive_connectToSimRail h now
  unfold start
  dsimp only
  split_ifs <;> first | exact h | exact hc

theorem permittedPositive_updateETCSSupervision {e : TRAATPIntegration}
    (h : PermittedPositive e) (now : Int) :
    PermittedPositive (updateETCSSupervision now e) := by
  have h1 : PermittedPositive (writeSupervisionData e) := h
  have h2 : PermittedPositive (checkServiceBrake now (writeSupervisionData e)) := by
    unfold checkServiceBrake
    split_ifs <;> first | exact h1 | exact permittedPositive_applyServiceBrake h1 now
  have h3 : PermittedPositive
      (checkEmergencyBrake now (checkServiceBrake now (writeSupervisionData e))) := by
    unfold checkEmergencyBrake
    split_ifs <;> first | exact h2 | exact permittedPositive_applyEmergencyBrake h2 now
  unfold updateETCSSupervision checkBrakeRelease
  split_ifs <;> first | exact h | exact h3

theorem permittedPositive_handleSafetyViolation {e : TRAATPIntegration}
    (h : PermittedPositive e) (now : Int) (violation : String) :
    PermittedPositive (handleSafetyViolation now violation e) := by
  unfold handleSafetyViolation
  refine permittedPositive_handleModeTransition ?_ now _
  refine permittedPositive_cutTraction ?_ now
  refine permittedPositive_applyEmergencyBrake ?_ now
  exact h

theorem permittedPositive_performSafetyChecks {e : TRAATPIntegration}
    (h : PermittedPositive e) : PermittedPositive (performSafetyChecks e).2 := by
  unfold performSafetyChecks
  dsimp only
  split_ifs <;> exact h

theorem permittedPositive_refreshFeed {e : TRAATPIntegration} (h : PermittedPositive e)
    (now : Int) : PermittedPositive (refreshFeed now e) := by
  unfold refreshFeed
  split_ifs <;> first | exact h | exact permittedPositive_shp_update h now

theorem permittedPositive_runSafetyChecks {e : TRAATPIntegration} (h : PermittedPositive e)
    (now : Int) : PermittedPositive (runSafetyChecks now e) := by
  unfold runSafetyChecks
  split_ifs <;> first
    | exact permittedPositive_performSafetyChecks h
    | exact permittedPositive_handleSafetyViolation
        (permittedPositive_performSafetyChecks h) now _

theorem permittedPositive_update {e : TRAATPIntegration} (h : PermittedPositive e)
    (now : Int) : PermittedPositive (update now e) := by
  have h1 : PermittedPositive { e with last_update_time := now } := h
  unfold update
  split_ifs <;> first
    | exact h
    | exact permittedPositive_updateETCSSupervision
        (permittedPositive_runSafetyChecks (permittedPositive_refreshFeed h1 now) now) now

theorem permittedPositive_step {e : TRAATPIntegration} (h : PermittedPositive e) (op : Op)
    (hop : positiveSpeedOp op) : PermittedPositive (step op e) := by
  cases op with
  | doInitialize now =>
    simp only [step, doInitialize]
    split_ifs <;> first
      | exact h
      | (refine ⟨h.1, ?_⟩
         intro s2 hs2 r hr
         have hs3 : some initializeSHPInterface.2 = some s2 := hs2
         rw [← Option.some.inj hs3] at hr
         exact connect_limits_positive SHPInterface.construct r hr)
  | shutdown now =>
    have h1 := permittedPositive_stop h now
    simp only [step, shutdown]
    split_ifs <;> first
      | exact h
      | exact ⟨h1.1, fun s2 hs2 => by cases hs2⟩
  | start now => exact permittedPositive_start h now
  | stop now => exact permittedPositive_stop h now
  | update now => exact permittedPositive_update h now
  | setMode now mode => exact permittedPositive_handleModeTransition h now mode
  | enableATP now enable =>
    simp only [step, enableATP]
    split_ifs <;> first
      | exact h
      | (refine permittedPositive_handleModeTransition ?_ now _; exact h)
  | enableSHP now enable =>
    refine ⟨h.1, ?_⟩
    intro s2 hs2 r hr
    have hs3 : e.shp_interface.map (SHPInterface.enableTRAATPMode enable) = some s2 := hs2
    cases he : e.shp_interface with
    | none => rw [he] at hs3; simp at hs3
    | some s =>
      rw [he] at hs3
      simp only [Option.map_some', Option.some.injEq] at hs3
      rw [← hs3] at hr
      exact h.2 s he r hr
  | enableETCS now enable => exact h
  | setPermittedSpeed speed => exact ⟨hop, h.2⟩
  | setTargetSpeed speed => exact h
  | setCurrentSpeed speed => exact h
  | setDistanceToTarget distance => exact h
  | applyServiceBrake now => exact permittedPositive_applyServiceBrake h now
  | applyEmergencyBrake now => exact permittedPositive_applyEmergencyBrake h now
  | releaseBrake now => exact h
  | cutTraction now => exact permittedPositive_cutTraction h now
  | restoreTraction now => exact h
  | clearEventHistory => exact h
  | runSystemTest now =>
    simp only [step, runSystemTest]
    split_ifs <;> exact h
  | performCalibration now => exact h
  | connectToSimRail now => exact permittedPositive_connectToSimRail h now
  | disconnectFromSimRail now => exact permittedPositive_disconnectFromSimRail h now
  | forceSimRailUpdate now =>
    simp only [step, forceSimRailUpdate, SHPInterface.forceUpdate]
    split
    · exact h
    · split_ifs <;> first | exact h | exact permittedPositive_shp_update h now
  | resetToDefaults now => exact ⟨by show (0 : ℚ) < 130; norm_num, h.2⟩

theorem permittedPositive_run (ops : List Op) :
    ∀ e : TRAATPIntegration, PermittedPositive e → (∀ op ∈ ops, positiveSpeedOp op) →
      PermittedPositive (run ops e) := by
  induction ops with
  | nil => intro e h _; exact h
  | cons op ops ih =>
    intro e h hops
    simp only [run, List.foldl_cons]
    exact ih _ (permittedPositive_step h op (hops op (List.mem_cons_self _ _)))
      (fun o ho => hops o (List.mem_cons_of_mem _ ho))

/-- C21 (counterexample): `setPermittedSpeed(0)` on the engine just constructed gives
a reachable state with `permitted_speed = 0`. -/
theorem C21_setPermittedSpeed_unchecked :
    Reachable zeroPermittedEngine ∧
    ¬ (zeroPermittedEngine.system_state.permitted_speed > 0) := by
  refine ⟨reachable_run _ _ (Reachable.construct zeroBridge), ?_⟩
  rw [show zeroPermittedEngine.system_state.permitted_speed = 0 from rfl]
  norm_num

/-- C21 (amended): `permitted_speed > 0` holds in every state reached from
construction through public operations among which `setPermittedSpeed` is only
called with a positive speed (it stores any value unchecked); `setMode`, the
restriction fold run by the feed callback, `resetToDefaults` and `update` keep it
positive, the speed limits of the simulated track being positive. -/
theorem C21_permitted_speed_positive (ops : List Op) (bridge : Bridge)
    (hops : ∀ op ∈ ops, positiveSpeedOp op) :
    (run ops (TRAATPIntegration.construct bridge)).system_state.permitted_speed > 0 ∧
    (∀ (speed : ℚ) (e : TRAATPIntegration),
      (setPermittedSpeed speed e).system_state.permitted_speed = speed) :=
  ⟨(permittedPositive_run ops _
      ⟨by show (0 : ℚ) < 130; norm_num, fun s hs => by cases hs⟩ hops).1,
   fun _ _ => rfl⟩

/-- C21 (witness, amended): a run that initialises, starts, sets a permitted speed of
90, enters OnSight, refreshes the feed and resets to defaults. -/
theorem C21_permitted_speed_positive_witness :
    (run [.doInitialize 0, .start 0, .setPermittedSpeed 90, .setMode 10 .ON_SIGHT,
        .update 600, .forceSimRailUpdate 700, .resetToDefaults 800]
      (TRAATPIntegration.construct zeroBridge)).system_state.permitted_speed > 0 :=
  (C21_permitted_speed_positive
    [.doInitialize 0, .start 0, .setPermittedSpeed 90, .setMode 10 .ON_SIGHT,
      .update 600, .forceSimRailUpdate 700, .resetToDefaults 800] zeroBridge
    (by
      intro op hop
      simp only [List.mem_cons, List.mem_singleton, List.not_mem_nil, or_false] at hop
      rcases hop with rfl | rfl | rfl | rfl | rfl | rfl | rfl <;>
        simp [positiveSpeedOp])).1

end ETCS_ATP
